import Mathlib

/-!
Shallow embedding of the core of the `flippy` dynamically-triangulated-membrane
engine (`vec3.hpp`, `Nodes.hpp`, `Triangulation.hpp`, `MonteCarloUpdater.hpp`),
together with proofs settling the claims of the specification against it.

The C++ code is templated over a floating-point type `Real` and an unsigned
index type `Index`.  The embedding is parametric over a linear ordered field
`R` in place of `Real` (so all theorems hold in exact real arithmetic, the
reading the specification's claims use), and uses `ℕ` in place of `Index`.
The square root used by `vec3::norm` is an explicit function parameter
`sq : R → R`; no theorem below depends on any property of `sq`, so each holds
for the real square root in particular.  Mesh state is a record of per-node
attribute maps, mirroring the `Nodes` store plus the private data members of
`Triangulation`; C++ in-place mutation becomes explicit state passing.
-/

namespace fp

/-- Embedding of `fp::vec3<Real>` (vec3.hpp): an ordered triple over `R`. -/
structure vec3 (R : Type) where
  x : R
  y : R
  z : R
deriving DecidableEq, Repr

namespace vec3

variable {R : Type} [LinearOrderedField R]

instance : Add (vec3 R) := ⟨fun a b => ⟨a.x + b.x, a.y + b.y, a.z + b.z⟩⟩

instance : Sub (vec3 R) := ⟨fun a b => ⟨a.x - b.x, a.y - b.y, a.z - b.z⟩⟩

instance : Neg (vec3 R) := ⟨fun a => ⟨-a.x, -a.y, -a.z⟩⟩

instance : Zero (vec3 R) := ⟨⟨0, 0, 0⟩⟩

/-- Embedding of `vec3::scale` / `operator*` (scalar multiplication). -/
def smul (s : R) (v : vec3 R) : vec3 R := ⟨s * v.x, s * v.y, s * v.z⟩

/-- Embedding of `vec3::operator/` (componentwise division by a scalar). -/
def sdiv (v : vec3 R) (s : R) : vec3 R := ⟨v.x / s, v.y / s, v.z / s⟩

/-- Embedding of `vec3::dot`. -/
def dot (a b : vec3 R) : R := a.x * b.x + a.y * b.y + a.z * b.z

/-- Embedding of `vec3::cross`. -/
def cross (a b : vec3 R) : vec3 R :=
  ⟨a.y * b.z - a.z * b.y, a.z * b.x - a.x * b.z, a.x * b.y - a.y * b.x⟩

/-- Embedding of `vec3::norm_square` (`this->dot(*this)`). -/
def norm_square (a : vec3 R) : R := a.dot a

end vec3

/-- Embedding of `fp::Geometry<Real, Index>` (Triangulation.hpp): the additive
triple of area, volume and unit bending energy aggregated over a patch. -/
structure Geometry (R : Type) where
  area : R
  volume : R
  unit_bending_energy : R
deriving DecidableEq, Repr

namespace Geometry

variable {R : Type} [LinearOrderedField R]

instance : Add (Geometry R) :=
  ⟨fun a b => ⟨a.area + b.area, a.volume + b.volume,
    a.unit_bending_energy + b.unit_bending_energy⟩⟩

instance : Sub (Geometry R) :=
  ⟨fun a b => ⟨a.area - b.area, a.volume - b.volume,
    a.unit_bending_energy - b.unit_bending_energy⟩⟩

instance : Neg (Geometry R) :=
  ⟨fun a => ⟨-a.area, -a.volume, -a.unit_bending_energy⟩⟩

/-- The `Geometry()` default constructor zero-initiates all members. -/
instance : Zero (Geometry R) := ⟨⟨0, 0, 0⟩⟩

@[simp] theorem add_area (a b : Geometry R) : (a + b).area = a.area + b.area := rfl

@[simp] theorem add_volume (a b : Geometry R) : (a + b).volume = a.volume + b.volume := rfl

@[simp] theorem add_ube (a b : Geometry R) :
    (a + b).unit_bending_energy = a.unit_bending_energy + b.unit_bending_energy := rfl

@[simp] theorem sub_area (a b : Geometry R) : (a - b).area = a.area - b.area := rfl

@[simp] theorem sub_volume (a b : Geometry R) : (a - b).volume = a.volume - b.volume := rfl

@[simp] theorem sub_ube (a b : Geometry R) :
    (a - b).unit_bending_energy = a.unit_bending_energy - b.unit_bending_energy := rfl

@[simp] theorem neg_area (a : Geometry R) : (-a).area = -a.area := rfl

@[simp] theorem neg_volume (a : Geometry R) : (-a).volume = -a.volume := rfl

@[simp] theorem neg_ube (a : Geometry R) :
    (-a).unit_bending_energy = -a.unit_bending_energy := rfl

@[simp] theorem zero_area : (0 : Geometry R).area = 0 := rfl

@[simp] theorem zero_volume : (0 : Geometry R).volume = 0 := rfl

@[simp] theorem zero_ube : (0 : Geometry R).unit_bending_energy = 0 := rfl

theorem ext_iff {a b : Geometry R} :
    a = b ↔ a.area = b.area ∧ a.volume = b.volume ∧
      a.unit_bending_energy = b.unit_bending_energy := by
  cases a; cases b; simp [Geometry.mk.injEq]

instance : AddCommGroup (Geometry R) where
  add_assoc a b c := by rw [ext_iff]; refine ⟨?_, ?_, ?_⟩ <;> simp <;> ring
  zero_add a := by rw [ext_iff]; refine ⟨?_, ?_, ?_⟩ <;> simp
  add_zero a := by rw [ext_iff]; refine ⟨?_, ?_, ?_⟩ <;> simp
  add_comm a b := by rw [ext_iff]; refine ⟨?_, ?_, ?_⟩ <;> simp <;> ring
  neg_add_cancel a := by rw [ext_iff]; refine ⟨?_, ?_, ?_⟩ <;> simp
  sub_eq_add_neg a b := by rw [ext_iff]; refine ⟨?_, ?_, ?_⟩ <;> simp <;> ring
  nsmul := nsmulRec
  zsmul := zsmulRec

end Geometry

/-- Embedding of the `VERY_LARGE_NUMBER_` literal (`LONG_LONG_MAX`,
`2^63 - 1`), the sentinel used to poison uninitialized index fields.  The
index type is modelled as `ℕ`, on which the C++ `static_cast<Index>` of this
value is the identity for any unsigned index type of at least 64 bits. -/
def VERY_LARGE_NUMBER : ℕ := 2 ^ 63 - 1

/-- Embedding of `BOND_DONATION_CUTOFF` (Triangulation.hpp line 47): a node
needs more than this number of bonds to be allowed to donate one. -/
def BOND_DONATION_CUTOFF : ℕ := 4

/-- Embedding of `fp::BondFlipData<Index>` with its default member
initializers. -/
structure BondFlipData where
  flipped : Bool := false
  common_nn_0 : ℕ := VERY_LARGE_NUMBER
  common_nn_1 : ℕ := VERY_LARGE_NUMBER
deriving DecidableEq, Repr

/-- Embedding of `fp::Neighbors<Index>`: the pair of ring positions (or ids)
just before and just after a given one. -/
structure Neighbors where
  j_m_1 : ℕ := VERY_LARGE_NUMBER
  j_p_1 : ℕ := VERY_LARGE_NUMBER
deriving DecidableEq, Repr

/-- Embedding of `Neighbors::plus_one`: `j+1` with wraparound at
`ring_size - 1`. -/
def Neighbors.plus_one (j ring_size : ℕ) : ℕ :=
  if j < ring_size - 1 then j + 1 else 0

/-- Embedding of `Neighbors::minus_one`: `j-1` with wraparound at `0`. -/
def Neighbors.minus_one (j ring_size : ℕ) : ℕ :=
  if j = 0 then ring_size - 1 else j - 1

/-- State of a `Triangulation<Real, Index, type>` object: the `Nodes` store
(per-node attribute maps over global node ids) together with the private data
members of the `Triangulation` class that the core operations read or write.
C++ member mutation becomes functional update of this record. -/
structure MeshState (R : Type) where
  n_nodes : ℕ
  pos : ℕ → vec3 R
  nn_ids : ℕ → List ℕ
  nn_distances : ℕ → List (vec3 R)
  area : ℕ → R
  volume : ℕ → R
  unit_bending_energy : ℕ → R
  curvature_vec : ℕ → vec3 R
  verlet_list : ℕ → List ℕ
  bulk_nodes_ids : List ℕ
  boundary_nodes_ids : List ℕ
  global_geometry : Geometry R
  pre_update_geometry : Geometry R
  post_update_geometry : Geometry R

namespace MeshState

variable {R : Type} [LinearOrderedField R]

/-- Embedding of `Geometry(Node const&)`: the geometric data of one node. -/
def node_geometry (s : MeshState R) (node_id : ℕ) : Geometry R :=
  ⟨s.area node_id, s.volume node_id, s.unit_bending_energy node_id⟩

/-- Embedding of `Triangulation::update_nn_distance_vectors`: refresh the
stored distance vectors of a node from the positions, in ring order.  The C++
loop writes `nn_distances[i]` for each `i` below the ring length; on every
engine state the two lists have equal length, so this is the same
replacement. -/
def update_nn_distance_vectors (s : MeshState R) (node_id : ℕ) : MeshState R :=
  { s with nn_distances := (Function.update s.nn_distances node_id
      ((s.nn_ids node_id).map (fun nn_id => s.pos nn_id - s.pos node_id))) }

/-- Embedding of `Node::pop_nn` (Nodes.hpp): find `to_pop_nn_id` in the ring;
if found, erase it and the distance entry at the same position, else do
nothing.  The C++ `find != end()` test is membership. -/
def pop_nn (s : MeshState R) (node_id to_pop_nn_id : ℕ) : MeshState R :=
  let dist := (s.nn_ids node_id).indexOf to_pop_nn_id
  if to_pop_nn_id ∈ s.nn_ids node_id then
    { s with
      nn_ids := (Function.update s.nn_ids node_id
        ((s.nn_ids node_id).eraseIdx dist)),
      nn_distances := (Function.update s.nn_distances node_id
        ((s.nn_distances node_id).eraseIdx dist)) }
  else s

/-- Embedding of `Node::emplace_nn_id` composed with the `Nodes` wrapper that
passes `pos(to_emplace_nn_id)` as the new neighbor's position: if
`loc_idx < nn_ids.size()`, insert the id at `loc_idx` and the distance vector
`pos(new) - pos(center)` at the same position, else do nothing. -/
def emplace_nn_id (s : MeshState R) (node_id to_emplace_nn_id loc_idx : ℕ) :
    MeshState R :=
  if loc_idx < (s.nn_ids node_id).length then
    { s with
      nn_ids := (Function.update s.nn_ids node_id
        ((s.nn_ids node_id).insertIdx loc_idx to_emplace_nn_id)),
      nn_distances := (Function.update s.nn_distances node_id
        ((s.nn_distances node_id).insertIdx loc_idx
          (s.pos to_emplace_nn_id - s.pos node_id))) }
  else s

/-- Embedding of `Triangulation::emplace_before`: locate `anchor_id` in the
ring of `center_node_id` (`std::find`; its index is the ring length when
absent) and emplace `new_value` at that position. -/
def emplace_before (s : MeshState R) (center_node_id anchor_id new_value : ℕ) :
    MeshState R :=
  emplace_nn_id s center_node_id new_value
    ((s.nn_ids center_node_id).indexOf anchor_id)

/-- Embedding of `Triangulation::delete_connection_between_nodes_of_old_edge`. -/
def delete_connection_between_nodes_of_old_edge (s : MeshState R)
    (old_node_id0 old_node_id1 : ℕ) : MeshState R :=
  pop_nn (pop_nn s old_node_id0 old_node_id1) old_node_id1 old_node_id0

/-- Embedding of `Triangulation::flip_bond_unchecked`: rewire the diamond
`node_id, nn_id, common_nn_j_m_1, common_nn_j_p_1` and report the receivers. -/
def flip_bond_unchecked (s : MeshState R)
    (node_id nn_id common_nn_j_m_1 common_nn_j_p_1 : ℕ) :
    MeshState R × BondFlipData :=
  let s1 := emplace_before s common_nn_j_m_1 node_id common_nn_j_p_1
  let s2 := emplace_before s1 common_nn_j_p_1 nn_id common_nn_j_m_1
  let s3 := delete_connection_between_nodes_of_old_edge s2 node_id nn_id
  (s3, { flipped := true, common_nn_0 := common_nn_j_m_1,
         common_nn_1 := common_nn_j_p_1 })

/-- Embedding of `std::set_intersection` on two ascending ranges, as used by
`Triangulation::common_neighbours`: the classical two-pointer merge.  The
extra fuel argument (consumed once per step) makes the recursion structural;
`set_intersection` below supplies fuel that can never run out, so the
wrapped function computes exactly the merge. -/
def set_intersection_fuel : ℕ → List ℕ → List ℕ → List ℕ
  | 0, _, _ => []
  | _ + 1, [], _ => []
  | _ + 1, _ :: _, [] => []
  | fuel + 1, a :: as, b :: bs =>
    if a < b then set_intersection_fuel fuel as (b :: bs)
    else if b < a then set_intersection_fuel fuel (a :: as) bs
    else a :: set_intersection_fuel fuel as bs

/-- Embedding of `std::set_intersection`, with adequate fuel. -/
def set_intersection (l1 l2 : List ℕ) : List ℕ :=
  set_intersection_fuel (l1.length + l2.length) l1 l2

/-- Embedding of `Triangulation::common_neighbours`: sort copies of both rings
ascending (`std::sort`) and intersect them (`std::set_intersection`). -/
def common_neighbours (s : MeshState R) (node_id_0 node_id_1 : ℕ) : List ℕ :=
  set_intersection
    (List.insertionSort (· ≤ ·) (s.nn_ids node_id_0))
    (List.insertionSort (· ≤ ·) (s.nn_ids node_id_1))

/-- Embedding of `Triangulation::previous_and_next_neighbour_local_ids`: the
ring positions just before and just after the position of `nn_id` in the ring
of `node_id`, with wraparound. -/
def previous_and_next_neighbour_local_ids (s : MeshState R)
    (node_id nn_id : ℕ) : Neighbors :=
  let local_nn_id := (s.nn_ids node_id).indexOf nn_id
  let nn_number := (s.nn_ids node_id).length
  { j_m_1 := Neighbors.minus_one local_nn_id nn_number,
    j_p_1 := Neighbors.plus_one local_nn_id nn_number }

/-- Embedding of `Triangulation::previous_and_next_neighbour_global_ids`: the
global ids stored at the previous and next ring positions.  The C++ code
indexes the ring vector directly; out-of-range access is undefined behavior
there, modelled by the poison value. -/
def previous_and_next_neighbour_global_ids (s : MeshState R)
    (node_id nn_id : ℕ) : Neighbors :=
  let neighbors := previous_and_next_neighbour_local_ids s node_id nn_id
  { j_m_1 := (s.nn_ids node_id).getD neighbors.j_m_1 VERY_LARGE_NUMBER,
    j_p_1 := (s.nn_ids node_id).getD neighbors.j_p_1 VERY_LARGE_NUMBER }

end MeshState

/-- Embedding of `Triangulation::cot_between_vectors`:
`v1.dot(v2) / (v1.cross(v2)).norm()`, with the square root `sq` explicit. -/
def cot_between_vectors {R : Type} [LinearOrderedField R] (sq : R → R)
    (v1 v2 : vec3 R) : R :=
  v1.dot v2 / sq (v1.cross v2).norm_square

/-- Embedding of `Triangulation::mixed_area` (the non-deprecated overload
taking precomputed cotangents). -/
def mixed_area {R : Type} [LinearOrderedField R]
    (lij lij_p_1 : vec3 R) (triangle_area cot_at_j cot_at_j_p_1 : R) : R :=
  if 0 < cot_at_j ∧ 0 < cot_at_j_p_1 then
    if 0 < lij.dot lij_p_1 then
      (cot_at_j_p_1 * lij.dot lij + cot_at_j * lij_p_1.dot lij_p_1) / 8
    else
      triangle_area / 2
  else
    triangle_area / 4

namespace MeshState

variable {R : Type} [LinearOrderedField R]

/-- The ring walk of `Triangulation::update_bulk_node_geometry`: accumulate
`(area_sum, face_normal_sum, local_curvature_vec)` over the triangle fan
`(j, j+1 mod n)` of the given distance-vector list, exactly as the C++ loop
does. -/
def bulk_geometry_accumulate (sq : R → R) (ds : List (vec3 R)) :
    R × vec3 R × vec3 R :=
  let nn_number := ds.length
  (List.range nn_number).foldl
    (fun acc j =>
      let j_p_1 := Neighbors.plus_one j nn_number
      let lij := ds.getD j 0
      let lij_p_1 := ds.getD j_p_1 0
      let ljj_p_1 := lij_p_1 - lij
      let cot_at_j := cot_between_vectors sq lij (vec3.smul (-1) ljj_p_1)
      let cot_at_j_p_1 := cot_between_vectors sq lij_p_1 ljj_p_1
      let face_normal := lij.cross lij_p_1
      let face_normal_norm := sq face_normal.norm_square
      let face_area :=
        mixed_area lij lij_p_1 ((1 / 2 : R) * face_normal_norm) cot_at_j cot_at_j_p_1
      (acc.1 + face_area,
       acc.2.1 + vec3.sdiv (vec3.smul face_area face_normal) face_normal_norm,
       acc.2.2 - (vec3.smul cot_at_j_p_1 lij + vec3.smul cot_at_j lij_p_1)))
    (0, 0, 0)

/-- Embedding of `Triangulation::update_bulk_node_geometry`: refresh the
distance vectors of the node, walk its ring accumulating mixed areas, face
normals and the curvature sum, then write the node's area, volume, curvature
vector and unit bending energy. -/
def update_bulk_node_geometry (sq : R → R) (s : MeshState R) (node_id : ℕ) :
    MeshState R :=
  let s1 := update_nn_distance_vectors s node_id
  let acc := bulk_geometry_accumulate sq (s1.nn_distances node_id)
  let area_sum := acc.1
  let face_normal_sum := acc.2.1
  let local_curvature_vec := acc.2.2
  { s1 with
    area := (Function.update s1.area node_id area_sum),
    volume := (Function.update s1.volume node_id
      ((s1.pos node_id).dot face_normal_sum / 3)),
    curvature_vec := (Function.update s1.curvature_vec node_id
      (vec3.sdiv (-local_curvature_vec) (2 * area_sum))),
    unit_bending_energy := (Function.update s1.unit_bending_energy node_id
      (local_curvature_vec.dot local_curvature_vec / (8 * area_sum))) }

/-- Embedding of `Triangulation::update_boundary_node_geometry`: boundary
nodes only refresh their distance vectors; their scalars stay fixed. -/
def update_boundary_node_geometry (s : MeshState R) (node_id : ℕ) :
    MeshState R :=
  update_nn_distance_vectors s node_id

/-- Embedding of `Triangulation::get_two_ring_geometry`: aggegate the stored
geometry of the node and all its ring neighbors. -/
def get_two_ring_geometry (s : MeshState R) (node_id : ℕ) : Geometry R :=
  (s.nn_ids node_id).foldl (fun trg nn_id => trg + s.node_geometry nn_id)
    (s.node_geometry node_id)

/-- Embedding of
`Triangulation::update_two_ring_geometry_on_a_boundary_free_triangulation`. -/
def update_two_ring_geometry_boundary_free (sq : R → R) (s : MeshState R)
    (node_id : ℕ) : MeshState R :=
  let s1 := update_bulk_node_geometry sq s node_id
  (s1.nn_ids node_id).foldl
    (fun st nn_id => update_bulk_node_geometry sq st nn_id) s1

/-- Embedding of `Triangulation::update_global_geometry`:
`global_geometry_ += lg_new - lg_old`. -/
def update_global_geometry (s : MeshState R) (lg_old lg_new : Geometry R) :
    MeshState R :=
  { s with global_geometry := s.global_geometry + (lg_new - lg_old) }

/-- Embedding of `Triangulation::calculate_diamond_geometry`. -/
def calculate_diamond_geometry (s : MeshState R)
    (node_id nn_id cnn_0 cnn_1 : ℕ) : Geometry R :=
  s.node_geometry node_id + s.node_geometry nn_id + s.node_geometry cnn_0 +
    s.node_geometry cnn_1

/-- Embedding of `Triangulation::update_diamond_geometry`: recompute the bulk
geometry of the four diamond nodes in order. -/
def update_diamond_geometry (sq : R → R) (s : MeshState R)
    (node_id nn_id cnn_0 cnn_1 : ℕ) : MeshState R :=
  update_bulk_node_geometry sq
    (update_bulk_node_geometry sq
      (update_bulk_node_geometry sq
        (update_bulk_node_geometry sq s node_id) nn_id) cnn_0) cnn_1

/-- Embedding of `Triangulation::move_node` (spherical specialization: the
two-ring update is the boundary-free one): record the two-ring aggregate,
displace the node, recompute the two-ring, and apply the aggregate delta. -/
def move_node (sq : R → R) (s : MeshState R) (node_id : ℕ)
    (displacement_vector : vec3 R) : MeshState R :=
  let pre := get_two_ring_geometry s node_id
  let s1 := { s with pos := (Function.update s.pos node_id
    (s.pos node_id + displacement_vector)) }
  let s2 := update_two_ring_geometry_boundary_free sq s1 node_id
  let post := get_two_ring_geometry s2 node_id
  update_global_geometry
    { s2 with pre_update_geometry := pre, post_update_geometry := post }
    pre post

/-- Embedding of `Triangulation::flip_bulk_bond`: the guarded bond flip of
the spherical triangulation, with its degree, bond-length, and two
common-neighbour checks, the post-rewrite rollback, and the local/global
geometry updates. -/
def flip_bulk_bond (sq : R → R) (s : MeshState R) (node_id nn_id : ℕ)
    (min_bond_length_square max_bond_length_square : R) :
    MeshState R × BondFlipData :=
  if BOND_DONATION_CUTOFF < (s.nn_ids node_id).length then
    if BOND_DONATION_CUTOFF < (s.nn_ids nn_id).length then
      let common_nns := previous_and_next_neighbour_global_ids s node_id nn_id
      let bond_length_square :=
        (s.pos common_nns.j_m_1 - s.pos common_nns.j_p_1).norm_square
      if bond_length_square < max_bond_length_square ∧
          min_bond_length_square < bond_length_square then
        if (common_neighbours s node_id nn_id).length = 2 then
          let s0 := { s with pre_update_geometry :=
            (calculate_diamond_geometry s node_id nn_id common_nns.j_m_1
              common_nns.j_p_1) }
          let fr := flip_bond_unchecked s0 node_id nn_id common_nns.j_m_1
            common_nns.j_p_1
          if (common_neighbours fr.1 fr.2.common_nn_0 fr.2.common_nn_1).length
              = 2 then
            let s2 := update_diamond_geometry sq fr.1 node_id nn_id
              common_nns.j_m_1 common_nns.j_p_1
            let s3 := { s2 with post_update_geometry :=
              (calculate_diamond_geometry s2 node_id nn_id common_nns.j_m_1
                common_nns.j_p_1) }
            (update_global_geometry s3 s3.pre_update_geometry
              s3.post_update_geometry, fr.2)
          else
            ((flip_bond_unchecked fr.1 fr.2.common_nn_0 fr.2.common_nn_1
                nn_id node_id).1,
             { fr.2 with flipped := false })
        else (s, {})
      else (s, {})
    else (s, {})
  else (s, {})

/-- Embedding of `Triangulation::flip_bond_in_quadrilateral` (planar path):
like the bulk flip but without the degree checks, on precomputed common
neighbors. -/
def flip_bond_in_quadrilateral (sq : R → R) (s : MeshState R)
    (node_id nn_id : ℕ) (common_nns : Neighbors)
    (min_bond_length_square max_bond_length_square : R) :
    MeshState R × BondFlipData :=
  let bond_length_square :=
    (s.pos common_nns.j_m_1 - s.pos common_nns.j_p_1).norm_square
  if bond_length_square < max_bond_length_square ∧
      min_bond_length_square < bond_length_square then
    if (common_neighbours s node_id nn_id).length = 2 then
      let s0 := { s with pre_update_geometry :=
        (calculate_diamond_geometry s node_id nn_id common_nns.j_m_1
          common_nns.j_p_1) }
      let fr := flip_bond_unchecked s0 node_id nn_id common_nns.j_m_1
        common_nns.j_p_1
      if (common_neighbours fr.1 fr.2.common_nn_0 fr.2.common_nn_1).length
          = 2 then
        let s2 := update_diamond_geometry sq fr.1 node_id nn_id
          common_nns.j_m_1 common_nns.j_p_1
        let s3 := { s2 with post_update_geometry :=
          (calculate_diamond_geometry s2 node_id nn_id common_nns.j_m_1
            common_nns.j_p_1) }
        (update_global_geometry s3 s3.pre_update_geometry
          s3.post_update_geometry, fr.2)
      else
        ((flip_bond_unchecked fr.1 fr.2.common_nn_0 fr.2.common_nn_1
            nn_id node_id).1,
         { fr.2 with flipped := false })
    else (s, {})
  else (s, {})

/-- Embedding of `Triangulation::flip_bond` for the
`EXPERIMENTAL_PLANAR_TRIANGULATION` specialization: a flip request touching
the boundary set (the two donors, or the two common neighbors found by the
ring walk) returns a default-initialized report and leaves the state
unchanged. -/
def flip_bond_planar (sq : R → R) (s : MeshState R) (node_id nn_id : ℕ)
    (min_bond_length_square max_bond_length_square : R) :
    MeshState R × BondFlipData :=
  if node_id ∈ s.boundary_nodes_ids ∨ nn_id ∈ s.boundary_nodes_ids then
    (s, {})
  else
    let common_nns := previous_and_next_neighbour_global_ids s node_id nn_id
    if common_nns.j_m_1 ∈ s.boundary_nodes_ids ∨
        common_nns.j_p_1 ∈ s.boundary_nodes_ids then
      (s, {})
    else
      flip_bond_in_quadrilateral sq s node_id nn_id common_nns
        min_bond_length_square max_bond_length_square

/-- Embedding of `Triangulation::unflip_bond`: apply the unchecked rewrite
with the roles of donors and receivers swapped, recompute the diamond, and
roll the global aggregate back using the still-stored pre/post members. -/
def unflip_bond (sq : R → R) (s : MeshState R) (node_id nn_id : ℕ)
    (common_nns : BondFlipData) : MeshState R :=
  let s1 := (flip_bond_unchecked s common_nns.common_nn_0
    common_nns.common_nn_1 nn_id node_id).1
  let s2 := update_diamond_geometry sq s1 node_id nn_id
    common_nns.common_nn_0 common_nns.common_nn_1
  update_global_geometry s2 s2.post_update_geometry s2.pre_update_geometry

/-- Embedding of `Triangulation::make_global_geometry`: zero the global
aggregate, then for each bulk node update its geometry and add it in, then
the same for boundary nodes with the boundary update. -/
def make_global_geometry (sq : R → R) (s : MeshState R) : MeshState R :=
  let s0 := { s with global_geometry := (0 : Geometry R) }
  let s1 := s0.bulk_nodes_ids.foldl
    (fun st node_id =>
      let st1 := update_bulk_node_geometry sq st node_id
      update_global_geometry st1 0 (st1.node_geometry node_id)) s0
  s1.boundary_nodes_ids.foldl
    (fun st node_id =>
      let st1 := update_boundary_node_geometry st node_id
      update_global_geometry st1 0 (st1.node_geometry node_id)) s1

end MeshState

/-- Embedding of `MonteCarloUpdater::move_needs_undoing`: with
`e_diff = e_old - e_new`, undo iff `e_diff < 0` and (when `kBT > 0`) the
uniform draw exceeds `exp(e_diff / kBT)`.  The C++ exponential and the random
draw are explicit parameters `ex` and `u`. -/
def move_needs_undoing {R : Type} [LinearOrderedField R] (ex : R → R)
    (kBT e_old e_new u : R) : Bool :=
  let e_diff := e_old - e_new
  if 0 < kBT then
    decide (e_diff < 0) && decide (ex (e_diff / kBT) < u)
  else
    decide (e_diff < 0)

/-- Embedding of
`MonteCarloUpdater::new_next_neighbour_distances_are_between_min_and_max_length`:
reject when a next-neighbour distance would cross the maximal bound from
inside, or the minimal bound from above. -/
def new_next_neighbour_distances_ok {R : Type} [LinearOrderedField R]
    (s : fp.MeshState R) (node_id : ℕ) (displacement : vec3 R)
    (min_bond_length_square max_bond_length_square : R) : Bool :=
  (s.nn_distances node_id).all fun nn_dist =>
    let distance_square_new := (nn_dist - displacement).norm_square
    let distance_square_old := nn_dist.norm_square
    !(decide (max_bond_length_square < distance_square_new) &&
      decide (distance_square_old < max_bond_length_square)) &&
    !(decide (min_bond_length_square < distance_square_old) &&
      decide (distance_square_new < min_bond_length_square))

/-- Embedding of
`MonteCarloUpdater::new_verlet_neighbour_distances_are_between_min_and_max_length`:
reject when a Verlet-list neighbour that was farther than the minimal bound
would come closer than it. -/
def new_verlet_neighbour_distances_ok {R : Type} [LinearOrderedField R]
    (s : fp.MeshState R) (node_id : ℕ) (displacement : vec3 R)
    (min_bond_length_square : R) : Bool :=
  (s.verlet_list node_id).all fun verlet_neighbour_id =>
    let distance_square_new :=
      (s.pos verlet_neighbour_id - s.pos node_id - displacement).norm_square
    let distance_square_old :=
      (s.pos verlet_neighbour_id - s.pos node_id).norm_square
    !(decide (distance_square_new < min_bond_length_square) &&
      decide (min_bond_length_square < distance_square_old))

/-- Embedding of
`MonteCarloUpdater::new_neighbour_distances_are_between_min_and_max_length`. -/
def new_neighbour_distances_ok {R : Type} [LinearOrderedField R]
    (s : fp.MeshState R) (node_id : ℕ) (displacement : vec3 R)
    (min_bond_length_square max_bond_length_square : R) : Bool :=
  new_next_neighbour_distances_ok s node_id displacement
    min_bond_length_square max_bond_length_square &&
  new_verlet_neighbour_distances_ok s node_id displacement
    min_bond_length_square

/-- Embedding of `MonteCarloUpdater::move_MC_updater`: guard the proposed
displacement by the bond-length checks, evaluate the energy before and after
`move_node`, and undo the move by `move_node` with the negated displacement
when `move_needs_undoing` says so.  Returns the final state and whether the
move was undone (the `move_back` increment). -/
def move_MC_updater {R : Type} [LinearOrderedField R] (sq ex : R → R)
    (energy_function : ℕ → fp.MeshState R → R) (kBT : R)
    (u : R) (s : fp.MeshState R) (node_id : ℕ) (displacement : vec3 R)
    (min_bond_length_square max_bond_length_square : R) :
    fp.MeshState R × Bool :=
  if new_neighbour_distances_ok s node_id displacement
      min_bond_length_square max_bond_length_square then
    let e_old := energy_function node_id s
    let s1 := fp.MeshState.move_node sq s node_id displacement
    let e_new := energy_function node_id s1
    if move_needs_undoing ex kBT e_old e_new u then
      (fp.MeshState.move_node sq s1 node_id (-displacement), true)
    else (s1, false)
  else (s, false)

/-- Ring table of a concrete 15-node mesh state over `ℚ` used as input for
counterexamples: the edge `(0, 1)` has the common neighbors `2` and `3`,
which themselves share the additional common neighbor `4`, so the
post-rewrite common-neighbour check of a flip of `(0, 1)` fails and the
rewrite is rolled back. -/
def rollbackRing : ℕ → List ℕ
  | 0 => [2, 1, 3, 5, 6]
  | 1 => [3, 0, 2, 7, 8]
  | 2 => [1, 0, 4, 9, 10]
  | 3 => [0, 1, 4, 11, 9]
  | _ => []

/-- Node positions of the concrete example states: distinct points on a
line, so every pairwise squared distance is positive. -/
def examplePos (k : ℕ) : vec3 ℚ := ⟨(k : ℚ), 0, 0⟩

/-- Concrete mesh state whose flip of `(0, 1)` triggers the post-rewrite
rollback. -/
def rollbackState : MeshState ℚ where
  n_nodes := 15
  pos := examplePos
  nn_ids := rollbackRing
  nn_distances := fun k => (rollbackRing k).map
    (fun nn_id => examplePos nn_id - examplePos k)
  area := fun _ => 0
  volume := fun _ => 0
  unit_bending_energy := fun _ => 0
  curvature_vec := fun _ => 0
  verlet_list := fun _ => []
  bulk_nodes_ids := List.range 15
  boundary_nodes_ids := []
  global_geometry := 0
  pre_update_geometry := 0
  post_update_geometry := 0

/-- Ring table of a concrete 15-node mesh state over `ℚ` in which the donor
`1` sits at the end of the stored ring list of donor `0` (the ring triple
`c-, b, c+` wraps around): the flip of `(0, 1)` succeeds, and the subsequent
unflip restores node `0`'s ring only up to a cyclic rotation. -/
def wrapRing : ℕ → List ℕ
  | 0 => [3, 4, 5, 6, 2, 1]
  | 1 => [3, 0, 2, 7, 8]
  | 2 => [1, 0, 9, 10, 11]
  | 3 => [0, 1, 12, 13, 14]
  | _ => []

/-- Concrete mesh state whose flip of `(0, 1)` succeeds with the ring triple
wrapped around the end of the donor's stored list. -/
def wrapState : MeshState ℚ where
  n_nodes := 15
  pos := examplePos
  nn_ids := wrapRing
  nn_distances := fun k => (wrapRing k).map
    (fun nn_id => examplePos nn_id - examplePos k)
  area := fun _ => 0
  volume := fun _ => 0
  unit_bending_energy := fun _ => 0
  curvature_vec := fun _ => 0
  verlet_list := fun _ => []
  bulk_nodes_ids := List.range 15
  boundary_nodes_ids := []
  global_geometry := 0
  pre_update_geometry := 0
  post_update_geometry := 0

/-- Ring table of a concrete 12-node mesh state over `ℚ` on which the flip
of `(0, 1)` succeeds with all four diamond ring layouts free of wraparound:
the diamond is `a = 0, b = 1, c- = 2, c+ = 3`. -/
def roundtripRing : ℕ → List ℕ
  | 0 => [2, 1, 3, 4, 5]
  | 1 => [3, 0, 2, 6, 7]
  | 2 => [1, 0, 8, 9]
  | 3 => [0, 1, 10, 11]
  | _ => []

/-- Concrete mesh state for the flip/unflip round trip: colinear positions,
so that with the identity square root every node's stored zero geometry is
coherent. -/
def roundtripState : MeshState ℚ where
  n_nodes := 12
  pos := examplePos
  nn_ids := roundtripRing
  nn_distances := fun k => (roundtripRing k).map
    (fun nn_id => examplePos nn_id - examplePos k)
  area := fun _ => 0
  volume := fun _ => 0
  unit_bending_energy := fun _ => 0
  curvature_vec := fun _ => 0
  verlet_list := fun _ => []
  bulk_nodes_ids := List.range 12
  boundary_nodes_ids := []
  global_geometry := 0
  pre_update_geometry := 0
  post_update_geometry := 0

/-- Ring-table shadow of `Node::pop_nn`: the effect of a pop on the
neighbor-id table alone. -/
def popRing (r : ℕ → List ℕ) (n t : ℕ) : ℕ → List ℕ :=
  if t ∈ r n then Function.update r n ((r n).eraseIdx ((r n).indexOf t)) else r

/-- Ring-table shadow of `Node::emplace_nn_id`: the effect of an emplace on
the neighbor-id table alone. -/
def emplaceRing (r : ℕ → List ℕ) (c v loc : ℕ) : ℕ → List ℕ :=
  if loc < (r c).length then Function.update r c ((r c).insertIdx loc v) else r

/-- Ring-table shadow of `Triangulation::flip_bond_unchecked`: the effect of
the unchecked rewrite on the neighbor-id table alone. -/
def flipRing (r : ℕ → List ℕ) (a b c d : ℕ) : ℕ → List ℕ :=
  let r1 := emplaceRing r c d ((r c).indexOf a)
  let r2 := emplaceRing r1 d c ((r1 d).indexOf b)
  popRing (popRing r2 a b) b a

/-- The unchecked topology rewrite as the specification's words state it
(for comparison with `flip_bond_unchecked`): insert `c+` into `c-`'s ring
immediately before the position of `b` in `c-`'s ring; insert `c-` into
`c+`'s ring immediately before the position of `a` in `c+`'s ring; then
remove the edge `(a, b)`. -/
def MeshState.flip_bond_unchecked_spec {R : Type} [LinearOrderedField R]
    (s : MeshState R) (node_id nn_id common_nn_j_m_1 common_nn_j_p_1 : ℕ) :
    MeshState R :=
  let s1 := MeshState.emplace_before s common_nn_j_m_1 nn_id common_nn_j_p_1
  let s2 := MeshState.emplace_before s1 common_nn_j_p_1 node_id
    common_nn_j_m_1
  MeshState.delete_connection_between_nodes_of_old_edge s2 node_id nn_id

/-- The state produced by the success branch of
`Triangulation::flip_bulk_bond` (and of `flip_bond_in_quadrilateral`), with
the two common neighbors already resolved: record the diamond aggregate,
apply the unchecked rewrite, recompute the diamond, record the new aggregate
and apply the delta to the global aggregate. -/
def MeshState.flip_bulk_bond_applied {R : Type} [LinearOrderedField R]
    (sq : R → R) (s : MeshState R) (node_id nn_id cm cp : ℕ) : MeshState R :=
  let s0 := { s with pre_update_geometry :=
    (MeshState.calculate_diamond_geometry s node_id nn_id cm cp) }
  let s1 := (MeshState.flip_bond_unchecked s0 node_id nn_id cm cp).1
  let s2 := MeshState.update_diamond_geometry sq s1 node_id nn_id cm cp
  let s3 := { s2 with post_update_geometry :=
    (MeshState.calculate_diamond_geometry s2 node_id nn_id cm cp) }
  MeshState.update_global_geometry s3 s3.pre_update_geometry
    s3.post_update_geometry

/-- A copy of the rollback example state with a nonempty boundary set,
used as the planar-mode example input: the common neighbor `3` of the edge
`(0, 1)` is a boundary node. -/
def planarState : MeshState ℚ :=
  { rollbackState with boundary_nodes_ids := [3, 5, 6, 7, 8] }

/-- Modelled from the spec: the golden section constant of the icosahedron
vertex coordinates.  The mesh generator (Triangulator.hpp) is not part of
src/, so the constructed level-0 mesh is modelled from the specification's
construction section. -/
noncomputable def icoPhi : ℝ := (1 + Real.sqrt 5) / 2

/-- Modelled from the spec: positions of the 12 nodes of the spherical
triangulation at iteration level `n = 0` — the regular icosahedron vertices
`(0, ±1, ±φ)` and cyclic permutations — with initial radius equal to the
circumradius `√(1+φ²)`, at which the generator's projection onto the sphere
and the scaling to the initial radius are the identity. -/
noncomputable def icoPos : ℕ → vec3 ℝ
  | 0 => ⟨0, 1, icoPhi⟩
  | 1 => ⟨0, -1, icoPhi⟩
  | 2 => ⟨0, 1, -icoPhi⟩
  | 3 => ⟨0, -1, -icoPhi⟩
  | 4 => ⟨1, icoPhi, 0⟩
  | 5 => ⟨-1, icoPhi, 0⟩
  | 6 => ⟨1, -icoPhi, 0⟩
  | 7 => ⟨-1, -icoPhi, 0⟩
  | 8 => ⟨icoPhi, 0, 1⟩
  | 9 => ⟨-icoPhi, 0, 1⟩
  | 10 => ⟨icoPhi, 0, -1⟩
  | 11 => ⟨-icoPhi, 0, -1⟩
  | _ => 0

/-- Modelled from the spec: the 5-neighbor rings of the level-0 spherical
triangulation, each ordered counterclockwise as seen from outside (the
cross product of consecutive edge vectors points away from the mass
center, which is the origin), as the generator's orientation pass
guarantees. -/
def icoRing : ℕ → List ℕ
  | 0 => [1, 8, 4, 5, 9]
  | 1 => [9, 7, 6, 8, 0]
  | 2 => [11, 5, 4, 10, 3]
  | 3 => [2, 10, 6, 7, 11]
  | 4 => [8, 10, 2, 5, 0]
  | 5 => [0, 4, 2, 11, 9]
  | 6 => [1, 7, 3, 10, 8]
  | 7 => [9, 11, 3, 6, 1]
  | 8 => [1, 6, 10, 4, 0]
  | 9 => [0, 5, 11, 7, 1]
  | 10 => [2, 4, 8, 6, 3]
  | 11 => [3, 7, 9, 5, 2]
  | _ => []

/-- Modelled from the spec: the level-0 spherical state before the final
geometry pass: seeded positions and oriented rings, all 12 nodes bulk,
distance vectors as written by `initiate_distance_vectors`. -/
noncomputable def icoBase : MeshState ℝ where
  n_nodes := 12
  pos := icoPos
  nn_ids := icoRing
  nn_distances := fun k => (icoRing k).map (fun nn_id => icoPos nn_id - icoPos k)
  area := fun _ => 0
  volume := fun _ => 0
  unit_bending_energy := fun _ => 0
  curvature_vec := fun _ => 0
  verlet_list := fun _ => []
  bulk_nodes_ids := List.range 12
  boundary_nodes_ids := []
  global_geometry := 0
  pre_update_geometry := 0
  post_update_geometry := 0

/-- Modelled from the spec: the constructed level-0 spherical triangulation
(the icosahedron): the seeded state with the geometry pass
`make_global_geometry` run on it, parametric in the square root used by the
geometry computation. -/
noncomputable def icosphereState (sq : ℝ → ℝ) : MeshState ℝ :=
  MeshState.make_global_geometry sq icoBase

section ListLemmas

variable {α : Type} [DecidableEq α]

theorem indexOf_append_cons {b : α} {p : List α} (q : List α) (hb : b ∉ p) :
    (p ++ b :: q).indexOf b = p.length := by
  induction p with
  | nil => simp
  | cons x xs ih =>
    have hxb : x ≠ b := fun h => hb (h ▸ List.mem_cons_self x xs)
    simp only [List.cons_append, List.length_cons]
    rw [List.indexOf_cons_ne _ hxb, ih (fun h => hb (List.mem_cons_of_mem x h))]

theorem insertIdx_at_append {x : α} : ∀ (p q : List α),
    (p ++ q).insertIdx p.length x = p ++ x :: q := by
  intro p
  induction p with
  | nil => intro q; simp
  | cons y ys ih => intro q; simp [List.insertIdx_succ_cons, ih]

theorem eraseIdx_at_append {b : α} : ∀ (p q : List α),
    (p ++ b :: q).eraseIdx p.length = p ++ q := by
  intro p
  induction p with
  | nil => intro q; simp
  | cons y ys ih => intro q; simp [List.eraseIdx_cons_succ, ih]

end ListLemmas

namespace vec3

variable {R : Type} [LinearOrderedField R]

@[simp] theorem add_def (a b : vec3 R) :
    a + b = ⟨a.x + b.x, a.y + b.y, a.z + b.z⟩ := rfl

@[simp] theorem sub_def (a b : vec3 R) :
    a - b = ⟨a.x - b.x, a.y - b.y, a.z - b.z⟩ := rfl

@[simp] theorem neg_def (a : vec3 R) : -a = ⟨-a.x, -a.y, -a.z⟩ := rfl

@[simp] theorem zero_def : (0 : vec3 R) = ⟨0, 0, 0⟩ := rfl

end vec3

namespace MeshState

variable {R : Type} [LinearOrderedField R]

@[simp] theorem update_nn_distance_vectors_n_nodes (s : MeshState R) (i : ℕ) :
    (update_nn_distance_vectors s i).n_nodes = s.n_nodes := rfl

@[simp] theorem update_nn_distance_vectors_pos (s : MeshState R) (i : ℕ) :
    (update_nn_distance_vectors s i).pos = s.pos := rfl

@[simp] theorem update_nn_distance_vectors_nn_ids (s : MeshState R) (i : ℕ) :
    (update_nn_distance_vectors s i).nn_ids = s.nn_ids := rfl

@[simp] theorem update_nn_distance_vectors_area (s : MeshState R) (i : ℕ) :
    (update_nn_distance_vectors s i).area = s.area := rfl

@[simp] theorem update_nn_distance_vectors_volume (s : MeshState R) (i : ℕ) :
    (update_nn_distance_vectors s i).volume = s.volume := rfl

@[simp] theorem update_nn_distance_vectors_ube (s : MeshState R) (i : ℕ) :
    (update_nn_distance_vectors s i).unit_bending_energy =
      s.unit_bending_energy := rfl

@[simp] theorem update_nn_distance_vectors_curvature_vec (s : MeshState R)
    (i : ℕ) :
    (update_nn_distance_vectors s i).curvature_vec = s.curvature_vec := rfl

@[simp] theorem update_nn_distance_vectors_global (s : MeshState R) (i : ℕ) :
    (update_nn_distance_vectors s i).global_geometry = s.global_geometry := rfl

@[simp] theorem update_nn_distance_vectors_pre (s : MeshState R) (i : ℕ) :
    (update_nn_distance_vectors s i).pre_update_geometry =
      s.pre_update_geometry := rfl

@[simp] theorem update_nn_distance_vectors_post (s : MeshState R) (i : ℕ) :
    (update_nn_distance_vectors s i).post_update_geometry =
      s.post_update_geometry := rfl

@[simp] theorem update_nn_distance_vectors_boundary (s : MeshState R) (i : ℕ) :
    (update_nn_distance_vectors s i).boundary_nodes_ids =
      s.boundary_nodes_ids := rfl

@[simp] theorem update_nn_distance_vectors_bulk (s : MeshState R) (i : ℕ) :
    (update_nn_distance_vectors s i).bulk_nodes_ids = s.bulk_nodes_ids := rfl

@[simp] theorem update_nn_distance_vectors_verlet (s : MeshState R) (i : ℕ) :
    (update_nn_distance_vectors s i).verlet_list = s.verlet_list := rfl

theorem update_nn_distance_vectors_nn_distances_same (s : MeshState R)
    (i : ℕ) :
    (update_nn_distance_vectors s i).nn_distances i =
      (s.nn_ids i).map (fun nn_id => s.pos nn_id - s.pos i) := by
  simp [update_nn_distance_vectors]

theorem update_nn_distance_vectors_nn_distances_ne (s : MeshState R)
    {i k : ℕ} (h : k ≠ i) :
    (update_nn_distance_vectors s i).nn_distances k = s.nn_distances k := by
  simp [update_nn_distance_vectors, Function.update_noteq h]

/-- The distance-vector list `update_nn_distance_vectors` writes: the ring of
the node mapped through `pos(nn) - pos(node)`. -/
def fresh_nn_distances (s : MeshState R) (node_id : ℕ) : List (vec3 R) :=
  (s.nn_ids node_id).map (fun nn_id => s.pos nn_id - s.pos node_id)

theorem update_nn_distance_vectors_eq (s : MeshState R) (i : ℕ) :
    update_nn_distance_vectors s i =
      { s with nn_distances :=
          (Function.update s.nn_distances i (fresh_nn_distances s i)) } := rfl

theorem pop_nn_eq_of_not_mem {s : MeshState R} {n t : ℕ}
    (h : t ∉ s.nn_ids n) : pop_nn s n t = s := by
  simp [pop_nn, h]

theorem pop_nn_eq_of_mem {s : MeshState R} {n t : ℕ} (h : t ∈ s.nn_ids n) :
    pop_nn s n t =
      { s with
        nn_ids := (Function.update s.nn_ids n
          ((s.nn_ids n).eraseIdx ((s.nn_ids n).indexOf t))),
        nn_distances := (Function.update s.nn_distances n
          ((s.nn_distances n).eraseIdx ((s.nn_ids n).indexOf t))) } := by
  simp [pop_nn, h]

theorem emplace_nn_id_eq_of_le {s : MeshState R} {n e loc : ℕ}
    (h : (s.nn_ids n).length ≤ loc) : emplace_nn_id s n e loc = s := by
  simp [emplace_nn_id, Nat.not_lt.mpr h]

theorem emplace_nn_id_eq_of_lt {s : MeshState R} {n e loc : ℕ}
    (h : loc < (s.nn_ids n).length) :
    emplace_nn_id s n e loc =
      { s with
        nn_ids := (Function.update s.nn_ids n
          ((s.nn_ids n).insertIdx loc e)),
        nn_distances := (Function.update s.nn_distances n
          ((s.nn_distances n).insertIdx loc (s.pos e - s.pos n))) } := by
  simp [emplace_nn_id, h]

theorem emplace_before_eq_of_not_mem {s : MeshState R} {c a v : ℕ}
    (h : a ∉ s.nn_ids c) : emplace_before s c a v = s := by
  have hidx : (s.nn_ids c).indexOf a = (s.nn_ids c).length :=
    List.indexOf_eq_length.mpr h
  simp only [emplace_before, hidx]
  exact emplace_nn_id_eq_of_le le_rfl

theorem emplace_before_eq_of_decomp {s : MeshState R} {c a : ℕ} (v : ℕ)
    {p q : List ℕ} (hd : s.nn_ids c = p ++ a :: q) (hp : a ∉ p) :
    emplace_before s c a v =
      { s with
        nn_ids := (Function.update s.nn_ids c (p ++ v :: a :: q)),
        nn_distances := (Function.update s.nn_distances c
          ((s.nn_distances c).insertIdx p.length (s.pos v - s.pos c))) } := by
  have hidx : (s.nn_ids c).indexOf a = p.length := by
    rw [hd]; exact indexOf_append_cons q hp
  have hlt : p.length < (s.nn_ids c).length := by
    rw [hd]; simp [Nat.lt_succ_iff]
  rw [emplace_before, hidx, emplace_nn_id_eq_of_lt hlt, hd,
    insertIdx_at_append p (a :: q)]

/-- Characterization of `update_bulk_node_geometry` as a one-shot field
update: the written values are functions of the node's position, ring and the
other nodes' positions only. -/
theorem update_bulk_node_geometry_eq (sq : R → R) (s : MeshState R) (i : ℕ) :
    update_bulk_node_geometry sq s i =
      { s with
        nn_distances := (Function.update s.nn_distances i
          (fresh_nn_distances s i)),
        area := (Function.update s.area i
          (bulk_geometry_accumulate sq (fresh_nn_distances s i)).1),
        volume := (Function.update s.volume i
          ((s.pos i).dot (bulk_geometry_accumulate sq
            (fresh_nn_distances s i)).2.1 / 3)),
        curvature_vec := (Function.update s.curvature_vec i
          (vec3.sdiv (-(bulk_geometry_accumulate sq
            (fresh_nn_distances s i)).2.2)
            (2 * (bulk_geometry_accumulate sq (fresh_nn_distances s i)).1))),
        unit_bending_energy := (Function.update s.unit_bending_energy i
          ((bulk_geometry_accumulate sq (fresh_nn_distances s i)).2.2.dot
            (bulk_geometry_accumulate sq (fresh_nn_distances s i)).2.2 /
            (8 * (bulk_geometry_accumulate sq (fresh_nn_distances s i)).1))) }
    := by
  simp only [update_bulk_node_geometry, update_nn_distance_vectors,
    Function.update_same]
  rfl

@[simp] theorem pop_nn_n_nodes (s : MeshState R) (n t : ℕ) :
    (pop_nn s n t).n_nodes = s.n_nodes := by
  simp only [pop_nn]; split <;> rfl

@[simp] theorem pop_nn_pos (s : MeshState R) (n t : ℕ) :
    (pop_nn s n t).pos = s.pos := by
  simp only [pop_nn]; split <;> rfl

@[simp] theorem pop_nn_area (s : MeshState R) (n t : ℕ) :
    (pop_nn s n t).area = s.area := by
  simp only [pop_nn]; split <;> rfl

@[simp] theorem pop_nn_volume (s : MeshState R) (n t : ℕ) :
    (pop_nn s n t).volume = s.volume := by
  simp only [pop_nn]; split <;> rfl

@[simp] theorem pop_nn_ube (s : MeshState R) (n t : ℕ) :
    (pop_nn s n t).unit_bending_energy = s.unit_bending_energy := by
  simp only [pop_nn]; split <;> rfl

@[simp] theorem pop_nn_curv (s : MeshState R) (n t : ℕ) :
    (pop_nn s n t).curvature_vec = s.curvature_vec := by
  simp only [pop_nn]; split <;> rfl

@[simp] theorem pop_nn_verlet (s : MeshState R) (n t : ℕ) :
    (pop_nn s n t).verlet_list = s.verlet_list := by
  simp only [pop_nn]; split <;> rfl

@[simp] theorem pop_nn_bulk (s : MeshState R) (n t : ℕ) :
    (pop_nn s n t).bulk_nodes_ids = s.bulk_nodes_ids := by
  simp only [pop_nn]; split <;> rfl

@[simp] theorem pop_nn_boundary (s : MeshState R) (n t : ℕ) :
    (pop_nn s n t).boundary_nodes_ids = s.boundary_nodes_ids := by
  simp only [pop_nn]; split <;> rfl

@[simp] theorem pop_nn_global (s : MeshState R) (n t : ℕ) :
    (pop_nn s n t).global_geometry = s.global_geometry := by
  simp only [pop_nn]; split <;> rfl

@[simp] theorem pop_nn_pre (s : MeshState R) (n t : ℕ) :
    (pop_nn s n t).pre_update_geometry = s.pre_update_geometry := by
  simp only [pop_nn]; split <;> rfl

@[simp] theorem pop_nn_post (s : MeshState R) (n t : ℕ) :
    (pop_nn s n t).post_update_geometry = s.post_update_geometry := by
  simp only [pop_nn]; split <;> rfl

@[simp] theorem emplace_nn_id_n_nodes (s : MeshState R) (n e loc : ℕ) :
    (emplace_nn_id s n e loc).n_nodes = s.n_nodes := by
  simp only [emplace_nn_id]; split <;> rfl

@[simp] theorem emplace_nn_id_pos (s : MeshState R) (n e loc : ℕ) :
    (emplace_nn_id s n e loc).pos = s.pos := by
  simp only [emplace_nn_id]; split <;> rfl

@[simp] theorem emplace_nn_id_area (s : MeshState R) (n e loc : ℕ) :
    (emplace_nn_id s n e loc).area = s.area := by
  simp only [emplace_nn_id]; split <;> rfl

@[simp] theorem emplace_nn_id_volume (s : MeshState R) (n e loc : ℕ) :
    (emplace_nn_id s n e loc).volume = s.volume := by
  simp only [emplace_nn_id]; split <;> rfl

@[simp] theorem emplace_nn_id_ube (s : MeshState R) (n e loc : ℕ) :
    (emplace_nn_id s n e loc).unit_bending_energy = s.unit_bending_energy := by
  simp only [emplace_nn_id]; split <;> rfl

@[simp] theorem emplace_nn_id_curv (s : MeshState R) (n e loc : ℕ) :
    (emplace_nn_id s n e loc).curvature_vec = s.curvature_vec := by
  simp only [emplace_nn_id]; split <;> rfl

@[simp] theorem emplace_nn_id_verlet (s : MeshState R) (n e loc : ℕ) :
    (emplace_nn_id s n e loc).verlet_list = s.verlet_list := by
  simp only [emplace_nn_id]; split <;> rfl

@[simp] theorem emplace_nn_id_bulk (s : MeshState R) (n e loc : ℕ) :
    (emplace_nn_id s n e loc).bulk_nodes_ids = s.bulk_nodes_ids := by
  simp only [emplace_nn_id]; split <;> rfl

@[simp] theorem emplace_nn_id_boundary (s : MeshState R) (n e loc : ℕ) :
    (emplace_nn_id s n e loc).boundary_nodes_ids = s.boundary_nodes_ids := by
  simp only [emplace_nn_id]; split <;> rfl

@[simp] theorem emplace_nn_id_global (s : MeshState R) (n e loc : ℕ) :
    (emplace_nn_id s n e loc).global_geometry = s.global_geometry := by
  simp only [emplace_nn_id]; split <;> rfl

@[simp] theorem emplace_nn_id_pre (s : MeshState R) (n e loc : ℕ) :
    (emplace_nn_id s n e loc).pre_update_geometry = s.pre_update_geometry := by
  simp only [emplace_nn_id]; split <;> rfl

@[simp] theorem emplace_nn_id_post (s : MeshState R) (n e loc : ℕ) :
    (emplace_nn_id s n e loc).post_update_geometry = s.post_update_geometry := by
  simp only [emplace_nn_id]; split <;> rfl

@[simp] theorem emplace_before_n_nodes (s : MeshState R) (c a v : ℕ) :
    (emplace_before s c a v).n_nodes = s.n_nodes := emplace_nn_id_n_nodes s c v ((s.nn_ids c).indexOf a)

@[simp] theorem emplace_before_pos (s : MeshState R) (c a v : ℕ) :
    (emplace_before s c a v).pos = s.pos := emplace_nn_id_pos s c v ((s.nn_ids c).indexOf a)

@[simp] theorem emplace_before_area (s : MeshState R) (c a v : ℕ) :
    (emplace_before s c a v).area = s.area := emplace_nn_id_area s c v ((s.nn_ids c).indexOf a)

@[simp] theorem emplace_before_volume (s : MeshState R) (c a v : ℕ) :
    (emplace_before s c a v).volume = s.volume := emplace_nn_id_volume s c v ((s.nn_ids c).indexOf a)

@[simp] theorem emplace_before_ube (s : MeshState R) (c a v : ℕ) :
    (emplace_before s c a v).unit_bending_energy = s.unit_bending_energy := emplace_nn_id_ube s c v ((s.nn_ids c).indexOf a)

@[simp] theorem emplace_before_curv (s : MeshState R) (c a v : ℕ) :
    (emplace_before s c a v).curvature_vec = s.curvature_vec := emplace_nn_id_curv s c v ((s.nn_ids c).indexOf a)

@[simp] theorem emplace_before_verlet (s : MeshState R) (c a v : ℕ) :
    (emplace_before s c a v).verlet_list = s.verlet_list := emplace_nn_id_verlet s c v ((s.nn_ids c).indexOf a)

@[simp] theorem emplace_before_bulk (s : MeshState R) (c a v : ℕ) :
    (emplace_before s c a v).bulk_nodes_ids = s.bulk_nodes_ids := emplace_nn_id_bulk s c v ((s.nn_ids c).indexOf a)

@[simp] theorem emplace_before_boundary (s : MeshState R) (c a v : ℕ) :
    (emplace_before s c a v).boundary_nodes_ids = s.boundary_nodes_ids := emplace_nn_id_boundary s c v ((s.nn_ids c).indexOf a)

@[simp] theorem emplace_before_global (s : MeshState R) (c a v : ℕ) :
    (emplace_before s c a v).global_geometry = s.global_geometry := emplace_nn_id_global s c v ((s.nn_ids c).indexOf a)

@[simp] theorem emplace_before_pre (s : MeshState R) (c a v : ℕ) :
    (emplace_before s c a v).pre_update_geometry = s.pre_update_geometry := emplace_nn_id_pre s c v ((s.nn_ids c).indexOf a)

@[simp] theorem emplace_before_post (s : MeshState R) (c a v : ℕ) :
    (emplace_before s c a v).post_update_geometry = s.post_update_geometry := emplace_nn_id_post s c v ((s.nn_ids c).indexOf a)

@[simp] theorem delete_connection_n_nodes (s : MeshState R) (a b : ℕ) :
    (delete_connection_between_nodes_of_old_edge s a b).n_nodes = s.n_nodes := by
  simp only [delete_connection_between_nodes_of_old_edge, pop_nn_n_nodes]

@[simp] theorem delete_connection_pos (s : MeshState R) (a b : ℕ) :
    (delete_connection_between_nodes_of_old_edge s a b).pos = s.pos := by
  simp only [delete_connection_between_nodes_of_old_edge, pop_nn_pos]

@[simp] theorem delete_connection_area (s : MeshState R) (a b : ℕ) :
    (delete_connection_between_nodes_of_old_edge s a b).area = s.area := by
  simp only [delete_connection_between_nodes_of_old_edge, pop_nn_area]

@[simp] theorem delete_connection_volume (s : MeshState R) (a b : ℕ) :
    (delete_connection_between_nodes_of_old_edge s a b).volume = s.volume := by
  simp only [delete_connection_between_nodes_of_old_edge, pop_nn_volume]

@[simp] theorem delete_connection_ube (s : MeshState R) (a b : ℕ) :
    (delete_connection_between_nodes_of_old_edge s a b).unit_bending_energy = s.unit_bending_energy := by
  simp only [delete_connection_between_nodes_of_old_edge, pop_nn_ube]

@[simp] theorem delete_connection_curv (s : MeshState R) (a b : ℕ) :
    (delete_connection_between_nodes_of_old_edge s a b).curvature_vec = s.curvature_vec := by
  simp only [delete_connection_between_nodes_of_old_edge, pop_nn_curv]

@[simp] theorem delete_connection_verlet (s : MeshState R) (a b : ℕ) :
    (delete_connection_between_nodes_of_old_edge s a b).verlet_list = s.verlet_list := by
  simp only [delete_connection_between_nodes_of_old_edge, pop_nn_verlet]

@[simp] theorem delete_connection_bulk (s : MeshState R) (a b : ℕ) :
    (delete_connection_between_nodes_of_old_edge s a b).bulk_nodes_ids = s.bulk_nodes_ids := by
  simp only [delete_connection_between_nodes_of_old_edge, pop_nn_bulk]

@[simp] theorem delete_connection_boundary (s : MeshState R) (a b : ℕ) :
    (delete_connection_between_nodes_of_old_edge s a b).boundary_nodes_ids = s.boundary_nodes_ids := by
  simp only [delete_connection_between_nodes_of_old_edge, pop_nn_boundary]

@[simp] theorem delete_connection_global (s : MeshState R) (a b : ℕ) :
    (delete_connection_between_nodes_of_old_edge s a b).global_geometry = s.global_geometry := by
  simp only [delete_connection_between_nodes_of_old_edge, pop_nn_global]

@[simp] theorem delete_connection_pre (s : MeshState R) (a b : ℕ) :
    (delete_connection_between_nodes_of_old_edge s a b).pre_update_geometry = s.pre_update_geometry := by
  simp only [delete_connection_between_nodes_of_old_edge, pop_nn_pre]

@[simp] theorem delete_connection_post (s : MeshState R) (a b : ℕ) :
    (delete_connection_between_nodes_of_old_edge s a b).post_update_geometry = s.post_update_geometry := by
  simp only [delete_connection_between_nodes_of_old_edge, pop_nn_post]

@[simp] theorem flip_bond_unchecked_n_nodes (s : MeshState R) (a b c d : ℕ) :
    (flip_bond_unchecked s a b c d).1.n_nodes = s.n_nodes := by
  simp only [flip_bond_unchecked, delete_connection_n_nodes, emplace_before_n_nodes]

@[simp] theorem flip_bond_unchecked_pos (s : MeshState R) (a b c d : ℕ) :
    (flip_bond_unchecked s a b c d).1.pos = s.pos := by
  simp only [flip_bond_unchecked, delete_connection_pos, emplace_before_pos]

@[simp] theorem flip_bond_unchecked_area (s : MeshState R) (a b c d : ℕ) :
    (flip_bond_unchecked s a b c d).1.area = s.area := by
  simp only [flip_bond_unchecked, delete_connection_area, emplace_before_area]

@[simp] theorem flip_bond_unchecked_volume (s : MeshState R) (a b c d : ℕ) :
    (flip_bond_unchecked s a b c d).1.volume = s.volume := by
  simp only [flip_bond_unchecked, delete_connection_volume, emplace_before_volume]

@[simp] theorem flip_bond_unchecked_ube (s : MeshState R) (a b c d : ℕ) :
    (flip_bond_unchecked s a b c d).1.unit_bending_energy = s.unit_bending_energy := by
  simp only [flip_bond_unchecked, delete_connection_ube, emplace_before_ube]

@[simp] theorem flip_bond_unchecked_curv (s : MeshState R) (a b c d : ℕ) :
    (flip_bond_unchecked s a b c d).1.curvature_vec = s.curvature_vec := by
  simp only [flip_bond_unchecked, delete_connection_curv, emplace_before_curv]

@[simp] theorem flip_bond_unchecked_verlet (s : MeshState R) (a b c d : ℕ) :
    (flip_bond_unchecked s a b c d).1.verlet_list = s.verlet_list := by
  simp only [flip_bond_unchecked, delete_connection_verlet, emplace_before_verlet]

@[simp] theorem flip_bond_unchecked_bulk (s : MeshState R) (a b c d : ℕ) :
    (flip_bond_unchecked s a b c d).1.bulk_nodes_ids = s.bulk_nodes_ids := by
  simp only [flip_bond_unchecked, delete_connection_bulk, emplace_before_bulk]

@[simp] theorem flip_bond_unchecked_boundary (s : MeshState R) (a b c d : ℕ) :
    (flip_bond_unchecked s a b c d).1.boundary_nodes_ids = s.boundary_nodes_ids := by
  simp only [flip_bond_unchecked, delete_connection_boundary, emplace_before_boundary]

@[simp] theorem flip_bond_unchecked_global (s : MeshState R) (a b c d : ℕ) :
    (flip_bond_unchecked s a b c d).1.global_geometry = s.global_geometry := by
  simp only [flip_bond_unchecked, delete_connection_global, emplace_before_global]

@[simp] theorem flip_bond_unchecked_pre (s : MeshState R) (a b c d : ℕ) :
    (flip_bond_unchecked s a b c d).1.pre_update_geometry = s.pre_update_geometry := by
  simp only [flip_bond_unchecked, delete_connection_pre, emplace_before_pre]

@[simp] theorem flip_bond_unchecked_post (s : MeshState R) (a b c d : ℕ) :
    (flip_bond_unchecked s a b c d).1.post_update_geometry = s.post_update_geometry := by
  simp only [flip_bond_unchecked, delete_connection_post, emplace_before_post]

@[simp] theorem update_bulk_n_nodes (sq : R → R) (s : MeshState R) (i : ℕ) :
    (update_bulk_node_geometry sq s i).n_nodes = s.n_nodes := by rw [update_bulk_node_geometry_eq]

@[simp] theorem update_bulk_pos (sq : R → R) (s : MeshState R) (i : ℕ) :
    (update_bulk_node_geometry sq s i).pos = s.pos := by rw [update_bulk_node_geometry_eq]

@[simp] theorem update_bulk_nn_ids (sq : R → R) (s : MeshState R) (i : ℕ) :
    (update_bulk_node_geometry sq s i).nn_ids = s.nn_ids := by rw [update_bulk_node_geometry_eq]

@[simp] theorem update_bulk_verlet (sq : R → R) (s : MeshState R) (i : ℕ) :
    (update_bulk_node_geometry sq s i).verlet_list = s.verlet_list := by rw [update_bulk_node_geometry_eq]

@[simp] theorem update_bulk_bulk (sq : R → R) (s : MeshState R) (i : ℕ) :
    (update_bulk_node_geometry sq s i).bulk_nodes_ids = s.bulk_nodes_ids := by rw [update_bulk_node_geometry_eq]

@[simp] theorem update_bulk_boundary (sq : R → R) (s : MeshState R) (i : ℕ) :
    (update_bulk_node_geometry sq s i).boundary_nodes_ids = s.boundary_nodes_ids := by rw [update_bulk_node_geometry_eq]

@[simp] theorem update_bulk_global (sq : R → R) (s : MeshState R) (i : ℕ) :
    (update_bulk_node_geometry sq s i).global_geometry = s.global_geometry := by rw [update_bulk_node_geometry_eq]

@[simp] theorem update_bulk_pre (sq : R → R) (s : MeshState R) (i : ℕ) :
    (update_bulk_node_geometry sq s i).pre_update_geometry = s.pre_update_geometry := by rw [update_bulk_node_geometry_eq]

@[simp] theorem update_bulk_post (sq : R → R) (s : MeshState R) (i : ℕ) :
    (update_bulk_node_geometry sq s i).post_update_geometry = s.post_update_geometry := by rw [update_bulk_node_geometry_eq]

@[simp] theorem update_diamond_n_nodes (sq : R → R) (s : MeshState R) (a b c d : ℕ) :
    (update_diamond_geometry sq s a b c d).n_nodes = s.n_nodes := by
  simp only [update_diamond_geometry, update_bulk_n_nodes]

@[simp] theorem update_diamond_pos (sq : R → R) (s : MeshState R) (a b c d : ℕ) :
    (update_diamond_geometry sq s a b c d).pos = s.pos := by
  simp only [update_diamond_geometry, update_bulk_pos]

@[simp] theorem update_diamond_nn_ids (sq : R → R) (s : MeshState R) (a b c d : ℕ) :
    (update_diamond_geometry sq s a b c d).nn_ids = s.nn_ids := by
  simp only [update_diamond_geometry, update_bulk_nn_ids]

@[simp] theorem update_diamond_verlet (sq : R → R) (s : MeshState R) (a b c d : ℕ) :
    (update_diamond_geometry sq s a b c d).verlet_list = s.verlet_list := by
  simp only [update_diamond_geometry, update_bulk_verlet]

@[simp] theorem update_diamond_bulk (sq : R → R) (s : MeshState R) (a b c d : ℕ) :
    (update_diamond_geometry sq s a b c d).bulk_nodes_ids = s.bulk_nodes_ids := by
  simp only [update_diamond_geometry, update_bulk_bulk]

@[simp] theorem update_diamond_boundary (sq : R → R) (s : MeshState R) (a b c d : ℕ) :
    (update_diamond_geometry sq s a b c d).boundary_nodes_ids = s.boundary_nodes_ids := by
  simp only [update_diamond_geometry, update_bulk_boundary]

@[simp] theorem update_diamond_global (sq : R → R) (s : MeshState R) (a b c d : ℕ) :
    (update_diamond_geometry sq s a b c d).global_geometry = s.global_geometry := by
  simp only [update_diamond_geometry, update_bulk_global]

@[simp] theorem update_diamond_pre (sq : R → R) (s : MeshState R) (a b c d : ℕ) :
    (update_diamond_geometry sq s a b c d).pre_update_geometry = s.pre_update_geometry := by
  simp only [update_diamond_geometry, update_bulk_pre]

@[simp] theorem update_diamond_post (sq : R → R) (s : MeshState R) (a b c d : ℕ) :
    (update_diamond_geometry sq s a b c d).post_update_geometry = s.post_update_geometry := by
  simp only [update_diamond_geometry, update_bulk_post]

@[simp] theorem update_global_n_nodes (s : MeshState R) (g1 g2 : Geometry R) :
    (update_global_geometry s g1 g2).n_nodes = s.n_nodes := rfl

@[simp] theorem update_global_pos (s : MeshState R) (g1 g2 : Geometry R) :
    (update_global_geometry s g1 g2).pos = s.pos := rfl

@[simp] theorem update_global_area (s : MeshState R) (g1 g2 : Geometry R) :
    (update_global_geometry s g1 g2).area = s.area := rfl

@[simp] theorem update_global_volume (s : MeshState R) (g1 g2 : Geometry R) :
    (update_global_geometry s g1 g2).volume = s.volume := rfl

@[simp] theorem update_global_ube (s : MeshState R) (g1 g2 : Geometry R) :
    (update_global_geometry s g1 g2).unit_bending_energy = s.unit_bending_energy := rfl

@[simp] theorem update_global_curv (s : MeshState R) (g1 g2 : Geometry R) :
    (update_global_geometry s g1 g2).curvature_vec = s.curvature_vec := rfl

@[simp] theorem update_global_verlet (s : MeshState R) (g1 g2 : Geometry R) :
    (update_global_geometry s g1 g2).verlet_list = s.verlet_list := rfl

@[simp] theorem update_global_bulk (s : MeshState R) (g1 g2 : Geometry R) :
    (update_global_geometry s g1 g2).bulk_nodes_ids = s.bulk_nodes_ids := rfl

@[simp] theorem update_global_boundary (s : MeshState R) (g1 g2 : Geometry R) :
    (update_global_geometry s g1 g2).boundary_nodes_ids = s.boundary_nodes_ids := rfl

@[simp] theorem update_global_pre (s : MeshState R) (g1 g2 : Geometry R) :
    (update_global_geometry s g1 g2).pre_update_geometry = s.pre_update_geometry := rfl

@[simp] theorem update_global_post (s : MeshState R) (g1 g2 : Geometry R) :
    (update_global_geometry s g1 g2).post_update_geometry = s.post_update_geometry := rfl

@[simp] theorem update_global_nn_ids (s : MeshState R) (g1 g2 : Geometry R) :
    (update_global_geometry s g1 g2).nn_ids = s.nn_ids := rfl

@[simp] theorem update_global_nn_distances (s : MeshState R) (g1 g2 : Geometry R) :
    (update_global_geometry s g1 g2).nn_distances = s.nn_distances := rfl

@[simp] theorem update_global_global (s : MeshState R) (g1 g2 : Geometry R) :
    (update_global_geometry s g1 g2).global_geometry = s.global_geometry + (g2 - g1) := rfl

theorem flip_bond_unchecked_snd (s : MeshState R) (a b c d : ℕ) :
    (flip_bond_unchecked s a b c d).2 = ⟨true, c, d⟩ := rfl

theorem pop_nn_nn_ids (s : MeshState R) (n t : ℕ) :
    (pop_nn s n t).nn_ids = popRing s.nn_ids n t := by
  simp only [pop_nn, popRing]; split <;> rfl

theorem emplace_nn_id_nn_ids (s : MeshState R) (n e loc : ℕ) :
    (emplace_nn_id s n e loc).nn_ids = emplaceRing s.nn_ids n e loc := by
  simp only [emplace_nn_id, emplaceRing]; split <;> rfl

theorem emplace_before_nn_ids (s : MeshState R) (c a v : ℕ) :
    (emplace_before s c a v).nn_ids =
      emplaceRing s.nn_ids c v ((s.nn_ids c).indexOf a) :=
  emplace_nn_id_nn_ids s c v ((s.nn_ids c).indexOf a)

theorem delete_connection_nn_ids (s : MeshState R) (a b : ℕ) :
    (delete_connection_between_nodes_of_old_edge s a b).nn_ids =
      popRing (popRing s.nn_ids a b) b a := by
  simp only [delete_connection_between_nodes_of_old_edge, pop_nn_nn_ids]

theorem flip_bond_unchecked_fst_nn_ids (s : MeshState R) (a b c d : ℕ) :
    (flip_bond_unchecked s a b c d).1.nn_ids = flipRing s.nn_ids a b c d := by
  simp only [flip_bond_unchecked, flipRing, delete_connection_nn_ids,
    emplace_before_nn_ids]

theorem common_neighbours_eq_of_nn_ids {s1 s2 : MeshState R}
    (h : s1.nn_ids = s2.nn_ids) (a b : ℕ) :
    common_neighbours s1 a b = common_neighbours s2 a b := by
  simp only [common_neighbours, h]

theorem common_neighbours_congr {s1 : MeshState R} (s2 : MeshState R)
    (a b : ℕ) (h : s1.nn_ids = s2.nn_ids) :
    common_neighbours s1 a b = common_neighbours s2 a b :=
  common_neighbours_eq_of_nn_ids h a b

theorem not_mem_left_of_nodup_append {α : Type} {x : α} {p l : List α}
    (h : (p ++ l).Nodup) (hx : x ∈ l) : x ∉ p :=
  fun hp => (List.disjoint_of_nodup_append h) hp hx

theorem emplace_before_nn_ids_ne {s : MeshState R} {c k : ℕ} (a v : ℕ)
    (h : k ≠ c) : (emplace_before s c a v).nn_ids k = s.nn_ids k := by
  simp only [emplace_before, emplace_nn_id]
  split
  · simp [Function.update_noteq h]
  · rfl

theorem emplace_before_nn_distances_ne {s : MeshState R} {c k : ℕ} (a v : ℕ)
    (h : k ≠ c) :
    (emplace_before s c a v).nn_distances k = s.nn_distances k := by
  simp only [emplace_before, emplace_nn_id]
  split
  · simp [Function.update_noteq h]
  · rfl

theorem pop_nn_nn_ids_ne {s : MeshState R} {n k : ℕ} (t : ℕ) (h : k ≠ n) :
    (pop_nn s n t).nn_ids k = s.nn_ids k := by
  simp only [pop_nn]
  split
  · simp [Function.update_noteq h]
  · rfl

theorem pop_nn_nn_distances_ne {s : MeshState R} {n k : ℕ} (t : ℕ)
    (h : k ≠ n) : (pop_nn s n t).nn_distances k = s.nn_distances k := by
  simp only [pop_nn]
  split
  · simp [Function.update_noteq h]
  · rfl

theorem pop_nn_eq_of_decomp {s : MeshState R} {n t : ℕ} {p q : List ℕ}
    (hd : s.nn_ids n = p ++ t :: q) (hp : t ∉ p) :
    pop_nn s n t =
      { s with
        nn_ids := (Function.update s.nn_ids n (p ++ q)),
        nn_distances := (Function.update s.nn_distances n
          ((s.nn_distances n).eraseIdx p.length)) } := by
  have hm : t ∈ s.nn_ids n := by rw [hd]; simp
  have hidx : (s.nn_ids n).indexOf t = p.length := by
    rw [hd]; exact indexOf_append_cons q hp
  rw [pop_nn_eq_of_mem hm, hidx, hd, eraseIdx_at_append]

/-- Full extensional effect of `flip_bond_unchecked` on a diamond whose
ring lists are laid out without wraparound: `c+` is inserted into `c-`'s
ring immediately before the position of `a`; `c-` is inserted into `c+`'s
ring immediately before the position of `b`; `b` is removed from `a`'s ring
and `a` from `b`'s ring; the distance entries move alongside; every other
node is untouched. -/
theorem flip_bond_unchecked_effect (s : MeshState R) {a b cm cp : ℕ}
    (hab : a ≠ b) (hacm : a ≠ cm) (hacp : a ≠ cp)
    (hbcm : b ≠ cm) (hbcp : b ≠ cp) (hcmcp : cm ≠ cp)
    {pa qa : List ℕ} (ha : s.nn_ids a = pa ++ cm :: b :: cp :: qa)
    (hna : (s.nn_ids a).Nodup)
    {pb qb : List ℕ} (hb : s.nn_ids b = pb ++ cp :: a :: cm :: qb)
    (hnb : (s.nn_ids b).Nodup)
    {pc qc : List ℕ} (hc : s.nn_ids cm = pc ++ a :: qc) (hac : a ∉ pc)
    {pd qd : List ℕ} (hd : s.nn_ids cp = pd ++ b :: qd) (hbd : b ∉ pd) :
    (flip_bond_unchecked s a b cm cp).2 = ⟨true, cm, cp⟩ ∧
    (flip_bond_unchecked s a b cm cp).1.nn_ids cm = pc ++ cp :: a :: qc ∧
    (flip_bond_unchecked s a b cm cp).1.nn_ids cp = pd ++ cm :: b :: qd ∧
    (flip_bond_unchecked s a b cm cp).1.nn_ids a = pa ++ cm :: cp :: qa ∧
    (flip_bond_unchecked s a b cm cp).1.nn_ids b = pb ++ cp :: cm :: qb ∧
    (flip_bond_unchecked s a b cm cp).1.nn_distances cm =
      (s.nn_distances cm).insertIdx pc.length (s.pos cp - s.pos cm) ∧
    (flip_bond_unchecked s a b cm cp).1.nn_distances cp =
      (s.nn_distances cp).insertIdx pd.length (s.pos cm - s.pos cp) ∧
    (flip_bond_unchecked s a b cm cp).1.nn_distances a =
      (s.nn_distances a).eraseIdx (pa.length + 1) ∧
    (flip_bond_unchecked s a b cm cp).1.nn_distances b =
      (s.nn_distances b).eraseIdx (pb.length + 1) ∧
    (∀ k, k ≠ a → k ≠ b → k ≠ cm → k ≠ cp →
      (flip_bond_unchecked s a b cm cp).1.nn_ids k = s.nn_ids k ∧
      (flip_bond_unchecked s a b cm cp).1.nn_distances k =
        s.nn_distances k) := by
  have hs1 : emplace_before s cm a cp =
      { s with
        nn_ids := (Function.update s.nn_ids cm (pc ++ cp :: a :: qc)),
        nn_distances := (Function.update s.nn_distances cm
          ((s.nn_distances cm).insertIdx pc.length
            (s.pos cp - s.pos cm))) } :=
    emplace_before_eq_of_decomp cp hc hac
  set s1 := emplace_before s cm a cp with hs1def
  have e1cp : s1.nn_ids cp = pd ++ b :: qd := by
    rw [hs1]; simpa [Function.update_noteq (Ne.symm hcmcp)] using hd
  have e1cpd : s1.nn_distances cp = s.nn_distances cp := by
    rw [hs1]; simp [Function.update_noteq (Ne.symm hcmcp)]
  have e1pos : s1.pos = s.pos := by rw [hs1]
  have hs2 : emplace_before s1 cp b cm =
      { s1 with
        nn_ids := (Function.update s1.nn_ids cp (pd ++ cm :: b :: qd)),
        nn_distances := (Function.update s1.nn_distances cp
          ((s1.nn_distances cp).insertIdx pd.length
            (s1.pos cm - s1.pos cp))) } :=
    emplace_before_eq_of_decomp cm e1cp hbd
  set s2 := emplace_before s1 cp b cm with hs2def
  have e2a : s2.nn_ids a = (pa ++ [cm]) ++ b :: cp :: qa := by
    rw [hs2]
    simp only [Function.update_noteq hacp]
    rw [hs1]
    simp only [Function.update_noteq hacm]
    rw [ha]; simp
  have e2ad : s2.nn_distances a = s.nn_distances a := by
    rw [hs2]
    simp only [Function.update_noteq hacp]
    rw [hs1]
    simp only [Function.update_noteq hacm]
  have hba : b ∉ pa ++ [cm] := by
    have h2 : ((pa ++ [cm]) ++ b :: cp :: qa).Nodup := by
      have := hna; rw [ha] at this; simpa using this
    exact not_mem_left_of_nodup_append h2 (List.mem_cons_self b _)
  have hp1 : pop_nn s2 a b =
      { s2 with
        nn_ids := (Function.update s2.nn_ids a ((pa ++ [cm]) ++ cp :: qa)),
        nn_distances := (Function.update s2.nn_distances a
          ((s2.nn_distances a).eraseIdx (pa ++ [cm]).length)) } :=
    pop_nn_eq_of_decomp e2a hba
  set s3 := pop_nn s2 a b with hs3def
  have e3b : s3.nn_ids b = (pb ++ [cp]) ++ a :: cm :: qb := by
    rw [hp1]
    simp only [Function.update_noteq (Ne.symm hab)]
    rw [hs2]
    simp only [Function.update_noteq hbcp]
    rw [hs1]
    simp only [Function.update_noteq hbcm]
    rw [hb]; simp
  have e3bd : s3.nn_distances b = s.nn_distances b := by
    rw [hp1]
    simp only [Function.update_noteq (Ne.symm hab)]
    rw [hs2]
    simp only [Function.update_noteq hbcp]
    rw [hs1]
    simp only [Function.update_noteq hbcm]
  have hap : a ∉ pb ++ [cp] := by
    have h2 : ((pb ++ [cp]) ++ a :: cm :: qb).Nodup := by
      have := hnb; rw [hb] at this; simpa using this
    exact not_mem_left_of_nodup_append h2 (List.mem_cons_self a _)
  have hp2 : pop_nn s3 b a =
      { s3 with
        nn_ids := (Function.update s3.nn_ids b ((pb ++ [cp]) ++ cm :: qb)),
        nn_distances := (Function.update s3.nn_distances b
          ((s3.nn_distances b).eraseIdx (pb ++ [cp]).length)) } :=
    pop_nn_eq_of_decomp e3b hap
  have hfst : (flip_bond_unchecked s a b cm cp).1 = pop_nn s3 b a := rfl
  refine ⟨rfl, ?_, ?_, ?_, ?_, ?_, ?_, ?_, ?_, ?_⟩
  · rw [hfst, hp2]
    simp only [Function.update_noteq (Ne.symm hbcm)]
    rw [hp1]
    simp only [Function.update_noteq (Ne.symm hacm)]
    rw [hs2]
    simp only [Function.update_noteq hcmcp]
    rw [hs1]
    simp
  · rw [hfst, hp2]
    simp only [Function.update_noteq (Ne.symm hbcp)]
    rw [hp1]
    simp only [Function.update_noteq (Ne.symm hacp)]
    rw [hs2]
    simp
  · rw [hfst, hp2]
    simp only [Function.update_noteq hab]
    rw [hp1]
    simp
  · rw [hfst, hp2]
    simp
  · rw [hfst, hp2]
    simp only [Function.update_noteq (Ne.symm hbcm)]
    rw [hp1]
    simp only [Function.update_noteq (Ne.symm hacm)]
    rw [hs2]
    simp only [Function.update_noteq hcmcp]
    rw [hs1]
    simp
  · rw [hfst, hp2]
    simp only [Function.update_noteq (Ne.symm hbcp)]
    rw [hp1]
    simp only [Function.update_noteq (Ne.symm hacp)]
    rw [hs2]
    simp only [Function.update_same]
    rw [e1cpd, e1pos]
  · rw [hfst, hp2]
    simp only [Function.update_noteq hab]
    rw [hp1]
    simp only [Function.update_same]
    rw [e2ad]
    simp
  · rw [hfst, hp2]
    simp only [Function.update_same]
    rw [e3bd]
    simp
  · intro k hka hkb hkcm hkcp
    constructor
    · rw [hfst, hp2]
      simp only [Function.update_noteq hkb]
      rw [hp1]
      simp only [Function.update_noteq hka]
      rw [hs2]
      simp only [Function.update_noteq hkcp]
      rw [hs1]
      simp only [Function.update_noteq hkcm]
    · rw [hfst, hp2]
      simp only [Function.update_noteq hkb]
      rw [hp1]
      simp only [Function.update_noteq hka]
      rw [hs2]
      simp only [Function.update_noteq hkcp]
      rw [hs1]
      simp only [Function.update_noteq hkcm]

/-- Characterization of `flip_bulk_bond` on its success path: when both
degree checks, the bond-length window, and both common-neighbour checks
pass, the flip is applied and reported with the two receivers. -/
theorem flip_bulk_bond_eq_applied (sq : R → R) (s : MeshState R)
    (node_id nn_id cm cp : ℕ) (mn mx : R)
    (hcm : previous_and_next_neighbour_global_ids s node_id nn_id = ⟨cm, cp⟩)
    (h1 : BOND_DONATION_CUTOFF < (s.nn_ids node_id).length)
    (h2 : BOND_DONATION_CUTOFF < (s.nn_ids nn_id).length)
    (hbx : (s.pos cm - s.pos cp).norm_square < mx)
    (hbn : mn < (s.pos cm - s.pos cp).norm_square)
    (hc : (common_neighbours s node_id nn_id).length = 2)
    (hpost : (common_neighbours
      (flip_bond_unchecked s node_id nn_id cm cp).1 cm cp).length = 2) :
    flip_bulk_bond sq s node_id nn_id mn mx =
      (flip_bulk_bond_applied sq s node_id nn_id cm cp,
       ⟨true, cm, cp⟩) := by
  have hpost2 : (common_neighbours
      (flip_bond_unchecked
        { s with pre_update_geometry :=
          (calculate_diamond_geometry s node_id nn_id cm cp) }
        node_id nn_id cm cp).1 cm cp).length = 2 := by
    rw [common_neighbours_congr ((flip_bond_unchecked s
      node_id nn_id cm cp).1)]
    · exact hpost
    · rw [flip_bond_unchecked_fst_nn_ids, flip_bond_unchecked_fst_nn_ids]
  simp only [flip_bulk_bond, hcm, flip_bond_unchecked_snd, h1, h2, hc,
    hpost2, hbx, hbn, and_self, if_true, ite_true, eq_self_iff_true]
  rfl

/-- Characterization of `flip_bulk_bond` on its rollback path: when the
pre-rewrite checks pass but the post-rewrite common-neighbour check fails,
the report carries `flipped = false` together with the ids of the two
common neighbors (not the sentinel). -/
theorem flip_bulk_bond_snd_rollback (sq : R → R) (s : MeshState R)
    (node_id nn_id cm cp : ℕ) (mn mx : R)
    (hcm : previous_and_next_neighbour_global_ids s node_id nn_id = ⟨cm, cp⟩)
    (h1 : BOND_DONATION_CUTOFF < (s.nn_ids node_id).length)
    (h2 : BOND_DONATION_CUTOFF < (s.nn_ids nn_id).length)
    (hbx : (s.pos cm - s.pos cp).norm_square < mx)
    (hbn : mn < (s.pos cm - s.pos cp).norm_square)
    (hc : (common_neighbours s node_id nn_id).length = 2)
    (hpost : ¬ (common_neighbours
      (flip_bond_unchecked s node_id nn_id cm cp).1 cm cp).length = 2) :
    (flip_bulk_bond sq s node_id nn_id mn mx).2 = ⟨false, cm, cp⟩ := by
  have hpost2 : ¬ (common_neighbours
      (flip_bond_unchecked
        { s with pre_update_geometry :=
          (calculate_diamond_geometry s node_id nn_id cm cp) }
        node_id nn_id cm cp).1 cm cp).length = 2 := by
    rw [common_neighbours_congr ((flip_bond_unchecked s
      node_id nn_id cm cp).1)]
    · exact hpost
    · rw [flip_bond_unchecked_fst_nn_ids, flip_bond_unchecked_fst_nn_ids]
  simp only [flip_bulk_bond, hcm, flip_bond_unchecked_snd, h1, h2, hc,
    hbx, hbn, and_self, if_true, ite_true, eq_self_iff_true]
  rw [if_neg hpost2]

theorem foldl_proj_eq {β : Type} (proj : MeshState R → β)
    (f : MeshState R → ℕ → MeshState R)
    (h : ∀ st i, proj (f st i) = proj st) :
    ∀ (l : List ℕ) (s : MeshState R), proj (l.foldl f s) = proj s
  | [], _ => rfl
  | i :: l, s => by
    rw [List.foldl_cons, foldl_proj_eq proj f h l (f s i), h]

@[simp] theorem update_boundary_nn_ids (s : MeshState R) (i : ℕ) :
    (update_boundary_node_geometry s i).nn_ids = s.nn_ids := rfl

@[simp] theorem update_boundary_pos (s : MeshState R) (i : ℕ) :
    (update_boundary_node_geometry s i).pos = s.pos := rfl

theorem make_global_geometry_nn_ids (sq : R → R) (s : MeshState R) :
    (make_global_geometry sq s).nn_ids = s.nn_ids := by
  simp only [make_global_geometry]
  rw [foldl_proj_eq MeshState.nn_ids _ (fun st i => by simp),
    foldl_proj_eq MeshState.nn_ids _ (fun st i => by simp)]

theorem make_global_geometry_pos (sq : R → R) (s : MeshState R) :
    (make_global_geometry sq s).pos = s.pos := by
  simp only [make_global_geometry]
  rw [foldl_proj_eq MeshState.pos _ (fun st i => by simp),
    foldl_proj_eq MeshState.pos _ (fun st i => by simp)]

theorem prev_next_eq_of_nn_ids {s1 s2 : MeshState R}
    (h : s1.nn_ids = s2.nn_ids) (a b : ℕ) :
    previous_and_next_neighbour_global_ids s1 a b =
      previous_and_next_neighbour_global_ids s2 a b := by
  simp only [previous_and_next_neighbour_global_ids,
    previous_and_next_neighbour_local_ids, h]

theorem prev_next_congr {s1 : MeshState R} (s2 : MeshState R) (a b : ℕ)
    (h : s1.nn_ids = s2.nn_ids) :
    previous_and_next_neighbour_global_ids s1 a b =
      previous_and_next_neighbour_global_ids s2 a b :=
  prev_next_eq_of_nn_ids h a b

/-- The per-node data written by the bulk geometry update: distance
vectors, area, volume, unit bending energy and curvature vector. -/
def node_data (s : MeshState R) (k : ℕ) :
    List (vec3 R) × R × R × R × vec3 R :=
  (s.nn_distances k, s.area k, s.volume k, s.unit_bending_energy k,
   s.curvature_vec k)

/-- Geometric coherence of one node: recomputing its bulk geometry from the
positions and its ring leaves the state unchanged (the stored values equal
the recomputed ones).  This holds on every state the engine reaches. -/
def node_geometry_coherent (sq : R → R) (s : MeshState R) (k : ℕ) : Prop :=
  update_bulk_node_geometry sq s k = s

theorem update_bulk_node_data_ne (sq : R → R) (s : MeshState R) {i k : ℕ}
    (h : k ≠ i) :
    node_data (update_bulk_node_geometry sq s i) k = node_data s k := by
  rw [update_bulk_node_geometry_eq]
  simp [node_data, Function.update_noteq h]

theorem fresh_nn_distances_congr {s1 s2 : MeshState R} {t : ℕ}
    (hpos : s1.pos = s2.pos) (hring : s1.nn_ids t = s2.nn_ids t) :
    fresh_nn_distances s1 t = fresh_nn_distances s2 t := by
  simp [fresh_nn_distances, hpos, hring]

theorem update_bulk_node_data_congr {s1 s2 : MeshState R} (sq : R → R)
    {t : ℕ} (hpos : s1.pos = s2.pos) (hring : s1.nn_ids t = s2.nn_ids t) :
    node_data (update_bulk_node_geometry sq s1 t) t =
      node_data (update_bulk_node_geometry sq s2 t) t := by
  have hfresh := fresh_nn_distances_congr (t := t) hpos hring
  rw [update_bulk_node_geometry_eq, update_bulk_node_geometry_eq]
  simp [node_data, hfresh, hpos]

theorem foldl_update_bulk_node_data_not_mem (sq : R → R) :
    ∀ (l : List ℕ) (s : MeshState R) {k : ℕ}, k ∉ l →
      node_data (l.foldl
        (fun st nn_id => update_bulk_node_geometry sq st nn_id) s) k =
        node_data s k
  | [], _, _, _ => rfl
  | x :: l, s, k, hk => by
    rw [List.foldl_cons,
      foldl_update_bulk_node_data_not_mem sq l _
        (fun h => hk (List.mem_cons_of_mem x h)),
      update_bulk_node_data_ne sq s
        (fun h => hk (by rw [h]; exact List.mem_cons_self x l))]

theorem foldl_update_bulk_node_data_mem (sq : R → R) :
    ∀ (l : List ℕ) (s : MeshState R) {k : ℕ}, k ∈ l →
      node_data (l.foldl
        (fun st nn_id => update_bulk_node_geometry sq st nn_id) s) k =
        node_data (update_bulk_node_geometry sq s k) k
  | [], _, k, hk => absurd hk (List.not_mem_nil k)
  | x :: l, s, k, hk => by
    rw [List.foldl_cons]
    by_cases hkl : k ∈ l
    · rw [foldl_update_bulk_node_data_mem sq l _ hkl]
      exact update_bulk_node_data_congr sq (by simp) (by simp)
    · have hkx : k = x := by
        rcases List.mem_cons.mp hk with h | h
        · exact h
        · exact absurd h hkl
      subst hkx
      rw [foldl_update_bulk_node_data_not_mem sq l _ hkl]

@[simp] theorem update_two_ring_pos (sq : R → R) (s : MeshState R) (i : ℕ) :
    (update_two_ring_geometry_boundary_free sq s i).pos = s.pos := by
  simp only [update_two_ring_geometry_boundary_free]
  rw [foldl_proj_eq MeshState.pos _ (fun st j => by simp)]
  simp

@[simp] theorem update_two_ring_nn_ids (sq : R → R) (s : MeshState R)
    (i : ℕ) :
    (update_two_ring_geometry_boundary_free sq s i).nn_ids = s.nn_ids := by
  simp only [update_two_ring_geometry_boundary_free]
  rw [foldl_proj_eq MeshState.nn_ids _ (fun st j => by simp)]
  simp

@[simp] theorem update_two_ring_global (sq : R → R) (s : MeshState R)
    (i : ℕ) :
    (update_two_ring_geometry_boundary_free sq s i).global_geometry =
      s.global_geometry := by
  simp only [update_two_ring_geometry_boundary_free]
  rw [foldl_proj_eq MeshState.global_geometry _ (fun st j => by simp)]
  simp

@[simp] theorem update_two_ring_n_nodes (sq : R → R) (s : MeshState R)
    (i : ℕ) :
    (update_two_ring_geometry_boundary_free sq s i).n_nodes = s.n_nodes := by
  simp only [update_two_ring_geometry_boundary_free]
  rw [foldl_proj_eq MeshState.n_nodes _ (fun st j => by simp)]
  simp

theorem update_two_ring_node_data (sq : R → R) (s : MeshState R) (i : ℕ) :
    ∀ k, (k = i ∨ k ∈ s.nn_ids i) →
      node_data (update_two_ring_geometry_boundary_free sq s i) k =
        node_data (update_bulk_node_geometry sq s k) k := by
  intro k hk
  simp only [update_two_ring_geometry_boundary_free]
  have hlist : (update_bulk_node_geometry sq s i).nn_ids i = s.nn_ids i := by
    simp
  rcases hk with hk | hk
  · subst hk
    by_cases hmem : k ∈ (update_bulk_node_geometry sq s k).nn_ids k
    · rw [foldl_update_bulk_node_data_mem sq _ _ hmem]
      exact update_bulk_node_data_congr sq (by simp) (by simp)
    · rw [foldl_update_bulk_node_data_not_mem sq _ _ hmem]
  · have hmem : k ∈ (update_bulk_node_geometry sq s i).nn_ids i := by
      rw [hlist]; exact hk
    rw [foldl_update_bulk_node_data_mem sq _ _ hmem]
    exact update_bulk_node_data_congr sq (by simp) (by simp)

theorem update_two_ring_node_data_ne (sq : R → R) (s : MeshState R) (i : ℕ)
    {k : ℕ} (hki : k ≠ i) (hkr : k ∉ s.nn_ids i) :
    node_data (update_two_ring_geometry_boundary_free sq s i) k =
      node_data s k := by
  simp only [update_two_ring_geometry_boundary_free]
  have hmem : k ∉ (update_bulk_node_geometry sq s i).nn_ids i := by
    simpa using hkr
  rw [foldl_update_bulk_node_data_not_mem sq _ _ hmem,
    update_bulk_node_data_ne sq s hki]

theorem move_node_pos (sq : R → R) (s : MeshState R) (i : ℕ) (d : vec3 R) :
    (move_node sq s i d).pos = Function.update s.pos i (s.pos i + d) := by
  simp only [move_node, update_global_pos, update_two_ring_pos]

theorem move_node_nn_ids (sq : R → R) (s : MeshState R) (i : ℕ)
    (d : vec3 R) : (move_node sq s i d).nn_ids = s.nn_ids := by
  simp only [move_node, update_global_nn_ids, update_two_ring_nn_ids]

theorem move_node_n_nodes (sq : R → R) (s : MeshState R) (i : ℕ)
    (d : vec3 R) : (move_node sq s i d).n_nodes = s.n_nodes := by
  simp only [move_node, update_global_n_nodes, update_two_ring_n_nodes]

theorem move_node_node_data_two_ring (sq : R → R) (s : MeshState R) (i : ℕ)
    (d : vec3 R) :
    ∀ k, (k = i ∨ k ∈ s.nn_ids i) →
      node_data (move_node sq s i d) k =
        node_data (update_bulk_node_geometry sq
          { s with pos := (Function.update s.pos i (s.pos i + d)) } k) k := by
  intro k hk
  have h0 : node_data (move_node sq s i d) k =
      node_data (update_two_ring_geometry_boundary_free sq
        { s with pos := (Function.update s.pos i (s.pos i + d)) } i) k := rfl
  rw [h0]
  exact update_two_ring_node_data sq
    { s with pos := (Function.update s.pos i (s.pos i + d)) } i k hk

theorem move_node_node_data_ne (sq : R → R) (s : MeshState R) (i : ℕ)
    (d : vec3 R) {k : ℕ} (hki : k ≠ i) (hkr : k ∉ s.nn_ids i) :
    node_data (move_node sq s i d) k = node_data s k := by
  have h0 : node_data (move_node sq s i d) k =
      node_data (update_two_ring_geometry_boundary_free sq
        { s with pos := (Function.update s.pos i (s.pos i + d)) } i) k := rfl
  rw [h0, update_two_ring_node_data_ne sq
    { s with pos := (Function.update s.pos i (s.pos i + d)) } i hki hkr]
  rfl

theorem move_node_global (sq : R → R) (s : MeshState R) (i : ℕ)
    (d : vec3 R) :
    (move_node sq s i d).global_geometry =
      s.global_geometry +
        (get_two_ring_geometry (update_two_ring_geometry_boundary_free sq
          { s with pos := (Function.update s.pos i (s.pos i + d)) } i) i -
         get_two_ring_geometry s i) := by
  simp only [move_node, update_global_global, update_two_ring_global]

theorem node_geometry_eq_of_node_data {s1 s2 : MeshState R} {k : ℕ}
    (h : node_data s1 k = node_data s2 k) :
    node_geometry s1 k = node_geometry s2 k := by
  simp only [node_data, Prod.mk.injEq] at h
  simp only [node_geometry, h.2.1, h.2.2.1, h.2.2.2.1]

theorem get_two_ring_geometry_congr {s1 s2 : MeshState R} {i : ℕ}
    (hr : s1.nn_ids i = s2.nn_ids i)
    (hg : ∀ k, k = i ∨ k ∈ s2.nn_ids i →
      node_geometry s1 k = node_geometry s2 k) :
    get_two_ring_geometry s1 i = get_two_ring_geometry s2 i := by
  simp only [get_two_ring_geometry, hr, hg i (Or.inl rfl)]
  exact List.foldl_ext _ _ _
    (fun acc nn_id hnn => by rw [hg nn_id (Or.inr hnn)])

end MeshState

namespace vec3

theorem add_neg_cancel_right {R : Type} [LinearOrderedField R]
    (v w : vec3 R) : v + w + -w = v := by
  cases v; cases w
  simp only [add_def, neg_def, vec3.mk.injEq]
  refine ⟨by ring, by ring, by ring⟩

end vec3

namespace MeshState

variable {R : Type} [LinearOrderedField R]

theorem nodup_middle_insert {α : Type} {x : α} {p q : List α}
    (h : (p ++ q).Nodup) (hx : x ∉ p ++ q) : (p ++ x :: q).Nodup :=
  List.perm_middle.nodup_iff.mpr (List.nodup_cons.mpr ⟨hx, h⟩)

theorem flip_bulk_bond_applied_nn_ids (sq : R → R) (s : MeshState R)
    (a b cm cp : ℕ) :
    (flip_bulk_bond_applied sq s a b cm cp).nn_ids =
      flipRing s.nn_ids a b cm cp := by
  simp only [flip_bulk_bond_applied, update_global_nn_ids,
    update_diamond_nn_ids, flip_bond_unchecked_fst_nn_ids]

theorem flip_bulk_bond_applied_pos (sq : R → R) (s : MeshState R)
    (a b cm cp : ℕ) :
    (flip_bulk_bond_applied sq s a b cm cp).pos = s.pos := by
  simp only [flip_bulk_bond_applied, update_global_pos, update_diamond_pos,
    flip_bond_unchecked_pos]

theorem flip_bulk_bond_applied_global (sq : R → R) (s : MeshState R)
    (a b cm cp : ℕ) :
    (flip_bulk_bond_applied sq s a b cm cp).global_geometry =
      s.global_geometry +
        ((flip_bulk_bond_applied sq s a b cm cp).post_update_geometry -
         (flip_bulk_bond_applied sq s a b cm cp).pre_update_geometry) := by
  have h : (flip_bulk_bond_applied sq s a b cm cp).global_geometry =
      (flip_bond_unchecked { s with pre_update_geometry :=
          (calculate_diamond_geometry s a b cm cp) }
        a b cm cp).1.global_geometry +
        ((flip_bulk_bond_applied sq s a b cm cp).post_update_geometry -
         (flip_bulk_bond_applied sq s a b cm cp).pre_update_geometry) := rfl
  rw [h, flip_bond_unchecked_global]

theorem unflip_bond_nn_ids (sq : R → R) (s : MeshState R) (a b : ℕ)
    (r : BondFlipData) :
    (unflip_bond sq s a b r).nn_ids =
      flipRing s.nn_ids r.common_nn_0 r.common_nn_1 b a := by
  simp only [unflip_bond, update_global_nn_ids, update_diamond_nn_ids,
    flip_bond_unchecked_fst_nn_ids]

theorem unflip_bond_pos (sq : R → R) (s : MeshState R) (a b : ℕ)
    (r : BondFlipData) : (unflip_bond sq s a b r).pos = s.pos := by
  simp only [unflip_bond, update_global_pos, update_diamond_pos,
    flip_bond_unchecked_pos]

theorem unflip_bond_global (sq : R → R) (s : MeshState R) (a b : ℕ)
    (r : BondFlipData) :
    (unflip_bond sq s a b r).global_geometry =
      s.global_geometry +
        (s.pre_update_geometry - s.post_update_geometry) := by
  simp only [unflip_bond, update_global_global, update_diamond_global,
    flip_bond_unchecked_global, update_diamond_pre, update_diamond_post,
    flip_bond_unchecked_pre, flip_bond_unchecked_post]

theorem update_diamond_restores (sq : R → R) {s u : MeshState R}
    {a b cm cp : ℕ}
    (hab : a ≠ b) (hacm : a ≠ cm) (hacp : a ≠ cp)
    (hbcm : b ≠ cm) (hbcp : b ≠ cp) (hcmcp : cm ≠ cp)
    (hpos : u.pos = s.pos) (hring : u.nn_ids = s.nn_ids)
    (hca : node_geometry_coherent sq s a)
    (hcb : node_geometry_coherent sq s b)
    (hccm : node_geometry_coherent sq s cm)
    (hccp : node_geometry_coherent sq s cp) :
    ∀ k, k = a ∨ k = b ∨ k = cm ∨ k = cp →
      node_data (update_diamond_geometry sq u a b cm cp) k =
        node_data s k := by
  have hbase : ∀ (w : MeshState R), w.pos = s.pos → w.nn_ids = s.nn_ids →
      ∀ t, node_geometry_coherent sq s t →
        node_data (update_bulk_node_geometry sq w t) t = node_data s t := by
    intro w hw1 hw2 t hct
    rw [update_bulk_node_data_congr sq hw1 (congrFun hw2 t),
      show update_bulk_node_geometry sq s t = s from hct]
  intro k hk
  simp only [update_diamond_geometry]
  rcases hk with rfl | rfl | rfl | rfl
  · rw [update_bulk_node_data_ne sq _ hacp,
      update_bulk_node_data_ne sq _ hacm, update_bulk_node_data_ne sq _ hab]
    exact hbase u hpos hring k hca
  · rw [update_bulk_node_data_ne sq _ hbcp,
      update_bulk_node_data_ne sq _ hbcm]
    exact hbase _ (by simp [hpos]) (by simp [hring]) k hcb
  · rw [update_bulk_node_data_ne sq _ hcmcp]
    exact hbase _ (by simp [hpos]) (by simp [hring]) k hccm
  · exact hbase _ (by simp [hpos]) (by simp [hring]) k hccp

end MeshState

@[simp] theorem vec3.eta_mk {R : Type} [LinearOrderedField R]
    (v : vec3 R) : (⟨v.x, v.y, v.z⟩ : vec3 R) = v := rfl

theorem foldl_id {α β : Type} : ∀ (l : List β) (a : α),
    l.foldl (fun acc _ => acc) a = a
  | [], _ => rfl
  | _ :: l, a => foldl_id l a

theorem cross_colinear (v w : vec3 ℚ) (hvy : v.y = 0) (hvz : v.z = 0)
    (hwy : w.y = 0) (hwz : w.z = 0) : v.cross w = 0 := by
  simp [vec3.cross, hvy, hvz, hwy, hwz]

theorem cot_colinear (v w : vec3 ℚ) (hvy : v.y = 0) (hvz : v.z = 0)
    (hwy : w.y = 0) (hwz : w.z = 0) :
    cot_between_vectors (fun x => (x : ℚ)) v w = 0 := by
  unfold cot_between_vectors
  rw [cross_colinear v w hvy hvz hwy hwz]
  simp [vec3.norm_square, vec3.dot]

/-- On a distance list all of whose entries lie on the x-axis, the bulk
geometry walk with the identity square root accumulates nothing: every face
normal vanishes, so every cotangent and every mixed area is zero. -/
theorem accumulate_colinear (ds : List (vec3 ℚ))
    (h : ∀ v ∈ ds, v.y = 0 ∧ v.z = 0) :
    MeshState.bulk_geometry_accumulate (fun x => (x : ℚ)) ds =
      (0, 0, 0) := by
  have hg : ∀ j : ℕ, ((ds.getD j 0).y = 0 ∧ (ds.getD j 0).z = 0) := by
    intro j
    by_cases hj : j < ds.length
    · rw [List.getD_eq_getElem ds 0 hj]
      exact h _ (List.getElem_mem hj)
    · rw [List.getD_eq_default ds 0 (Nat.le_of_not_lt hj)]
      exact ⟨rfl, rfl⟩
  unfold MeshState.bulk_geometry_accumulate
  refine Eq.trans (List.foldl_ext _ (fun acc _ => acc) _ ?_) (foldl_id _ _)
  intro acc j _
  obtain ⟨hy1, hz1⟩ := hg j
  obtain ⟨hy2, hz2⟩ := hg (Neighbors.plus_one j ds.length)
  have hd1 : ((ds.getD (Neighbors.plus_one j ds.length) 0 : vec3 ℚ) -
      ds.getD j 0).y = 0 := by
    simp only [vec3.sub_def]
    rw [hy2, hy1, sub_zero]
  have hd2 : ((ds.getD (Neighbors.plus_one j ds.length) 0 : vec3 ℚ) -
      ds.getD j 0).z = 0 := by
    simp only [vec3.sub_def]
    rw [hz2, hz1, sub_zero]
  have hs1 : (vec3.smul (-1 : ℚ)
      ((ds.getD (Neighbors.plus_one j ds.length) 0 : vec3 ℚ) -
        ds.getD j 0)).y = 0 := by
    simp only [vec3.smul]
    rw [hd1, mul_zero]
  have hs2 : (vec3.smul (-1 : ℚ)
      ((ds.getD (Neighbors.plus_one j ds.length) 0 : vec3 ℚ) -
        ds.getD j 0)).z = 0 := by
    simp only [vec3.smul]
    rw [hd2, mul_zero]
  have hcj := cot_colinear _ _ hy1 hz1 hs1 hs2
  have hcj1 := cot_colinear _ _ hy2 hz2 hd1 hd2
  have hcr := cross_colinear (ds.getD j 0)
    (ds.getD (Neighbors.plus_one j ds.length) 0) hy1 hz1 hy2 hz2
  have hn0 : ((0 : vec3 ℚ)).norm_square = 0 := by
    simp [vec3.norm_square, vec3.dot]
  simp only [hcj, hcj1, hcr, hn0]
  simp [mixed_area, vec3.smul, vec3.sdiv]

/-- Any colinear example state whose stored distance vectors are fresh and
whose stored scalars are zero is geometrically coherent at every node under
the identity square root. -/
theorem colinear_coherent (S : MeshState ℚ) (hpos : S.pos = examplePos)
    (k : ℕ)
    (hfresh : MeshState.fresh_nn_distances S k = S.nn_distances k)
    (ha0 : S.area k = 0) (hv0 : S.volume k = 0)
    (hu0 : S.unit_bending_energy k = 0) (hc0 : S.curvature_vec k = 0) :
    MeshState.node_geometry_coherent (fun x => (x : ℚ)) S k := by
  have hmem : ∀ v ∈ MeshState.fresh_nn_distances S k, v.y = 0 ∧ v.z = 0 := by
    intro v hv
    simp only [MeshState.fresh_nn_distances, List.mem_map] at hv
    obtain ⟨nn, _, rfl⟩ := hv
    rw [hpos]
    simp [examplePos]
  have hacc : MeshState.bulk_geometry_accumulate (fun x => (x : ℚ))
      (MeshState.fresh_nn_distances S k) = (0, 0, 0) :=
    accumulate_colinear _ hmem
  show MeshState.update_bulk_node_geometry (fun x => (x : ℚ)) S k = S
  rw [MeshState.update_bulk_node_geometry_eq, hacc]
  have hn : Function.update S.nn_distances k
      (MeshState.fresh_nn_distances S k) = S.nn_distances := by
    rw [hfresh, Function.update_eq_self]
  have hA : Function.update S.area k
      (((0 : ℚ), (0 : vec3 ℚ), (0 : vec3 ℚ))).1 = S.area := by
    rw [(show (((0 : ℚ), (0 : vec3 ℚ), (0 : vec3 ℚ))).1 = S.area k by
        rw [ha0]), Function.update_eq_self]
  have hV : Function.update S.volume k
      ((S.pos k).dot (((0 : ℚ), (0 : vec3 ℚ), (0 : vec3 ℚ))).2.1 / 3)
      = S.volume := by
    rw [(show (S.pos k).dot (((0 : ℚ), (0 : vec3 ℚ), (0 : vec3 ℚ))).2.1 / 3
        = S.volume k by rw [hv0]; simp [vec3.dot]),
      Function.update_eq_self]
  have hC : Function.update S.curvature_vec k
      (vec3.sdiv (-(((0 : ℚ), (0 : vec3 ℚ), (0 : vec3 ℚ))).2.2)
        (2 * (((0 : ℚ), (0 : vec3 ℚ), (0 : vec3 ℚ))).1))
      = S.curvature_vec := by
    rw [(show vec3.sdiv (-(((0 : ℚ), (0 : vec3 ℚ), (0 : vec3 ℚ))).2.2)
        (2 * (((0 : ℚ), (0 : vec3 ℚ), (0 : vec3 ℚ))).1)
        = S.curvature_vec k by rw [hc0]; simp [vec3.sdiv]),
      Function.update_eq_self]
  have hU : Function.update S.unit_bending_energy k
      ((((0 : ℚ), (0 : vec3 ℚ), (0 : vec3 ℚ))).2.2.dot
        (((0 : ℚ), (0 : vec3 ℚ), (0 : vec3 ℚ))).2.2 /
        (8 * (((0 : ℚ), (0 : vec3 ℚ), (0 : vec3 ℚ))).1))
      = S.unit_bending_energy := by
    rw [(show (((0 : ℚ), (0 : vec3 ℚ), (0 : vec3 ℚ))).2.2.dot
        (((0 : ℚ), (0 : vec3 ℚ), (0 : vec3 ℚ))).2.2 /
        (8 * (((0 : ℚ), (0 : vec3 ℚ), (0 : vec3 ℚ))).1)
        = S.unit_bending_energy k by rw [hu0]; simp [vec3.dot]),
      Function.update_eq_self]
  rw [hn, hA, hV, hC, hU]

namespace MeshState

variable {R : Type} [LinearOrderedField R]

/-- The aggregate-consistency invariant of the spec: the stored global
aggregate equals the componentwise sum of every node's
`(area, volume, unit_bending_energy)`. -/
def global_consistent (s : MeshState R) : Prop :=
  s.global_geometry =
    ((List.range s.n_nodes).map (fun k => s.node_geometry k)).sum

theorem foldl_add_geometry (f : ℕ → Geometry R) :
    ∀ (l : List ℕ) (init : Geometry R),
      l.foldl (fun t nn_id => t + f nn_id) init = init + (l.map f).sum
  | [], init => by simp
  | x :: l, init => by
    rw [List.foldl_cons, foldl_add_geometry f l (init + f x)]
    simp [add_assoc]

theorem get_two_ring_sum (s : MeshState R) (i : ℕ) :
    get_two_ring_geometry s i =
      ((i :: s.nn_ids i).map (fun k => s.node_geometry k)).sum := by
  unfold get_two_ring_geometry
  rw [foldl_add_geometry]
  simp

theorem sum_range_update (f : ℕ → Geometry R) (v : Geometry R) :
    ∀ (n x : ℕ), x < n →
      ((List.range n).map f).sum =
        ((List.range n).map (Function.update f x v)).sum + (f x - v)
  | 0, x, hx => absurd hx (Nat.not_lt_zero x)
  | n + 1, x, hx => by
    rw [List.range_succ, List.map_append, List.map_append, List.sum_append,
      List.sum_append]
    by_cases hxn : x = n
    · subst hxn
      have hm : (List.range x).map (Function.update f x v) =
          (List.range x).map f := by
        refine List.map_congr_left ?_
        intro k hk
        exact Function.update_noteq (Nat.ne_of_lt (List.mem_range.mp hk)) v f
      rw [hm, List.map_singleton, List.map_singleton, List.sum_singleton,
        List.sum_singleton, Function.update_same]
      abel
    · have hx2 : x < n := Nat.lt_of_le_of_ne (Nat.lt_succ_iff.mp hx) hxn
      rw [sum_range_update f v n x hx2, List.map_singleton,
        List.map_singleton, List.sum_singleton, List.sum_singleton,
        Function.update_noteq (Ne.symm hxn)]
      abel

theorem total_diff (n : ℕ) :
    ∀ (L : List ℕ) (f g : ℕ → Geometry R), L.Nodup →
      (∀ k ∈ L, k < n) → (∀ k, k ∉ L → f k = g k) →
      ((List.range n).map f).sum =
        ((List.range n).map g).sum + ((L.map f).sum - (L.map g).sum)
  | [], f, g, _, _, hout => by
    have hm : (List.range n).map f = (List.range n).map g := by
      refine List.map_congr_left ?_
      intro k _
      exact hout k (List.not_mem_nil k)
    rw [hm]
    simp
  | x :: L, f, g, hnd, hmem, hout => by
    have hxL : x ∉ L := (List.nodup_cons.mp hnd).1
    have hrec := total_diff n L (Function.update f x (g x)) g
      (List.nodup_cons.mp hnd).2
      (fun k hk => hmem k (List.mem_cons_of_mem x hk))
      (fun k hk => by
        by_cases hkx : k = x
        · subst hkx
          exact Function.update_same k (g k) f
        · rw [Function.update_noteq hkx]
          exact hout k (by simp [List.mem_cons, hkx, hk]))
    have hupd := sum_range_update f (g x) n x (hmem x (List.mem_cons_self x L))
    have hLf : L.map (Function.update f x (g x)) = L.map f := by
      refine List.map_congr_left ?_
      intro k hk
      have hkx : k ≠ x := by
        intro h
        rw [h] at hk
        exact hxL hk
      exact Function.update_noteq hkx (g x) f
    rw [hupd, hrec, hLf]
    simp only [List.map_cons, List.sum_cons]
    abel

theorem update_bulk_ng_ne (sq : R → R) (s : MeshState R) {i k : ℕ}
    (h : k ≠ i) :
    node_geometry (update_bulk_node_geometry sq s i) k =
      node_geometry s k := by
  rw [update_bulk_node_geometry_eq]
  simp [node_geometry, Function.update_noteq h]

theorem flip_bond_unchecked_consistent (s : MeshState R) (a b c d : ℕ)
    (h : global_consistent s) :
    global_consistent (flip_bond_unchecked s a b c d).1 := by
  unfold global_consistent at h ⊢
  have hng : (fun k => (flip_bond_unchecked s a b c d).1.node_geometry k) =
      (fun k => s.node_geometry k) := by
    funext k
    simp [node_geometry]
  rw [flip_bond_unchecked_global, flip_bond_unchecked_n_nodes, hng, h]

theorem flip_bulk_bond_applied_n_nodes (sq : R → R) (s : MeshState R)
    (a b cm cp : ℕ) :
    (flip_bulk_bond_applied sq s a b cm cp).n_nodes = s.n_nodes := by
  simp only [flip_bulk_bond_applied, update_global_n_nodes,
    update_diamond_n_nodes, flip_bond_unchecked_n_nodes]

theorem flip_bulk_bond_applied_pre (sq : R → R) (s : MeshState R)
    (a b cm cp : ℕ) :
    (flip_bulk_bond_applied sq s a b cm cp).pre_update_geometry =
      calculate_diamond_geometry s a b cm cp := by
  simp only [flip_bulk_bond_applied, update_global_pre, update_diamond_pre,
    flip_bond_unchecked_pre]

theorem flip_bulk_bond_applied_post (sq : R → R) (s : MeshState R)
    (a b cm cp : ℕ) :
    (flip_bulk_bond_applied sq s a b cm cp).post_update_geometry =
      calculate_diamond_geometry
        (update_diamond_geometry sq
          (flip_bond_unchecked { s with pre_update_geometry :=
            (calculate_diamond_geometry s a b cm cp) } a b cm cp).1
          a b cm cp) a b cm cp := by
  simp only [flip_bulk_bond_applied, update_global_post]

theorem flip_bulk_bond_applied_ng (sq : R → R) (s : MeshState R)
    (a b cm cp k : ℕ) :
    node_geometry (flip_bulk_bond_applied sq s a b cm cp) k =
      node_geometry (update_diamond_geometry sq
        (flip_bond_unchecked { s with pre_update_geometry :=
          (calculate_diamond_geometry s a b cm cp) } a b cm cp).1
        a b cm cp) k := by
  simp only [flip_bulk_bond_applied, node_geometry, update_global_area,
    update_global_volume, update_global_ube]

theorem flip_bulk_bond_applied_ng_ne (sq : R → R) (s : MeshState R)
    {a b cm cp k : ℕ} (hka : k ≠ a) (hkb : k ≠ b) (hkcm : k ≠ cm)
    (hkcp : k ≠ cp) :
    node_geometry (flip_bulk_bond_applied sq s a b cm cp) k =
      node_geometry s k := by
  rw [flip_bulk_bond_applied_ng]
  simp only [update_diamond_geometry]
  rw [update_bulk_ng_ne sq _ hkcp, update_bulk_ng_ne sq _ hkcm,
    update_bulk_ng_ne sq _ hkb, update_bulk_ng_ne sq _ hka]
  simp [node_geometry]

theorem flip_applied_preserves_total (sq : R → R) (s : MeshState R)
    {a b cm cp : ℕ}
    (hab : a ≠ b) (hacm : a ≠ cm) (hacp : a ≠ cp) (hbcm : b ≠ cm)
    (hbcp : b ≠ cp) (hcmcp : cm ≠ cp)
    (hmem : ∀ k ∈ [a, b, cm, cp], k < s.n_nodes)
    (h : global_consistent s) :
    global_consistent (flip_bulk_bond_applied sq s a b cm cp) := by
  unfold global_consistent at h ⊢
  have hnodup : ([a, b, cm, cp] : List ℕ).Nodup := by
    simp [hab, hacm, hacp, hbcm, hbcp, hcmcp]
  have hdiff := total_diff s.n_nodes [a, b, cm, cp]
    (fun k => (flip_bulk_bond_applied sq s a b cm cp).node_geometry k)
    (fun k => s.node_geometry k) hnodup hmem
    (fun k hk => by
      simp only [List.mem_cons, List.not_mem_nil, or_false, not_or] at hk
      exact flip_bulk_bond_applied_ng_ne sq s hk.1 hk.2.1 hk.2.2.1 hk.2.2.2)
  rw [flip_bulk_bond_applied_n_nodes, hdiff, flip_bulk_bond_applied_global,
    h, flip_bulk_bond_applied_pre, flip_bulk_bond_applied_post]
  simp only [flip_bulk_bond_applied_ng, calculate_diamond_geometry,
    List.map_cons, List.map_nil, List.sum_cons, List.sum_nil]
  abel

theorem move_node_preserves_total (sq : R → R) (s : MeshState R) (i : ℕ)
    (d : vec3 R) (hnod : (i :: s.nn_ids i).Nodup)
    (hmem : ∀ k ∈ i :: s.nn_ids i, k < s.n_nodes)
    (h : global_consistent s) :
    global_consistent (move_node sq s i d) := by
  unfold global_consistent at h ⊢
  have hdiff := total_diff s.n_nodes (i :: s.nn_ids i)
    (fun k => (move_node sq s i d).node_geometry k)
    (fun k => s.node_geometry k) hnod hmem
    (fun k hk => by
      have hk1 : k ≠ i := by
        intro hh
        rw [hh] at hk
        exact hk (List.mem_cons_self i (s.nn_ids i))
      have hk2 : k ∉ s.nn_ids i := fun hh => hk (List.mem_cons_of_mem i hh)
      exact node_geometry_eq_of_node_data
        (move_node_node_data_ne sq s i d hk1 hk2))
  have hpost : get_two_ring_geometry
      (update_two_ring_geometry_boundary_free sq
        { s with pos := (Function.update s.pos i (s.pos i + d)) } i) i =
      ((i :: s.nn_ids i).map
        (fun k => (move_node sq s i d).node_geometry k)).sum := by
    rw [get_two_ring_sum]
    have hr : (update_two_ring_geometry_boundary_free sq
        { s with pos := (Function.update s.pos i (s.pos i + d)) } i).nn_ids
        i = s.nn_ids i := by
      rw [update_two_ring_nn_ids]
    rw [hr]
    refine congrArg List.sum (List.map_congr_left ?_)
    intro k _
    rfl
  rw [move_node_n_nodes, hdiff, move_node_global, hpost,
    get_two_ring_sum, h]

theorem bulk_loop_ng_ne (sq : R → R) :
    ∀ (l : List ℕ) (st : MeshState R) (k : ℕ), k ∉ l →
      (l.foldl (fun st1 node_id =>
        update_global_geometry (update_bulk_node_geometry sq st1 node_id) 0
          ((update_bulk_node_geometry sq st1 node_id).node_geometry
            node_id)) st).node_geometry k = st.node_geometry k
  | [], _, _, _ => rfl
  | x :: l, st, k, hk => by
    rw [List.foldl_cons, bulk_loop_ng_ne sq l _ k
      (fun hh => hk (List.mem_cons_of_mem x hh))]
    have hne : k ≠ x := by
      intro hh
      rw [hh] at hk
      exact hk (List.mem_cons_self x l)
    have hred : node_geometry (update_global_geometry
        (update_bulk_node_geometry sq st x) 0
        ((update_bulk_node_geometry sq st x).node_geometry x)) k =
        node_geometry (update_bulk_node_geometry sq st x) k := rfl
    rw [hred, update_bulk_ng_ne sq st hne]

theorem bulk_loop_global (sq : R → R) :
    ∀ (l : List ℕ) (st : MeshState R), l.Nodup →
      (l.foldl (fun st1 node_id =>
        update_global_geometry (update_bulk_node_geometry sq st1 node_id) 0
          ((update_bulk_node_geometry sq st1 node_id).node_geometry
            node_id)) st).global_geometry =
        st.global_geometry +
          (l.map (fun k =>
            (l.foldl (fun st1 node_id =>
              update_global_geometry
                (update_bulk_node_geometry sq st1 node_id) 0
                ((update_bulk_node_geometry sq st1 node_id).node_geometry
                  node_id)) st).node_geometry k)).sum
  | [], st, _ => by simp
  | x :: l, st, hnd => by
    rw [List.foldl_cons,
      bulk_loop_global sq l _ (List.nodup_cons.mp hnd).2,
      List.map_cons, List.sum_cons,
      bulk_loop_ng_ne sq l _ x (List.nodup_cons.mp hnd).1]
    have hred : node_geometry (update_global_geometry
        (update_bulk_node_geometry sq st x) 0
        ((update_bulk_node_geometry sq st x).node_geometry x)) x =
        (update_bulk_node_geometry sq st x).node_geometry x := rfl
    rw [hred, update_global_global, update_bulk_global]
    abel

theorem boundary_loop_ng :
    ∀ (l : List ℕ) (st : MeshState R) (k : ℕ),
      (l.foldl (fun st1 node_id =>
        update_global_geometry (update_boundary_node_geometry st1 node_id)
          0 ((update_boundary_node_geometry st1 node_id).node_geometry
            node_id)) st).node_geometry k = st.node_geometry k
  | [], _, _ => rfl
  | x :: l, st, k => by
    rw [List.foldl_cons, boundary_loop_ng l _ k]
    rfl

theorem boundary_loop_global :
    ∀ (l : List ℕ) (st : MeshState R),
      (l.foldl (fun st1 node_id =>
        update_global_geometry (update_boundary_node_geometry st1 node_id)
          0 ((update_boundary_node_geometry st1 node_id).node_geometry
            node_id)) st).global_geometry =
        st.global_geometry +
          (l.map (fun k => st.node_geometry k)).sum
  | [], st => by simp
  | x :: l, st => by
    rw [List.foldl_cons, boundary_loop_global l _, List.map_cons,
      List.sum_cons]
    have hmap : l.map (fun k =>
        (update_global_geometry (update_boundary_node_geometry st x) 0
          ((update_boundary_node_geometry st x).node_geometry
            x)).node_geometry k) = l.map (fun k => st.node_geometry k) := by
      refine List.map_congr_left ?_
      intro k _
      rfl
    have hred1 : (update_boundary_node_geometry st x).node_geometry x =
        st.node_geometry x := rfl
    have hred2 : (update_boundary_node_geometry st x).global_geometry =
        st.global_geometry := rfl
    rw [hmap, update_global_global, hred1, hred2]
    abel

@[simp] theorem update_boundary_n_nodes (s : MeshState R) (i : ℕ) :
    (update_boundary_node_geometry s i).n_nodes = s.n_nodes := rfl

@[simp] theorem update_boundary_boundary (s : MeshState R) (i : ℕ) :
    (update_boundary_node_geometry s i).boundary_nodes_ids =
      s.boundary_nodes_ids := rfl

theorem make_global_consistent (sq : R → R) (s : MeshState R)
    (hperm : (s.bulk_nodes_ids ++ s.boundary_nodes_ids).Perm
      (List.range s.n_nodes)) :
    global_consistent (make_global_geometry sq s) := by
  have hnd : (s.bulk_nodes_ids ++ s.boundary_nodes_ids).Nodup :=
    hperm.nodup_iff.mpr (List.nodup_range s.n_nodes)
  have hbulknd : s.bulk_nodes_ids.Nodup := hnd.of_append_left
  have hmg : make_global_geometry sq s =
      (s.bulk_nodes_ids.foldl
        (fun st1 node_id =>
          update_global_geometry (update_bulk_node_geometry sq st1 node_id)
            0 ((update_bulk_node_geometry sq st1 node_id).node_geometry
              node_id))
        { s with global_geometry :=
          (0 : Geometry R) }).boundary_nodes_ids.foldl
        (fun st1 node_id =>
          update_global_geometry
            (update_boundary_node_geometry st1 node_id) 0
            ((update_boundary_node_geometry st1 node_id).node_geometry
              node_id))
        (s.bulk_nodes_ids.foldl
          (fun st1 node_id =>
            update_global_geometry (update_bulk_node_geometry sq st1
              node_id) 0
              ((update_bulk_node_geometry sq st1 node_id).node_geometry
                node_id))
          { s with global_geometry := (0 : Geometry R) }) := rfl
  have hbd : (s.bulk_nodes_ids.foldl
      (fun st1 node_id =>
        update_global_geometry (update_bulk_node_geometry sq st1 node_id)
          0 ((update_bulk_node_geometry sq st1 node_id).node_geometry
            node_id))
      { s with global_geometry :=
        (0 : Geometry R) }).boundary_nodes_ids = s.boundary_nodes_ids := by
    rw [foldl_proj_eq MeshState.boundary_nodes_ids _ (fun st j => by simp)]
  unfold global_consistent
  rw [hmg, hbd]
  rw [foldl_proj_eq MeshState.n_nodes _ (fun st j => by simp),
    foldl_proj_eq MeshState.n_nodes _ (fun st j => by simp)]
  have hzn : ({ s with global_geometry := (0 : Geometry R) }
      : MeshState R).n_nodes = s.n_nodes := rfl
  rw [hzn]
  simp only [boundary_loop_ng]
  rw [boundary_loop_global, bulk_loop_global sq s.bulk_nodes_ids _ hbulknd]
  have hzg : ({ s with global_geometry := (0 : Geometry R) }
      : MeshState R).global_geometry = (0 : Geometry R) := rfl
  rw [hzg, zero_add]
  have hs := (hperm.map (fun k =>
      (s.bulk_nodes_ids.foldl
        (fun st1 node_id =>
          update_global_geometry (update_bulk_node_geometry sq st1 node_id)
            0 ((update_bulk_node_geometry sq st1 node_id).node_geometry
              node_id))
        { s with global_geometry :=
          (0 : Geometry R) }).node_geometry k)).sum_eq
  rw [← hs, List.map_append, List.sum_append]

theorem flip_bulk_bond_fst_n_nodes (sq : R → R) (s : MeshState R)
    (node_id nn_id : ℕ) (mn mx : R) :
    (flip_bulk_bond sq s node_id nn_id mn mx).1.n_nodes = s.n_nodes := by
  simp only [flip_bulk_bond]
  split_ifs <;> simp

theorem unflip_bond_n_nodes (sq : R → R) (s : MeshState R) (a b : ℕ)
    (r : BondFlipData) : (unflip_bond sq s a b r).n_nodes = s.n_nodes := by
  simp only [unflip_bond, update_global_n_nodes, update_diamond_n_nodes,
    flip_bond_unchecked_n_nodes]

theorem flip_bulk_bond_fail_deg1 (sq : R → R) (s : MeshState R)
    (node_id nn_id : ℕ) (mn mx : R)
    (hfail : ¬ BOND_DONATION_CUTOFF < (s.nn_ids node_id).length) :
    flip_bulk_bond sq s node_id nn_id mn mx = (s, {}) := by
  simp only [flip_bulk_bond]
  rw [if_neg hfail]

theorem flip_bulk_bond_fail_deg2 (sq : R → R) (s : MeshState R)
    (node_id nn_id : ℕ) (mn mx : R)
    (h1 : BOND_DONATION_CUTOFF < (s.nn_ids node_id).length)
    (hfail : ¬ BOND_DONATION_CUTOFF < (s.nn_ids nn_id).length) :
    flip_bulk_bond sq s node_id nn_id mn mx = (s, {}) := by
  simp only [flip_bulk_bond, h1, if_true, ite_true]
  rw [if_neg hfail]

theorem flip_bulk_bond_fail_bond (sq : R → R) (s : MeshState R)
    (node_id nn_id cm cp : ℕ) (mn mx : R)
    (hcm : previous_and_next_neighbour_global_ids s node_id nn_id =
      ⟨cm, cp⟩)
    (h1 : BOND_DONATION_CUTOFF < (s.nn_ids node_id).length)
    (h2 : BOND_DONATION_CUTOFF < (s.nn_ids nn_id).length)
    (hfail : ¬ ((s.pos cm - s.pos cp).norm_square < mx ∧
      mn < (s.pos cm - s.pos cp).norm_square)) :
    flip_bulk_bond sq s node_id nn_id mn mx = (s, {}) := by
  simp only [flip_bulk_bond, hcm, h1, h2, if_true, ite_true]
  rw [if_neg hfail]

theorem flip_bulk_bond_fail_common (sq : R → R) (s : MeshState R)
    (node_id nn_id cm cp : ℕ) (mn mx : R)
    (hcm : previous_and_next_neighbour_global_ids s node_id nn_id =
      ⟨cm, cp⟩)
    (h1 : BOND_DONATION_CUTOFF < (s.nn_ids node_id).length)
    (h2 : BOND_DONATION_CUTOFF < (s.nn_ids nn_id).length)
    (hbx : (s.pos cm - s.pos cp).norm_square < mx)
    (hbn : mn < (s.pos cm - s.pos cp).norm_square)
    (hfail : ¬ (common_neighbours s node_id nn_id).length = 2) :
    flip_bulk_bond sq s node_id nn_id mn mx = (s, {}) := by
  simp only [flip_bulk_bond, hcm, h1, h2, hbx, hbn, and_self, if_true,
    ite_true]
  rw [if_neg hfail]

theorem flip_bulk_bond_fst_rollback (sq : R → R) (s : MeshState R)
    (node_id nn_id cm cp : ℕ) (mn mx : R)
    (hcm : previous_and_next_neighbour_global_ids s node_id nn_id =
      ⟨cm, cp⟩)
    (h1 : BOND_DONATION_CUTOFF < (s.nn_ids node_id).length)
    (h2 : BOND_DONATION_CUTOFF < (s.nn_ids nn_id).length)
    (hbx : (s.pos cm - s.pos cp).norm_square < mx)
    (hbn : mn < (s.pos cm - s.pos cp).norm_square)
    (hc : (common_neighbours s node_id nn_id).length = 2)
    (hpost : ¬ (common_neighbours
      (flip_bond_unchecked s node_id nn_id cm cp).1 cm cp).length = 2) :
    (flip_bulk_bond sq s node_id nn_id mn mx).1 =
      (flip_bond_unchecked
        (flip_bond_unchecked { s with pre_update_geometry :=
          (calculate_diamond_geometry s node_id nn_id cm cp) }
          node_id nn_id cm cp).1 cm cp nn_id node_id).1 := by
  have hpost2 : ¬ (common_neighbours
      (flip_bond_unchecked
        { s with pre_update_geometry :=
          (calculate_diamond_geometry s node_id nn_id cm cp) }
        node_id nn_id cm cp).1 cm cp).length = 2 := by
    rw [common_neighbours_congr ((flip_bond_unchecked s
      node_id nn_id cm cp).1)]
    · exact hpost
    · rw [flip_bond_unchecked_fst_nn_ids, flip_bond_unchecked_fst_nn_ids]
  simp only [flip_bulk_bond, hcm, flip_bond_unchecked_snd, h1, h2, hc,
    hbx, hbn, and_self, if_true, ite_true, eq_self_iff_true]
  rw [if_neg hpost2]

theorem flip_preserves_total (sq : R → R) (s : MeshState R)
    {a b cm cp : ℕ} (mn mx : R)
    (hpn : previous_and_next_neighbour_global_ids s a b = ⟨cm, cp⟩)
    (hab : a ≠ b) (hacm : a ≠ cm) (hacp : a ≠ cp) (hbcm : b ≠ cm)
    (hbcp : b ≠ cp) (hcmcp : cm ≠ cp)
    (hmem : ∀ k ∈ [a, b, cm, cp], k < s.n_nodes)
    (h : global_consistent s) :
    global_consistent (flip_bulk_bond sq s a b mn mx).1 := by
  by_cases hc1 : BOND_DONATION_CUTOFF < (s.nn_ids a).length
  · by_cases hc2 : BOND_DONATION_CUTOFF < (s.nn_ids b).length
    · by_cases hw : (s.pos cm - s.pos cp).norm_square < mx ∧
          mn < (s.pos cm - s.pos cp).norm_square
      · by_cases hcc : (common_neighbours s a b).length = 2
        · by_cases hpost : (common_neighbours
              (flip_bond_unchecked s a b cm cp).1 cm cp).length = 2
          · rw [flip_bulk_bond_eq_applied sq s a b cm cp mn mx hpn hc1
              hc2 hw.1 hw.2 hcc hpost]
            exact flip_applied_preserves_total sq s hab hacm hacp hbcm
              hbcp hcmcp hmem h
          · rw [flip_bulk_bond_fst_rollback sq s a b cm cp mn mx hpn hc1
              hc2 hw.1 hw.2 hcc hpost]
            exact flip_bond_unchecked_consistent _ cm cp b a
              (flip_bond_unchecked_consistent _ a b cm cp h)
        · rw [flip_bulk_bond_fail_common sq s a b cm cp mn mx hpn hc1 hc2
            hw.1 hw.2 hcc]
          exact h
      · rw [flip_bulk_bond_fail_bond sq s a b cm cp mn mx hpn hc1 hc2 hw]
        exact h
    · rw [flip_bulk_bond_fail_deg2 sq s a b mn mx hc1 hc2]
      exact h
  · rw [flip_bulk_bond_fail_deg1 sq s a b mn mx hc1]
    exact h

end MeshState

/-- Characterization of `move_needs_undoing` for a nonnegative thermal
scale: the move is undone iff `kBT > 0`, `ΔE > 0` and the draw exceeds
`exp(-ΔE/kBT)`, or `kBT = 0` and `ΔE > 0`. -/
theorem move_needs_undoing_iff {R : Type} [LinearOrderedField R]
    (ex : R → R) (kBT e_old e_new u : R) (h : 0 ≤ kBT) :
    move_needs_undoing ex kBT e_old e_new u = true ↔
      ((0 < kBT ∧ 0 < e_new - e_old ∧ ex (-(e_new - e_old) / kBT) < u) ∨
       (kBT = 0 ∧ 0 < e_new - e_old)) := by
  unfold move_needs_undoing
  by_cases hpos : 0 < kBT
  · rw [if_pos hpos]
    simp only [Bool.and_eq_true, decide_eq_true_iff]
    rw [show (e_old - e_new) / kBT = -(e_new - e_old) / kBT by rw [neg_sub]]
    constructor
    · rintro ⟨hd, hu⟩
      exact Or.inl ⟨hpos, by linarith, hu⟩
    · rintro (⟨_, hd, hu⟩ | ⟨h0, _⟩)
      · exact ⟨by linarith, hu⟩
      · exact absurd h0 (ne_of_gt hpos)
  · have h0 : kBT = 0 := le_antisymm (not_lt.mp hpos) h
    rw [if_neg hpos]
    simp only [decide_eq_true_iff]
    constructor
    · intro hd
      exact Or.inr ⟨h0, by linarith⟩
    · rintro (⟨hp, _, _⟩ | ⟨_, hd⟩)
      · exact absurd hp hpos
      · linarith

/-- C7: for all edge vectors, triangle area and cotangents, `mixed_area`
returns `(c_{j+1}·‖e_j‖² + c_j·‖e_{j+1}‖²)/8` when both cotangents are
positive and `e_j · e_{j+1} > 0`; `T/2` when both cotangents are positive
and `e_j · e_{j+1} ≤ 0`; and `T/4` when either cotangent is nonpositive. -/
theorem C7_mixed_area_rule {R : Type} [LinearOrderedField R]
    (lij lij_p_1 : vec3 R) (triangle_area cot_at_j cot_at_j_p_1 : R) :
    (0 < cot_at_j → 0 < cot_at_j_p_1 → 0 < lij.dot lij_p_1 →
      mixed_area lij lij_p_1 triangle_area cot_at_j cot_at_j_p_1 =
        (cot_at_j_p_1 * lij.dot lij + cot_at_j * lij_p_1.dot lij_p_1) / 8) ∧
    (0 < cot_at_j → 0 < cot_at_j_p_1 → lij.dot lij_p_1 ≤ 0 →
      mixed_area lij lij_p_1 triangle_area cot_at_j cot_at_j_p_1 =
        triangle_area / 2) ∧
    ((cot_at_j ≤ 0 ∨ cot_at_j_p_1 ≤ 0) →
      mixed_area lij lij_p_1 triangle_area cot_at_j cot_at_j_p_1 =
        triangle_area / 4) := by
  refine ⟨fun h1 h2 h3 => ?_, fun h1 h2 h3 => ?_, fun h => ?_⟩
  · simp only [mixed_area]
    rw [if_pos ⟨h1, h2⟩, if_pos h3]
  · simp only [mixed_area]
    rw [if_pos ⟨h1, h2⟩, if_neg (not_lt.mpr h3)]
  · simp only [mixed_area]
    rw [if_neg]
    rcases h with h | h
    · exact fun hc => absurd hc.1 (not_lt.mpr h)
    · exact fun hc => absurd hc.2 (not_lt.mpr h)

/-- C7 witness: a concrete instance of the third branch of the mixed-area
rule; with `cot_at_j = 0` the quarter-area case applies. -/
theorem C7_witness :
    (0 : ℚ) ≤ 0 ∧
      mixed_area (⟨1, 0, 0⟩ : vec3 ℚ) ⟨0, 1, 0⟩ 1 0 1 = 1 / 4 :=
  ⟨le_rfl, (C7_mixed_area_rule ⟨1, 0, 0⟩ ⟨0, 1, 0⟩ 1 0 1).2.2 (Or.inl le_rfl)⟩

/-- C10: the neighbor-emplacement primitive is a silent no-op when the
insertion index is not strictly below the ring length; in particular
`emplace_before` with an absent anchor (whose found index is the ring
length) leaves the whole state — neighbor-id list and neighbor-edge list
included — unchanged, signalling nothing. -/
theorem C10_emplace_silent_noop {R : Type} [LinearOrderedField R]
    (s : MeshState R)
    (node_id to_emplace_nn_id loc_idx center anchor new_value : ℕ) :
    (¬ loc_idx < (s.nn_ids node_id).length →
      MeshState.emplace_nn_id s node_id to_emplace_nn_id loc_idx = s) ∧
    (anchor ∉ s.nn_ids center →
      MeshState.emplace_before s center anchor new_value = s) :=
  ⟨fun h => MeshState.emplace_nn_id_eq_of_le (Nat.le_of_not_lt h),
   fun h => MeshState.emplace_before_eq_of_not_mem h⟩

/-- C10 witness: on the concrete example state, emplacing at index `7` into
the 5-element ring of node `0`, and emplacing before the absent anchor `12`,
both leave the state unchanged. -/
theorem C10_witness :
    (¬ 7 < (rollbackState.nn_ids 0).length ∧
      (12 : ℕ) ∉ rollbackState.nn_ids 0) ∧
    MeshState.emplace_nn_id rollbackState 0 9 7 = rollbackState ∧
    MeshState.emplace_before rollbackState 0 12 9 = rollbackState :=
  ⟨⟨by decide, by decide⟩,
   (C10_emplace_silent_noop rollbackState 0 9 7 0 12 9).1 (by decide),
   (C10_emplace_silent_noop rollbackState 0 9 7 0 12 9).2 (by decide)⟩

/-- C4 (amended): when `flip_bulk_bond` refuses a flip at one of the four
pre-rewrite guards (degree of either donor, bond-length window, or the
donors' common-neighbour count), the returned report is the
default-initialized one, whose id fields hold the sentinel `2^63 - 1`; but
when the post-rewrite common-neighbour check fails and the rewrite is
rolled back, the report has `flipped = false` with the id fields holding the
two common neighbors, not the sentinel. -/
theorem C4_flip_report_sentinel {R : Type} [LinearOrderedField R]
    (sq : R → R) (s : MeshState R) (node_id nn_id : ℕ) (mn mx : R) :
    ((¬ BOND_DONATION_CUTOFF < (s.nn_ids node_id).length ∨
      ¬ BOND_DONATION_CUTOFF < (s.nn_ids nn_id).length ∨
      ¬ ((s.pos (MeshState.previous_and_next_neighbour_global_ids s node_id
            nn_id).j_m_1 -
          s.pos (MeshState.previous_and_next_neighbour_global_ids s node_id
            nn_id).j_p_1).norm_square < mx ∧
         mn < (s.pos (MeshState.previous_and_next_neighbour_global_ids s
            node_id nn_id).j_m_1 -
          s.pos (MeshState.previous_and_next_neighbour_global_ids s node_id
            nn_id).j_p_1).norm_square) ∨
      (MeshState.common_neighbours s node_id nn_id).length ≠ 2) →
      (MeshState.flip_bulk_bond sq s node_id nn_id mn mx).2 =
        ⟨false, VERY_LARGE_NUMBER, VERY_LARGE_NUMBER⟩) ∧
    (∀ cm cp : ℕ,
      MeshState.previous_and_next_neighbour_global_ids s node_id nn_id =
        ⟨cm, cp⟩ →
      BOND_DONATION_CUTOFF < (s.nn_ids node_id).length →
      BOND_DONATION_CUTOFF < (s.nn_ids nn_id).length →
      (s.pos cm - s.pos cp).norm_square < mx →
      mn < (s.pos cm - s.pos cp).norm_square →
      (MeshState.common_neighbours s node_id nn_id).length = 2 →
      (MeshState.common_neighbours
        (MeshState.flip_bond_unchecked s node_id nn_id cm cp).1 cm cp).length
        ≠ 2 →
      (MeshState.flip_bulk_bond sq s node_id nn_id mn mx).2 =
        ⟨false, cm, cp⟩) := by
  constructor
  · intro h
    simp only [MeshState.flip_bulk_bond]
    split
    · split
      · split
        · split
          · rename_i h1 h2 hb hc
            rcases h with h | h | h | h
            · exact absurd h1 h
            · exact absurd h2 h
            · exact absurd hb h
            · exact absurd hc h
          · rfl
        · rfl
      · rfl
    · rfl
  · intro cm cp hcm h1 h2 hbx hbn hc hpost
    exact MeshState.flip_bulk_bond_snd_rollback sq s node_id nn_id cm cp mn mx
      hcm h1 h2 hbx hbn hc hpost

/-- C4 counterexample: on the concrete `rollbackState`, the flip of the edge
`(0, 1)` with bond-length window `(0, 1000)` passes every pre-rewrite check,
fails the post-rewrite common-neighbour check (nodes `2` and `3` share the
four neighbors `0, 1, 4, 9` after the rewrite), and is rolled back — yet the
returned report holds the real ids `2` and `3`, not the sentinel
`2^63 - 1`, contradicting the claim that every non-applied report carries
the sentinel. -/
theorem C4_counterexample :
    (MeshState.flip_bulk_bond (fun x => x) rollbackState 0 1 0 1000).2 =
      ⟨false, 2, 3⟩ ∧
    (2 : ℕ) ≠ VERY_LARGE_NUMBER ∧ (3 : ℕ) ≠ VERY_LARGE_NUMBER := by
  have hb : (rollbackState.pos 2 - rollbackState.pos 3).norm_square = 1 := by
    norm_num [rollbackState, examplePos, vec3.norm_square, vec3.dot]
  refine ⟨?_, by decide, by decide⟩
  refine MeshState.flip_bulk_bond_snd_rollback (fun x => x) rollbackState
    0 1 2 3 0 1000 (by decide) (by decide) (by decide) ?_ ?_ (by decide)
    (by decide)
  · rw [hb]; norm_num
  · rw [hb]; norm_num

/-- C4 witness: the amended theorem applied to `rollbackState`, with every
hypothesis discharged by computation. -/
theorem C4_witness :
    (MeshState.flip_bulk_bond (fun x => x) rollbackState 0 1 0 1000).2 =
      ⟨false, 2, 3⟩ := by
  have hb : (rollbackState.pos 2 - rollbackState.pos 3).norm_square = 1 := by
    norm_num [rollbackState, examplePos, vec3.norm_square, vec3.dot]
  refine (C4_flip_report_sentinel (fun x => x) rollbackState 0 1 0 1000).2 2 3
    (by decide) (by decide) (by decide) ?_ ?_ (by decide) (by decide)
  · rw [hb]; norm_num
  · rw [hb]; norm_num

/-- C5 (amended): the unchecked topology rewrite, given `a, b, c-, c+` with
`a`'s ring containing `…, c-, b, c+, …` (laid out here without wraparound,
and with the matching layouts of the other three rings), performs exactly
these steps: insert `c+` into `c-`'s ring immediately before the position
of `a` in `c-`'s ring; insert `c-` into `c+`'s ring immediately before the
position of `b` in `c+`'s ring; then remove `b` from `a`'s ring and `a`
from `b`'s ring, with the matching edge-vector entries inserted and removed
alongside and no other node touched.  (The claim's insertion anchors — `b`
in `c-`'s ring and `a` in `c+`'s ring — are the other way around in the
code.) -/
theorem C5_flip_bond_unchecked_steps {R : Type} [LinearOrderedField R]
    (s : MeshState R) (a b cm cp : ℕ)
    (hab : a ≠ b) (hacm : a ≠ cm) (hacp : a ≠ cp)
    (hbcm : b ≠ cm) (hbcp : b ≠ cp) (hcmcp : cm ≠ cp)
    {pa qa : List ℕ} (ha : s.nn_ids a = pa ++ cm :: b :: cp :: qa)
    (hna : (s.nn_ids a).Nodup)
    {pb qb : List ℕ} (hb : s.nn_ids b = pb ++ cp :: a :: cm :: qb)
    (hnb : (s.nn_ids b).Nodup)
    {pc qc : List ℕ} (hc : s.nn_ids cm = pc ++ a :: qc) (hac : a ∉ pc)
    {pd qd : List ℕ} (hd : s.nn_ids cp = pd ++ b :: qd) (hbd : b ∉ pd) :
    (MeshState.flip_bond_unchecked s a b cm cp).2 = ⟨true, cm, cp⟩ ∧
    (MeshState.flip_bond_unchecked s a b cm cp).1.nn_ids cm =
      pc ++ cp :: a :: qc ∧
    (MeshState.flip_bond_unchecked s a b cm cp).1.nn_ids cp =
      pd ++ cm :: b :: qd ∧
    (MeshState.flip_bond_unchecked s a b cm cp).1.nn_ids a =
      pa ++ cm :: cp :: qa ∧
    (MeshState.flip_bond_unchecked s a b cm cp).1.nn_ids b =
      pb ++ cp :: cm :: qb ∧
    (MeshState.flip_bond_unchecked s a b cm cp).1.nn_distances cm =
      (s.nn_distances cm).insertIdx pc.length (s.pos cp - s.pos cm) ∧
    (MeshState.flip_bond_unchecked s a b cm cp).1.nn_distances cp =
      (s.nn_distances cp).insertIdx pd.length (s.pos cm - s.pos cp) ∧
    (MeshState.flip_bond_unchecked s a b cm cp).1.nn_distances a =
      (s.nn_distances a).eraseIdx (pa.length + 1) ∧
    (MeshState.flip_bond_unchecked s a b cm cp).1.nn_distances b =
      (s.nn_distances b).eraseIdx (pb.length + 1) ∧
    (∀ k, k ≠ a → k ≠ b → k ≠ cm → k ≠ cp →
      (MeshState.flip_bond_unchecked s a b cm cp).1.nn_ids k = s.nn_ids k ∧
      (MeshState.flip_bond_unchecked s a b cm cp).1.nn_distances k =
        s.nn_distances k) :=
  MeshState.flip_bond_unchecked_effect s hab hacm hacp hbcm hbcp hcmcp ha hna
    hb hnb hc hac hd hbd

/-- C5 counterexample: on `rollbackState` — whose ring of node `0` is
`[2, 1, 3, 5, 6]`, containing `c- = 2, b = 1, c+ = 3` consecutively as the
claim requires — the code inserts `3` into node `2`'s ring before the
position of `a = 0`, producing `[1, 3, 0, 4, 9, 10]`, while the claimed
steps (insert before the position of `b = 1` in `c-`'s ring) produce
`[3, 1, 0, 4, 9, 10]`: the code does not perform the claimed steps. -/
theorem C5_counterexample :
    (MeshState.flip_bond_unchecked rollbackState 0 1 2 3).1.nn_ids 2 =
      [1, 3, 0, 4, 9, 10] ∧
    (MeshState.flip_bond_unchecked_spec rollbackState 0 1 2 3).nn_ids 2 =
      [3, 1, 0, 4, 9, 10] ∧
    (MeshState.flip_bond_unchecked rollbackState 0 1 2 3).1.nn_ids 2 ≠
      (MeshState.flip_bond_unchecked_spec rollbackState 0 1 2 3).nn_ids 2 :=
  ⟨by decide, by decide, by decide⟩

/-- C5 witness: the amended statement applied to the concrete example: in
node `2`'s ring `[1, 0, 4, 9, 10]`, the receiver `3` lands immediately
before the position of `0`. -/
theorem C5_witness :
    rollbackState.nn_ids 0 = [] ++ 2 :: 1 :: 3 :: [5, 6] ∧
    (MeshState.flip_bond_unchecked rollbackState 0 1 2 3).1.nn_ids 2 =
      [1] ++ 3 :: 0 :: [4, 9, 10] :=
  ⟨by decide,
   (@C5_flip_bond_unchecked_steps ℚ _ rollbackState 0 1 2 3
     (by decide) (by decide) (by decide) (by decide) (by decide) (by decide)
     [] [5, 6] (by decide) (by decide)
     [] [7, 8] (by decide) (by decide)
     [1] [4, 9, 10] (by decide) (by decide)
     [0] [4, 11, 9] (by decide) (by decide)).2.1⟩

/-- C8: in planar mode, a flip request in which either donor or either of
the two ring-derived common neighbors lies in the boundary set returns a
default-initialized (not applied) report and leaves the mesh state entirely
unchanged. -/
theorem C8_planar_boundary_flip_rejected {R : Type} [LinearOrderedField R]
    (sq : R → R) (s : MeshState R) (node_id nn_id : ℕ) (mn mx : R)
    (h : node_id ∈ s.boundary_nodes_ids ∨ nn_id ∈ s.boundary_nodes_ids ∨
      (MeshState.previous_and_next_neighbour_global_ids s node_id
        nn_id).j_m_1 ∈ s.boundary_nodes_ids ∨
      (MeshState.previous_and_next_neighbour_global_ids s node_id
        nn_id).j_p_1 ∈ s.boundary_nodes_ids) :
    MeshState.flip_bond_planar sq s node_id nn_id mn mx =
      (s, ⟨false, VERY_LARGE_NUMBER, VERY_LARGE_NUMBER⟩) := by
  simp only [MeshState.flip_bond_planar]
  split
  · rfl
  · rename_i h1
    split
    · rfl
    · rename_i h2
      exfalso
      rcases h with h | h | h | h
      · exact h1 (Or.inl h)
      · exact h1 (Or.inr h)
      · exact h2 (Or.inl h)
      · exact h2 (Or.inr h)

/-- C8 witness: on the planar example state the common neighbor `3` of the
edge `(0, 1)` is a boundary node, so the flip request is rejected and the
state unchanged. -/
theorem C8_witness :
    ((MeshState.previous_and_next_neighbour_global_ids planarState 0
        1).j_p_1 ∈ planarState.boundary_nodes_ids) ∧
    MeshState.flip_bond_planar (fun x => x) planarState 0 1 0 1000 =
      (planarState, ⟨false, VERY_LARGE_NUMBER, VERY_LARGE_NUMBER⟩) :=
  ⟨by decide,
   C8_planar_boundary_flip_rejected (fun x => x) planarState 0 1 0 1000
     (Or.inr (Or.inr (Or.inr (by decide))))⟩

/-- C2: after the bond-length guard passes and with a nonnegative thermal
scale, the proposed node move is undone exactly when: `kT > 0`, the energy
difference `ΔE = E_new - E_old` is strictly positive and the uniform draw
`u` exceeds `exp(-ΔE / kT)`; or `kT = 0` and `ΔE` is strictly positive
(greedy mode).  The undo applies `move_node` with the negated
displacement. -/
theorem C2_metropolis_acceptance {R : Type} [LinearOrderedField R]
    (sq ex : R → R) (energy_function : ℕ → MeshState R → R) (kBT u : R)
    (s : MeshState R) (node_id : ℕ) (displacement : vec3 R) (mn mx : R)
    (hguard : new_neighbour_distances_ok s node_id displacement mn mx = true)
    (hkBT : 0 ≤ kBT) :
    ((move_MC_updater sq ex energy_function kBT u s node_id displacement mn
        mx).2 = true ↔
      ((0 < kBT ∧
        0 < energy_function node_id
            (MeshState.move_node sq s node_id displacement) -
          energy_function node_id s ∧
        ex (-(energy_function node_id
            (MeshState.move_node sq s node_id displacement) -
          energy_function node_id s) / kBT) < u) ∨
       (kBT = 0 ∧
        0 < energy_function node_id
            (MeshState.move_node sq s node_id displacement) -
          energy_function node_id s))) ∧
    (move_MC_updater sq ex energy_function kBT u s node_id displacement mn
        mx).1 =
      (if (move_MC_updater sq ex energy_function kBT u s node_id
          displacement mn mx).2 = true then
        MeshState.move_node sq
          (MeshState.move_node sq s node_id displacement) node_id
          (-displacement)
      else MeshState.move_node sq s node_id displacement) := by
  constructor
  · simp only [move_MC_updater, hguard, if_true, ite_true]
    rw [← move_needs_undoing_iff ex kBT (energy_function node_id s)
      (energy_function node_id (MeshState.move_node sq s node_id
        displacement)) u hkBT]
    cases hu : move_needs_undoing ex kBT (energy_function node_id s)
      (energy_function node_id (MeshState.move_node sq s node_id
        displacement)) u
    · simp [hu]
    · simp [hu]
  · simp only [move_MC_updater, hguard, if_true, ite_true]
    cases hu : move_needs_undoing ex kBT (energy_function node_id s)
      (energy_function node_id (MeshState.move_node sq s node_id
        displacement)) u
    · simp [hu]
    · simp [hu]

/-- C2 witness: a concrete instance: node `14` has no neighbors so the
guard passes trivially; with constant zero energy the move is not undone,
matching the acceptance rule. -/
theorem C2_witness :
    (new_neighbour_distances_ok rollbackState 14 (⟨1, 0, 0⟩ : vec3 ℚ) 0 100
      = true) ∧
    ((move_MC_updater (fun x => x) (fun x => x)
        (fun _ _ => (0 : ℚ)) 1 (1 / 2) rollbackState 14 ⟨1, 0, 0⟩ 0
        100).2 = true ↔
      ((0 < (1 : ℚ) ∧ 0 < (0 : ℚ) - 0 ∧
          (fun x => x) (-((0 : ℚ) - 0) / 1) < 1 / 2) ∨
       ((1 : ℚ) = 0 ∧ 0 < (0 : ℚ) - 0))) :=
  ⟨rfl,
   (C2_metropolis_acceptance (fun x => x) (fun x => x) (fun _ _ => (0 : ℚ))
     1 (1 / 2) rollbackState 14 ⟨1, 0, 0⟩ 0 100 rfl (by norm_num)).1⟩

theorem icosphere_nn_ids (sq : ℝ → ℝ) :
    (icosphereState sq).nn_ids = icoRing :=
  MeshState.make_global_geometry_nn_ids sq icoBase

theorem icosphere_pos (sq : ℝ → ℝ) : (icosphereState sq).pos = icoPos :=
  MeshState.make_global_geometry_pos sq icoBase

theorem ico_bond_one_four :
    0 < (icoPos 1 - icoPos 4).norm_square ∧
      (icoPos 1 - icoPos 4).norm_square < 100 := by
  have h5 := Real.sq_sqrt (show (0 : ℝ) ≤ 5 by norm_num)
  have h0 := Real.sqrt_nonneg 5
  simp only [icoPos, icoPhi, vec3.sub_def, vec3.norm_square, vec3.dot]
  constructor <;> nlinarith [h5, h0]

theorem ico_bond_nine_eight :
    0 < (icoPos 9 - icoPos 8).norm_square ∧
      (icoPos 9 - icoPos 8).norm_square < 100 := by
  have h5 := Real.sq_sqrt (show (0 : ℝ) ≤ 5 by norm_num)
  have h0 := Real.sqrt_nonneg 5
  simp only [icoPos, icoPhi, vec3.sub_def, vec3.norm_square, vec3.dot]
  constructor <;> nlinarith [h5, h0]

/-- C1 (amended): on the level-0 spherical mesh every node has exactly 5
neighbors, yet the degree guard does not reject any flip: the donation
cutoff is `BOND_DONATION_CUTOFF = 4`, so a donor with 5 = 4 + 1 neighbors
may donate (its degree after a successful flip drops to 4).  For every
edge of any spherical mesh whose donors have exactly 5 neighbors and whose
remaining guards pass — bond-length window and the two common-neighbour
checks — `flip_bond` returns `applied = true`. -/
theorem C1_degree_five_donors_may_flip {R : Type} [LinearOrderedField R]
    (sq : R → R) (s : MeshState R) (node_id nn_id cm cp : ℕ) (mn mx : R)
    (h5a : (s.nn_ids node_id).length = 5)
    (h5b : (s.nn_ids nn_id).length = 5)
    (hcm : MeshState.previous_and_next_neighbour_global_ids s node_id nn_id
      = ⟨cm, cp⟩)
    (hbx : (s.pos cm - s.pos cp).norm_square < mx)
    (hbn : mn < (s.pos cm - s.pos cp).norm_square)
    (hc : (MeshState.common_neighbours s node_id nn_id).length = 2)
    (hpost : (MeshState.common_neighbours
      (MeshState.flip_bond_unchecked s node_id nn_id cm cp).1 cm
      cp).length = 2) :
    (MeshState.flip_bulk_bond sq s node_id nn_id mn mx).2.flipped = true := by
  rw [MeshState.flip_bulk_bond_eq_applied sq s node_id nn_id cm cp mn mx hcm
    (by rw [h5a]; decide) (by rw [h5b]; decide) hbx hbn hc hpost]

/-- C1 counterexample: on the constructed `n = 0` spherical mesh (with the
real square root), every node has exactly 5 neighbors, and yet
`flip_bond(0, 8)` with the bond-length window `(0, 100)` returns
`applied = true` — refuting the claim that every flip is rejected because
donors would need at least 6 neighbors. -/
theorem C1_counterexample :
    ((List.range 12).all fun k =>
      ((icosphereState Real.sqrt).nn_ids k).length == 5) = true ∧
    (MeshState.flip_bulk_bond Real.sqrt (icosphereState Real.sqrt)
      0 8 0 100).2.flipped = true := by
  constructor
  · rw [icosphere_nn_ids]
    decide
  · have hpn : MeshState.previous_and_next_neighbour_global_ids
        (icosphereState Real.sqrt) 0 8 = ⟨1, 4⟩ := by
      rw [MeshState.prev_next_congr icoBase]
      · decide
      · rw [icosphere_nn_ids]; rfl
    have hcc : (MeshState.common_neighbours (icosphereState Real.sqrt)
        0 8).length = 2 := by
      rw [MeshState.common_neighbours_congr icoBase]
      · decide
      · rw [icosphere_nn_ids]; rfl
    have hpost : (MeshState.common_neighbours
        (MeshState.flip_bond_unchecked (icosphereState Real.sqrt)
          0 8 1 4).1 1 4).length = 2 := by
      rw [MeshState.common_neighbours_congr
        ((MeshState.flip_bond_unchecked icoBase 0 8 1 4).1)]
      · decide
      · rw [MeshState.flip_bond_unchecked_fst_nn_ids,
          MeshState.flip_bond_unchecked_fst_nn_ids, icosphere_nn_ids]
        rfl
    rw [MeshState.flip_bulk_bond_eq_applied Real.sqrt (icosphereState
      Real.sqrt) 0 8 1 4 0 100 hpn (by rw [icosphere_nn_ids]; decide)
      (by rw [icosphere_nn_ids]; decide)
      (by rw [icosphere_pos]; exact ico_bond_one_four.2)
      (by rw [icosphere_pos]; exact ico_bond_one_four.1) hcc hpost]

/-- C1 witness: the amended statement applied to the edge `(0, 1)` of the
constructed level-0 mesh: both donors have exactly 5 neighbors and the flip
is applied. -/
theorem C1_witness :
    ((icosphereState Real.sqrt).nn_ids 0).length = 5 ∧
    (MeshState.flip_bulk_bond Real.sqrt (icosphereState Real.sqrt)
      0 1 0 100).2.flipped = true := by
  constructor
  · rw [icosphere_nn_ids]; decide
  · have hpn : MeshState.previous_and_next_neighbour_global_ids
        (icosphereState Real.sqrt) 0 1 = ⟨9, 8⟩ := by
      rw [MeshState.prev_next_congr icoBase]
      · decide
      · rw [icosphere_nn_ids]; rfl
    have hcc : (MeshState.common_neighbours (icosphereState Real.sqrt)
        0 1).length = 2 := by
      rw [MeshState.common_neighbours_congr icoBase]
      · decide
      · rw [icosphere_nn_ids]; rfl
    have hpost : (MeshState.common_neighbours
        (MeshState.flip_bond_unchecked (icosphereState Real.sqrt)
          0 1 9 8).1 9 8).length = 2 := by
      rw [MeshState.common_neighbours_congr
        ((MeshState.flip_bond_unchecked icoBase 0 1 9 8).1)]
      · decide
      · rw [MeshState.flip_bond_unchecked_fst_nn_ids,
          MeshState.flip_bond_unchecked_fst_nn_ids, icosphere_nn_ids]
        rfl
    refine C1_degree_five_donors_may_flip Real.sqrt (icosphereState
      Real.sqrt) 0 1 9 8 0 100 ?_ ?_ hpn ?_ ?_ hcc hpost
    · rw [icosphere_nn_ids]; decide
    · rw [icosphere_nn_ids]; decide
    · rw [icosphere_pos]
      exact ico_bond_nine_eight.2
    · rw [icosphere_pos]
      exact ico_bond_nine_eight.1


/-- C9: performing `displace(i, d)` followed by `displace(i, -d)` restores
every per-node attribute (position, neighbor ring, neighbor edge vectors,
area, volume, unit bending energy curvature vector) and the global
aggregate exactly, provided the moved node and its ring neighbors were
geometrically coherent before the move (their stored geometry equals the
recomputed one, as holds on every state the engine constructs). -/
theorem C9_displace_roundtrip {R : Type} [LinearOrderedField R]
    (sq : R → R) (s : MeshState R) (i : ℕ) (d : vec3 R)
    (hcoh : ∀ k, (k = i ∨ k ∈ s.nn_ids i) →
      MeshState.node_geometry_coherent sq s k) :
    (MeshState.move_node sq (MeshState.move_node sq s i d) i (-d)).pos
      = s.pos ∧
    (MeshState.move_node sq (MeshState.move_node sq s i d) i (-d)).nn_ids
      = s.nn_ids ∧
    (∀ k, MeshState.node_data
        (MeshState.move_node sq (MeshState.move_node sq s i d) i (-d)) k
      = MeshState.node_data s k) ∧
    (MeshState.move_node sq (MeshState.move_node sq s i d) i
      (-d)).global_geometry = s.global_geometry := by
  have hm1pos : (MeshState.move_node sq s i d).pos
      = Function.update s.pos i (s.pos i + d) :=
    MeshState.move_node_pos sq s i d
  have hm1ring : (MeshState.move_node sq s i d).nn_ids = s.nn_ids :=
    MeshState.move_node_nn_ids sq s i d
  have hpos2 : Function.update (MeshState.move_node sq s i d).pos i
      ((MeshState.move_node sq s i d).pos i + -d) = s.pos := by
    rw [hm1pos, Function.update_same, vec3.add_neg_cancel_right,
      Function.update_idem, Function.update_eq_self]
  have hdata : ∀ k, (k = i ∨ k ∈ s.nn_ids i) →
      MeshState.node_data
        (MeshState.update_two_ring_geometry_boundary_free sq
          { MeshState.move_node sq s i d with
            pos := (Function.update (MeshState.move_node sq s i d).pos i
              ((MeshState.move_node sq s i d).pos i + -d)) } i) k
        = MeshState.node_data s k := by
    intro k hk
    have hk1 : k = i ∨
        k ∈ ({ MeshState.move_node sq s i d with
          pos := (Function.update (MeshState.move_node sq s i d).pos i
            ((MeshState.move_node sq s i d).pos i + -d)) }
              : MeshState R).nn_ids i := by
      rcases hk with h | h
      · exact Or.inl h
      · refine Or.inr ?_
        show k ∈ (MeshState.move_node sq s i d).nn_ids i
        rw [hm1ring]
        exact h
    rw [MeshState.update_two_ring_node_data sq
      { MeshState.move_node sq s i d with
        pos := (Function.update (MeshState.move_node sq s i d).pos i
          ((MeshState.move_node sq s i d).pos i + -d)) } i k hk1]
    have hstep : MeshState.node_data
        (MeshState.update_bulk_node_geometry sq
          { MeshState.move_node sq s i d with
            pos := (Function.update (MeshState.move_node sq s i d).pos i
              ((MeshState.move_node sq s i d).pos i + -d)) } k) k
        = MeshState.node_data (MeshState.update_bulk_node_geometry sq s k)
            k := by
      refine MeshState.update_bulk_node_data_congr sq ?_ ?_
      · exact hpos2
      · show (MeshState.move_node sq s i d).nn_ids k = s.nn_ids k
        rw [hm1ring]
    rw [hstep]
    have hc : MeshState.update_bulk_node_geometry sq s k = s := hcoh k hk
    rw [hc]
  have hnode : ∀ k, MeshState.node_data
      (MeshState.move_node sq (MeshState.move_node sq s i d) i (-d)) k
      = MeshState.node_data s k := by
    intro k
    by_cases hk : k = i ∨ k ∈ s.nn_ids i
    · have h0 : MeshState.node_data
          (MeshState.move_node sq (MeshState.move_node sq s i d) i (-d)) k
          = MeshState.node_data
            (MeshState.update_two_ring_geometry_boundary_free sq
              { MeshState.move_node sq s i d with
                pos := (Function.update (MeshState.move_node sq s i d).pos i
                  ((MeshState.move_node sq s i d).pos i + -d)) } i) k := rfl
      rw [h0, hdata k hk]
    · push_neg at hk
      rw [MeshState.move_node_node_data_ne sq (MeshState.move_node sq s i d)
          i (-d) hk.1 (by rw [hm1ring]; exact hk.2),
        MeshState.move_node_node_data_ne sq s i d hk.1 hk.2]
  refine ⟨?_, ?_, hnode, ?_⟩
  · rw [MeshState.move_node_pos]
    exact hpos2
  · rw [MeshState.move_node_nn_ids, MeshState.move_node_nn_ids]
  · have hg3 : MeshState.get_two_ring_geometry
        (MeshState.move_node sq (MeshState.move_node sq s i d) i (-d)) i
        = MeshState.get_two_ring_geometry s i := by
      refine MeshState.get_two_ring_geometry_congr ?_ ?_
      · rw [MeshState.move_node_nn_ids, MeshState.move_node_nn_ids]
      · intro k _
        exact MeshState.node_geometry_eq_of_node_data (hnode k)
    have hg1 : (MeshState.move_node sq s i d).global_geometry
        = s.global_geometry +
          (MeshState.get_two_ring_geometry (MeshState.move_node sq s i d) i
            - MeshState.get_two_ring_geometry s i) := by
      show (MeshState.update_two_ring_geometry_boundary_free sq
          { s with pos := (Function.update s.pos i (s.pos i + d)) }
            i).global_geometry +
          (MeshState.get_two_ring_geometry (MeshState.move_node sq s i d) i
            - MeshState.get_two_ring_geometry s i)
        = s.global_geometry +
          (MeshState.get_two_ring_geometry (MeshState.move_node sq s i d) i
            - MeshState.get_two_ring_geometry s i)
      rw [MeshState.update_two_ring_global]
    have hg2 : (MeshState.move_node sq (MeshState.move_node sq s i d) i
        (-d)).global_geometry
        = (MeshState.move_node sq s i d).global_geometry +
          (MeshState.get_two_ring_geometry
            (MeshState.move_node sq (MeshState.move_node sq s i d) i (-d)) i
            - MeshState.get_two_ring_geometry
                (MeshState.move_node sq s i d) i) := by
      show (MeshState.update_two_ring_geometry_boundary_free sq
          { MeshState.move_node sq s i d with
            pos := (Function.update (MeshState.move_node sq s i d).pos i
              ((MeshState.move_node sq s i d).pos i + -d)) }
            i).global_geometry +
          (MeshState.get_two_ring_geometry
            (MeshState.move_node sq (MeshState.move_node sq s i d) i (-d)) i
            - MeshState.get_two_ring_geometry
                (MeshState.move_node sq s i d) i)
        = (MeshState.move_node sq s i d).global_geometry +
          (MeshState.get_two_ring_geometry
            (MeshState.move_node sq (MeshState.move_node sq s i d) i (-d)) i
            - MeshState.get_two_ring_geometry
                (MeshState.move_node sq s i d) i)
      rw [MeshState.update_two_ring_global]
    rw [hg2, hg1, hg3]
    abel

/-- C9 witness: on the concrete 15-node state, node 14 (empty ring, zero
stored geometry) is geometrically coherent together with its (no)
neighbors, and the round trip displace by `(1,2,3)` then `(-1,-2,-3)`
restores the position table. -/
theorem C9_witness :
    (∀ k, (k = 14 ∨ k ∈ rollbackState.nn_ids 14) →
      MeshState.node_geometry_coherent (fun x => (x : ℚ)) rollbackState k) ∧
    (MeshState.move_node (fun x => (x : ℚ))
      (MeshState.move_node (fun x => (x : ℚ)) rollbackState 14
        ⟨1, 2, 3⟩) 14 (-(⟨1, 2, 3⟩ : vec3 ℚ))).pos = rollbackState.pos := by
  have hcoh : ∀ k, (k = 14 ∨ k ∈ rollbackState.nn_ids 14) →
      MeshState.node_geometry_coherent (fun x => (x : ℚ)) rollbackState k := by
    intro k hk
    have hk14 : k = 14 := by
      rcases hk with h | h
      · exact h
      · exact absurd h (List.not_mem_nil k)
    subst hk14
    show MeshState.update_bulk_node_geometry (fun x => (x : ℚ))
      rollbackState 14 = rollbackState
    rw [MeshState.update_bulk_node_geometry_eq]
    have hb : MeshState.bulk_geometry_accumulate (fun x => (x : ℚ))
        (MeshState.fresh_nn_distances rollbackState 14)
        = ((0 : ℚ), (0 : vec3 ℚ), (0 : vec3 ℚ)) := rfl
    rw [hb]
    have hn : Function.update rollbackState.nn_distances 14
        (MeshState.fresh_nn_distances rollbackState 14)
        = rollbackState.nn_distances := by
      rw [show MeshState.fresh_nn_distances rollbackState 14
          = rollbackState.nn_distances 14 from rfl, Function.update_eq_self]
    have ha : Function.update rollbackState.area 14
        (((0 : ℚ), (0 : vec3 ℚ), (0 : vec3 ℚ))).1 = rollbackState.area := by
      rw [show (((0 : ℚ), (0 : vec3 ℚ), (0 : vec3 ℚ))).1
          = rollbackState.area 14 from rfl, Function.update_eq_self]
    have hv : Function.update rollbackState.volume 14
        ((rollbackState.pos 14).dot
          (((0 : ℚ), (0 : vec3 ℚ), (0 : vec3 ℚ))).2.1 / 3)
        = rollbackState.volume := by
      have h1 : (rollbackState.pos 14).dot
          (((0 : ℚ), (0 : vec3 ℚ), (0 : vec3 ℚ))).2.1 / 3
          = rollbackState.volume 14 := by
        show (rollbackState.pos 14).dot 0 / 3 = (0 : ℚ)
        simp [vec3.dot]
      rw [h1, Function.update_eq_self]
    have hcv : Function.update rollbackState.curvature_vec 14
        (vec3.sdiv (-(((0 : ℚ), (0 : vec3 ℚ), (0 : vec3 ℚ))).2.2)
          (2 * (((0 : ℚ), (0 : vec3 ℚ), (0 : vec3 ℚ))).1))
        = rollbackState.curvature_vec := by
      have h1 : vec3.sdiv (-(((0 : ℚ), (0 : vec3 ℚ), (0 : vec3 ℚ))).2.2)
          (2 * (((0 : ℚ), (0 : vec3 ℚ), (0 : vec3 ℚ))).1)
          = rollbackState.curvature_vec 14 := by
        show vec3.sdiv (-(0 : vec3 ℚ)) (2 * (0 : ℚ)) = (0 : vec3 ℚ)
        simp [vec3.sdiv]
      rw [h1, Function.update_eq_self]
    have hu : Function.update rollbackState.unit_bending_energy 14
        ((((0 : ℚ), (0 : vec3 ℚ), (0 : vec3 ℚ))).2.2.dot
          (((0 : ℚ), (0 : vec3 ℚ), (0 : vec3 ℚ))).2.2 /
          (8 * (((0 : ℚ), (0 : vec3 ℚ), (0 : vec3 ℚ))).1))
        = rollbackState.unit_bending_energy := by
      have h1 : (((0 : ℚ), (0 : vec3 ℚ), (0 : vec3 ℚ))).2.2.dot
          (((0 : ℚ), (0 : vec3 ℚ), (0 : vec3 ℚ))).2.2 /
          (8 * (((0 : ℚ), (0 : vec3 ℚ), (0 : vec3 ℚ))).1)
          = rollbackState.unit_bending_energy 14 := by
        show (0 : vec3 ℚ).dot (0 : vec3 ℚ) / (8 * (0 : ℚ)) = (0 : ℚ)
        simp [vec3.dot]
      rw [h1, Function.update_eq_self]
    rw [hn, ha, hv, hcv, hu]
  exact ⟨hcoh, (C9_displace_roundtrip (fun x => (x : ℚ)) rollbackState 14
    ⟨1, 2, 3⟩ hcoh).1⟩


/-- Shared round-trip lemma: under non-wraparound diamond ring layouts,
duplicate-free rings, the flip guards, and geometric coherence of the four
diamond nodes, a successful flip followed immediately by the unflip restores
positions, every ring, every node's edge vectors and scalars, and the global
aggregate exactly. -/
theorem flip_unflip_restores {R : Type} [LinearOrderedField R]
    (sq : R → R) (s : MeshState R) (a b cm cp : ℕ) (mn mx : R)
    (hab : a ≠ b) (hacm : a ≠ cm) (hacp : a ≠ cp)
    (hbcm : b ≠ cm) (hbcp : b ≠ cp) (hcmcp : cm ≠ cp)
    {pa qa : List ℕ} (ha : s.nn_ids a = pa ++ cm :: b :: cp :: qa)
    (hna : (s.nn_ids a).Nodup)
    {pb qb : List ℕ} (hb : s.nn_ids b = pb ++ cp :: a :: cm :: qb)
    (hnb : (s.nn_ids b).Nodup)
    {pc qc : List ℕ} (hc : s.nn_ids cm = pc ++ b :: a :: qc)
    (hncm : (s.nn_ids cm).Nodup) (hcpcm : cp ∉ s.nn_ids cm)
    {pd qd : List ℕ} (hd : s.nn_ids cp = pd ++ a :: b :: qd)
    (hncp : (s.nn_ids cp).Nodup) (hcmincp : cm ∉ s.nn_ids cp)
    (hpn : MeshState.previous_and_next_neighbour_global_ids s a b =
      ⟨cm, cp⟩)
    (h1 : BOND_DONATION_CUTOFF < (s.nn_ids a).length)
    (h2 : BOND_DONATION_CUTOFF < (s.nn_ids b).length)
    (hbx : (s.pos cm - s.pos cp).norm_square < mx)
    (hbn : mn < (s.pos cm - s.pos cp).norm_square)
    (hcpre : (MeshState.common_neighbours s a b).length = 2)
    (hpost : (MeshState.common_neighbours
      (MeshState.flip_bond_unchecked s a b cm cp).1 cm cp).length = 2)
    (hcoha : MeshState.node_geometry_coherent sq s a)
    (hcohb : MeshState.node_geometry_coherent sq s b)
    (hcohcm : MeshState.node_geometry_coherent sq s cm)
    (hcohcp : MeshState.node_geometry_coherent sq s cp) :
    (MeshState.flip_bulk_bond sq s a b mn mx).2.flipped = true ∧
    (MeshState.unflip_bond sq (MeshState.flip_bulk_bond sq s a b mn mx).1
      a b (MeshState.flip_bulk_bond sq s a b mn mx).2).pos = s.pos ∧
    (MeshState.unflip_bond sq (MeshState.flip_bulk_bond sq s a b mn mx).1
      a b (MeshState.flip_bulk_bond sq s a b mn mx).2).nn_ids = s.nn_ids ∧
    (∀ k, MeshState.node_data
      (MeshState.unflip_bond sq (MeshState.flip_bulk_bond sq s a b mn mx).1
        a b (MeshState.flip_bulk_bond sq s a b mn mx).2) k =
      MeshState.node_data s k) ∧
    (MeshState.unflip_bond sq (MeshState.flip_bulk_bond sq s a b mn mx).1
        a b
        (MeshState.flip_bulk_bond sq s a b mn mx).2).global_geometry =
      s.global_geometry := by
  have happ := MeshState.flip_bulk_bond_eq_applied sq s a b cm cp mn mx
    hpn h1 h2 hbx hbn hcpre hpost
  have h1st : (MeshState.flip_bulk_bond sq s a b mn mx).1 =
      MeshState.flip_bulk_bond_applied sq s a b cm cp := by rw [happ]
  have h2nd : (MeshState.flip_bulk_bond sq s a b mn mx).2 =
      (⟨true, cm, cp⟩ : BondFlipData) := by rw [happ]
  have hc2 : s.nn_ids cm = (pc ++ [b]) ++ a :: qc := by rw [hc]; simp
  have hncm2 : ((pc ++ [b]) ++ a :: qc).Nodup := by
    have h0 := hncm
    rw [hc2] at h0
    exact h0
  have hac2 : a ∉ pc ++ [b] :=
    MeshState.not_mem_left_of_nodup_append hncm2 (List.mem_cons_self a qc)
  have hd2 : s.nn_ids cp = (pd ++ [a]) ++ b :: qd := by rw [hd]; simp
  have hncp2 : ((pd ++ [a]) ++ b :: qd).Nodup := by
    have h0 := hncp
    rw [hd2] at h0
    exact h0
  have hbd2 : b ∉ pd ++ [a] :=
    MeshState.not_mem_left_of_nodup_append hncp2 (List.mem_cons_self b qd)
  have heff := MeshState.flip_bond_unchecked_effect
    { s with pre_update_geometry :=
      (MeshState.calculate_diamond_geometry s a b cm cp) }
    hab hacm hacp hbcm hbcp hcmcp ha hna hb hnb hc2 hac2 hd2 hbd2
  have hFring : (MeshState.flip_bulk_bond_applied sq s a b cm cp).nn_ids =
      (MeshState.flip_bond_unchecked
        { s with pre_update_geometry :=
          (MeshState.calculate_diamond_geometry s a b cm cp) }
        a b cm cp).1.nn_ids := by
    rw [MeshState.flip_bulk_bond_applied_nn_ids,
      MeshState.flip_bond_unchecked_fst_nn_ids]
  have hFcm : (MeshState.flip_bulk_bond_applied sq s a b cm cp).nn_ids cm =
      pc ++ b :: cp :: a :: qc := by
    rw [hFring, heff.2.1]
    simp
  have hFcp : (MeshState.flip_bulk_bond_applied sq s a b cm cp).nn_ids cp =
      pd ++ a :: cm :: b :: qd := by
    rw [hFring, heff.2.2.1]
    simp
  have hFa : (MeshState.flip_bulk_bond_applied sq s a b cm cp).nn_ids a =
      pa ++ cm :: cp :: qa := by
    rw [hFring, heff.2.2.2.1]
  have hFb : (MeshState.flip_bulk_bond_applied sq s a b cm cp).nn_ids b =
      pb ++ cp :: cm :: qb := by
    rw [hFring, heff.2.2.2.2.1]
  have hFother : ∀ k, k ≠ a → k ≠ b → k ≠ cm → k ≠ cp →
      (MeshState.flip_bulk_bond_applied sq s a b cm cp).nn_ids k =
        s.nn_ids k := by
    intro k hka hkb hkcm hkcp
    rw [hFring, (heff.2.2.2.2.2.2.2.2.2 k hka hkb hkcm hkcp).1]
  have hFdata : ∀ k, k ≠ a → k ≠ b → k ≠ cm → k ≠ cp →
      MeshState.node_data
        (MeshState.flip_bulk_bond_applied sq s a b cm cp) k =
        MeshState.node_data s k := by
    intro k hka hkb hkcm hkcp
    have hred : MeshState.node_data
        (MeshState.flip_bulk_bond_applied sq s a b cm cp) k =
        MeshState.node_data (MeshState.update_diamond_geometry sq
          (MeshState.flip_bond_unchecked
            { s with pre_update_geometry :=
              (MeshState.calculate_diamond_geometry s a b cm cp) }
            a b cm cp).1 a b cm cp) k := by
      simp only [MeshState.flip_bulk_bond_applied, MeshState.node_data,
        MeshState.update_global_nn_distances, MeshState.update_global_area,
        MeshState.update_global_volume, MeshState.update_global_ube,
        MeshState.update_global_curv]
    rw [hred]
    simp only [MeshState.update_diamond_geometry]
    rw [MeshState.update_bulk_node_data_ne sq _ hkcp,
      MeshState.update_bulk_node_data_ne sq _ hkcm,
      MeshState.update_bulk_node_data_ne sq _ hkb,
      MeshState.update_bulk_node_data_ne sq _ hka]
    have h10 := heff.2.2.2.2.2.2.2.2.2 k hka hkb hkcm hkcp
    simp only [MeshState.node_data, h10.2,
      MeshState.flip_bond_unchecked_area,
      MeshState.flip_bond_unchecked_volume,
      MeshState.flip_bond_unchecked_ube,
      MeshState.flip_bond_unchecked_curv]
  have hnFcm : ((MeshState.flip_bulk_bond_applied sq s a b cm cp).nn_ids
      cm).Nodup := by
    rw [hFcm]
    have hx : cp ∉ (pc ++ [b]) ++ a :: qc := by
      have h0 := hcpcm
      rw [hc2] at h0
      exact h0
    have h0 := MeshState.nodup_middle_insert hncm2 hx
    simpa using h0
  have hnFcp : ((MeshState.flip_bulk_bond_applied sq s a b cm cp).nn_ids
      cp).Nodup := by
    rw [hFcp]
    have hx : cm ∉ (pd ++ [a]) ++ b :: qd := by
      have h0 := hcmincp
      rw [hd2] at h0
      exact h0
    have h0 := MeshState.nodup_middle_insert hncp2 hx
    simpa using h0
  have hFb2 : (MeshState.flip_bulk_bond_applied sq s a b cm cp).nn_ids b =
      (pb ++ [cp]) ++ cm :: qb := by
    rw [hFb]
    simp
  have hcmpb : cm ∉ pb ++ [cp] := by
    have h0 : (pb ++ cp :: a :: cm :: qb).Nodup := by
      have h3 := hnb
      rw [hb] at h3
      exact h3
    have h4 : cm ∉ pb :=
      MeshState.not_mem_left_of_nodup_append h0 (by simp)
    simp [h4, hcmcp]
  have hFa2 : (MeshState.flip_bulk_bond_applied sq s a b cm cp).nn_ids a =
      (pa ++ [cm]) ++ cp :: qa := by
    rw [hFa]
    simp
  have hcppa : cp ∉ pa ++ [cm] := by
    have h0 : (pa ++ cm :: b :: cp :: qa).Nodup := by
      have h3 := hna
      rw [ha] at h3
      exact h3
    have h4 : cp ∉ pa :=
      MeshState.not_mem_left_of_nodup_append h0 (by simp)
    simp [h4, hcmcp.symm]
  have heff2 := MeshState.flip_bond_unchecked_effect
    (MeshState.flip_bulk_bond_applied sq s a b cm cp)
    hcmcp (Ne.symm hbcm) (Ne.symm hacm) (Ne.symm hbcp) (Ne.symm hacp)
    (Ne.symm hab) hFcm hnFcm hFcp hnFcp hFb2 hcmpb hFa2 hcppa
  have hu1ring : (MeshState.flip_bond_unchecked
      (MeshState.flip_bulk_bond_applied sq s a b cm cp)
      cm cp b a).1.nn_ids = s.nn_ids := by
    funext k
    by_cases hka : k = a
    · subst hka
      rw [heff2.2.2.1, ha]
      simp
    by_cases hkb : k = b
    · subst hkb
      rw [heff2.2.1, hb]
      simp
    by_cases hkcm : k = cm
    · subst hkcm
      rw [heff2.2.2.2.1, hc]
    by_cases hkcp : k = cp
    · subst hkcp
      rw [heff2.2.2.2.2.1, hd]
    rw [(heff2.2.2.2.2.2.2.2.2.2 k hkcm hkcp hkb hka).1,
      hFother k hka hkb hkcm hkcp]
  have hu1pos : (MeshState.flip_bond_unchecked
      (MeshState.flip_bulk_bond_applied sq s a b cm cp)
      cm cp b a).1.pos = s.pos := by
    rw [MeshState.flip_bond_unchecked_pos,
      MeshState.flip_bulk_bond_applied_pos]
  rw [h1st, h2nd]
  refine ⟨rfl, ?_, ?_, ?_, ?_⟩
  · rw [MeshState.unflip_bond_pos, MeshState.flip_bulk_bond_applied_pos]
  · rw [MeshState.unflip_bond_nn_ids]
    show flipRing
        (MeshState.flip_bulk_bond_applied sq s a b cm cp).nn_ids cm cp b a
      = s.nn_ids
    rw [← MeshState.flip_bond_unchecked_fst_nn_ids, hu1ring]
  · intro k
    have hred : MeshState.node_data (MeshState.unflip_bond sq
        (MeshState.flip_bulk_bond_applied sq s a b cm cp) a b
        ⟨true, cm, cp⟩) k =
        MeshState.node_data (MeshState.update_diamond_geometry sq
          (MeshState.flip_bond_unchecked
            (MeshState.flip_bulk_bond_applied sq s a b cm cp)
            cm cp b a).1 a b cm cp) k := by
      simp only [MeshState.unflip_bond, MeshState.node_data,
        MeshState.update_global_nn_distances, MeshState.update_global_area,
        MeshState.update_global_volume, MeshState.update_global_ube,
        MeshState.update_global_curv]
    rw [hred]
    by_cases hk : k = a ∨ k = b ∨ k = cm ∨ k = cp
    · exact MeshState.update_diamond_restores sq hab hacm hacp hbcm hbcp
        hcmcp hu1pos hu1ring hcoha hcohb hcohcm hcohcp k hk
    · push_neg at hk
      obtain ⟨hka, hkb, hkcm, hkcp⟩ := hk
      simp only [MeshState.update_diamond_geometry]
      rw [MeshState.update_bulk_node_data_ne sq _ hkcp,
        MeshState.update_bulk_node_data_ne sq _ hkcm,
        MeshState.update_bulk_node_data_ne sq _ hkb,
        MeshState.update_bulk_node_data_ne sq _ hka]
      have h10 := heff2.2.2.2.2.2.2.2.2.2 k hkcm hkcp hkb hka
      have hstep : MeshState.node_data (MeshState.flip_bond_unchecked
          (MeshState.flip_bulk_bond_applied sq s a b cm cp)
          cm cp b a).1 k =
          MeshState.node_data
            (MeshState.flip_bulk_bond_applied sq s a b cm cp) k := by
        simp only [MeshState.node_data, h10.2,
          MeshState.flip_bond_unchecked_area,
          MeshState.flip_bond_unchecked_volume,
          MeshState.flip_bond_unchecked_ube,
          MeshState.flip_bond_unchecked_curv]
      rw [hstep, hFdata k hka hkb hkcm hkcp]
  · rw [MeshState.unflip_bond_global,
      MeshState.flip_bulk_bond_applied_global]
    abel


/-- Consistency of the global aggregate is preserved by a successful flip
followed immediately by the unflip, under the round-trip hypotheses. -/
theorem flip_unflip_preserves_total {R : Type} [LinearOrderedField R]
    (sq : R → R) (s : MeshState R) (a b cm cp : ℕ) (mn mx : R)
    (hab : a ≠ b) (hacm : a ≠ cm) (hacp : a ≠ cp)
    (hbcm : b ≠ cm) (hbcp : b ≠ cp) (hcmcp : cm ≠ cp)
    {pa qa : List ℕ} (ha : s.nn_ids a = pa ++ cm :: b :: cp :: qa)
    (hna : (s.nn_ids a).Nodup)
    {pb qb : List ℕ} (hb : s.nn_ids b = pb ++ cp :: a :: cm :: qb)
    (hnb : (s.nn_ids b).Nodup)
    {pc qc : List ℕ} (hc : s.nn_ids cm = pc ++ b :: a :: qc)
    (hncm : (s.nn_ids cm).Nodup) (hcpcm : cp ∉ s.nn_ids cm)
    {pd qd : List ℕ} (hd : s.nn_ids cp = pd ++ a :: b :: qd)
    (hncp : (s.nn_ids cp).Nodup) (hcmincp : cm ∉ s.nn_ids cp)
    (hpn : MeshState.previous_and_next_neighbour_global_ids s a b =
      ⟨cm, cp⟩)
    (h1 : BOND_DONATION_CUTOFF < (s.nn_ids a).length)
    (h2 : BOND_DONATION_CUTOFF < (s.nn_ids b).length)
    (hbx : (s.pos cm - s.pos cp).norm_square < mx)
    (hbn : mn < (s.pos cm - s.pos cp).norm_square)
    (hcpre : (MeshState.common_neighbours s a b).length = 2)
    (hpost : (MeshState.common_neighbours
      (MeshState.flip_bond_unchecked s a b cm cp).1 cm cp).length = 2)
    (hcoha : MeshState.node_geometry_coherent sq s a)
    (hcohb : MeshState.node_geometry_coherent sq s b)
    (hcohcm : MeshState.node_geometry_coherent sq s cm)
    (hcohcp : MeshState.node_geometry_coherent sq s cp)
    (h : MeshState.global_consistent s) :
    MeshState.global_consistent (MeshState.unflip_bond sq
      (MeshState.flip_bulk_bond sq s a b mn mx).1 a b
      (MeshState.flip_bulk_bond sq s a b mn mx).2) := by
  obtain ⟨hflip, hpos2, hring2, hdata2, hglob2⟩ :=
    flip_unflip_restores sq s a b cm cp mn mx hab hacm hacp hbcm hbcp
      hcmcp ha hna hb hnb hc hncm hcpcm hd hncp hcmincp hpn h1 h2 hbx hbn
      hcpre hpost hcoha hcohb hcohcm hcohcp
  unfold MeshState.global_consistent at h ⊢
  have hn : (MeshState.unflip_bond sq
      (MeshState.flip_bulk_bond sq s a b mn mx).1 a b
      (MeshState.flip_bulk_bond sq s a b mn mx).2).n_nodes = s.n_nodes := by
    rw [MeshState.unflip_bond_n_nodes, MeshState.flip_bulk_bond_fst_n_nodes]
  rw [hglob2, hn, h]
  refine congrArg List.sum (List.map_congr_left ?_)
  intro k _
  exact (MeshState.node_geometry_eq_of_node_data (hdata2 k)).symm

/-- C3 (amended): for a mesh state and an edge `(a, b)` whose diamond ring
layouts are free of wraparound (each ring stores its consecutive triple
contiguously), with duplicate-free rings, on which a flip succeeds (all four
guards pass), and whose four diamond nodes are geometrically coherent (their
stored geometry equals the recomputed one, as on every state the engine
builds), calling `unflip_bond(a, b, report)` immediately after the flip
restores every node's neighbor ring, every node's edge-vector list and
geometric scalars, the positions, and the global aggregate exactly.  (For a
wrapped ring layout the donor ring is restored only up to rotation, so the
claim's unconditional "exactly" fails; see the counterexample.) -/
theorem C3_flip_unflip_roundtrip {R : Type} [LinearOrderedField R]
    (sq : R → R) (s : MeshState R) (a b cm cp : ℕ) (mn mx : R)
    (hab : a ≠ b) (hacm : a ≠ cm) (hacp : a ≠ cp)
    (hbcm : b ≠ cm) (hbcp : b ≠ cp) (hcmcp : cm ≠ cp)
    {pa qa : List ℕ} (ha : s.nn_ids a = pa ++ cm :: b :: cp :: qa)
    (hna : (s.nn_ids a).Nodup)
    {pb qb : List ℕ} (hb : s.nn_ids b = pb ++ cp :: a :: cm :: qb)
    (hnb : (s.nn_ids b).Nodup)
    {pc qc : List ℕ} (hc : s.nn_ids cm = pc ++ b :: a :: qc)
    (hncm : (s.nn_ids cm).Nodup) (hcpcm : cp ∉ s.nn_ids cm)
    {pd qd : List ℕ} (hd : s.nn_ids cp = pd ++ a :: b :: qd)
    (hncp : (s.nn_ids cp).Nodup) (hcmincp : cm ∉ s.nn_ids cp)
    (hpn : MeshState.previous_and_next_neighbour_global_ids s a b =
      ⟨cm, cp⟩)
    (h1 : BOND_DONATION_CUTOFF < (s.nn_ids a).length)
    (h2 : BOND_DONATION_CUTOFF < (s.nn_ids b).length)
    (hbx : (s.pos cm - s.pos cp).norm_square < mx)
    (hbn : mn < (s.pos cm - s.pos cp).norm_square)
    (hcpre : (MeshState.common_neighbours s a b).length = 2)
    (hpost : (MeshState.common_neighbours
      (MeshState.flip_bond_unchecked s a b cm cp).1 cm cp).length = 2)
    (hcoha : MeshState.node_geometry_coherent sq s a)
    (hcohb : MeshState.node_geometry_coherent sq s b)
    (hcohcm : MeshState.node_geometry_coherent sq s cm)
    (hcohcp : MeshState.node_geometry_coherent sq s cp) :
    (MeshState.flip_bulk_bond sq s a b mn mx).2.flipped = true ∧
    (MeshState.unflip_bond sq (MeshState.flip_bulk_bond sq s a b mn mx).1
      a b (MeshState.flip_bulk_bond sq s a b mn mx).2).pos = s.pos ∧
    (MeshState.unflip_bond sq (MeshState.flip_bulk_bond sq s a b mn mx).1
      a b (MeshState.flip_bulk_bond sq s a b mn mx).2).nn_ids = s.nn_ids ∧
    (∀ k, MeshState.node_data
      (MeshState.unflip_bond sq (MeshState.flip_bulk_bond sq s a b mn mx).1
        a b (MeshState.flip_bulk_bond sq s a b mn mx).2) k =
      MeshState.node_data s k) ∧
    (MeshState.unflip_bond sq (MeshState.flip_bulk_bond sq s a b mn mx).1
        a b
        (MeshState.flip_bulk_bond sq s a b mn mx).2).global_geometry =
      s.global_geometry :=
  flip_unflip_restores sq s a b cm cp mn mx hab hacm hacp hbcm hbcp hcmcp
    ha hna hb hnb hc hncm hcpcm hd hncp hcmincp hpn h1 h2 hbx hbn hcpre
    hpost hcoha hcohb hcohcm hcohcp

/-- C3 counterexample: on the concrete state whose donor ring stores the
diamond triple wrapped around the end of the list, the flip of `(0, 1)`
succeeds (report `(c-, c+) = (2, 3)`), yet the immediate unflip leaves node
`0`'s ring a proper rotation of the original — not equal to it — so the
claimed unconditional exact restoration fails. -/
theorem C3_counterexample :
    (MeshState.flip_bulk_bond (fun x => (x : ℚ)) wrapState 0 1 0 100).2 =
      ⟨true, 2, 3⟩ ∧
    (MeshState.unflip_bond (fun x => (x : ℚ))
        (MeshState.flip_bulk_bond (fun x => (x : ℚ)) wrapState 0 1 0 100).1
        0 1
        (MeshState.flip_bulk_bond (fun x => (x : ℚ)) wrapState 0 1
          0 100).2).nn_ids 0 ≠ wrapState.nn_ids 0 := by
  have hb : (wrapState.pos 2 - wrapState.pos 3).norm_square = 1 := by
    norm_num [wrapState, examplePos, vec3.norm_square, vec3.dot]
  have happ := MeshState.flip_bulk_bond_eq_applied (fun x => (x : ℚ))
    wrapState 0 1 2 3 0 100 (by decide) (by decide) (by decide)
    (by rw [hb]; norm_num) (by rw [hb]; norm_num) (by decide) (by decide)
  have h1st : (MeshState.flip_bulk_bond (fun x => (x : ℚ)) wrapState
      0 1 0 100).1 =
      MeshState.flip_bulk_bond_applied (fun x => (x : ℚ)) wrapState
        0 1 2 3 := by rw [happ]
  have h2nd : (MeshState.flip_bulk_bond (fun x => (x : ℚ)) wrapState
      0 1 0 100).2 = (⟨true, 2, 3⟩ : BondFlipData) := by rw [happ]
  refine ⟨h2nd, ?_⟩
  rw [h1st, h2nd, MeshState.unflip_bond_nn_ids,
    MeshState.flip_bulk_bond_applied_nn_ids]
  decide

/-- C3 witness: the amended round-trip theorem applied to the concrete
12-node colinear state, edge `(0, 1)` with receivers `(2, 3)`: the flip
succeeds and the unflip restores the ring table exactly. -/
theorem C3_witness :
    (MeshState.flip_bulk_bond (fun x => (x : ℚ)) roundtripState
      0 1 0 100).2.flipped = true ∧
    (MeshState.unflip_bond (fun x => (x : ℚ))
        (MeshState.flip_bulk_bond (fun x => (x : ℚ)) roundtripState
          0 1 0 100).1
        0 1
        (MeshState.flip_bulk_bond (fun x => (x : ℚ)) roundtripState 0 1
          0 100).2).nn_ids = roundtripState.nn_ids := by
  have hb : (roundtripState.pos 2 - roundtripState.pos 3).norm_square
      = 1 := by
    norm_num [roundtripState, examplePos, vec3.norm_square, vec3.dot]
  have hcoh : ∀ t : ℕ, MeshState.node_geometry_coherent
      (fun x => (x : ℚ)) roundtripState t := by
    intro t
    exact colinear_coherent roundtripState rfl t rfl rfl rfl rfl rfl
  have h := C3_flip_unflip_roundtrip (fun x => (x : ℚ)) roundtripState
    0 1 2 3 0 100
    (by decide) (by decide) (by decide) (by decide) (by decide) (by decide)
    (show roundtripState.nn_ids 0 = [] ++ 2 :: 1 :: 3 :: [4, 5] from
      by decide)
    (by decide)
    (show roundtripState.nn_ids 1 = [] ++ 3 :: 0 :: 2 :: [6, 7] from
      by decide)
    (by decide)
    (show roundtripState.nn_ids 2 = [] ++ 1 :: 0 :: [8, 9] from by decide)
    (by decide) (by decide)
    (show roundtripState.nn_ids 3 = [] ++ 0 :: 1 :: [10, 11] from by decide)
    (by decide) (by decide)
    (by decide) (by decide) (by decide)
    (by rw [hb]; norm_num) (by rw [hb]; norm_num)
    (by decide) (by decide)
    (hcoh 0) (hcoh 1) (hcoh 2) (hcoh 3)
  exact ⟨h.1, h.2.2.1⟩


/-- C6: the stored global aggregate equals the componentwise per-node sum
of `(area, volume, unit_bending_energy)` after construction and after each
mutator, although each mutator only applies a local pre/post delta: (a)
`make_global_geometry` establishes the invariant whenever the bulk and
boundary id lists enumerate the nodes; (b) `move_node` preserves it when
the moved node's two-ring has no duplicates and stays in range; (c)
`flip_bulk_bond` preserves it — on every guard-failure branch, on the
rollback branch, and on the success branch — when the four diamond nodes
are distinct and in range; (d) a successful flip followed by the unflip
preserves it under the round-trip hypotheses. -/
theorem C6_global_aggregate_consistency {R : Type} [LinearOrderedField R]
    (sq : R → R) :
    (∀ s : MeshState R,
      (s.bulk_nodes_ids ++ s.boundary_nodes_ids).Perm
        (List.range s.n_nodes) →
      MeshState.global_consistent (MeshState.make_global_geometry sq s)) ∧
    (∀ (s : MeshState R) (i : ℕ) (d : vec3 R),
      (i :: s.nn_ids i).Nodup →
      (∀ k ∈ i :: s.nn_ids i, k < s.n_nodes) →
      MeshState.global_consistent s →
      MeshState.global_consistent (MeshState.move_node sq s i d)) ∧
    (∀ (s : MeshState R) (a b cm cp : ℕ) (mn mx : R),
      MeshState.previous_and_next_neighbour_global_ids s a b = ⟨cm, cp⟩ →
      a ≠ b → a ≠ cm → a ≠ cp → b ≠ cm → b ≠ cp → cm ≠ cp →
      (∀ k ∈ [a, b, cm, cp], k < s.n_nodes) →
      MeshState.global_consistent s →
      MeshState.global_consistent
        (MeshState.flip_bulk_bond sq s a b mn mx).1) ∧
    (∀ (s : MeshState R) (a b cm cp : ℕ) (mn mx : R)
      (pa qa pb qb pc qc pd qd : List ℕ),
      a ≠ b → a ≠ cm → a ≠ cp → b ≠ cm → b ≠ cp → cm ≠ cp →
      s.nn_ids a = pa ++ cm :: b :: cp :: qa → (s.nn_ids a).Nodup →
      s.nn_ids b = pb ++ cp :: a :: cm :: qb → (s.nn_ids b).Nodup →
      s.nn_ids cm = pc ++ b :: a :: qc → (s.nn_ids cm).Nodup →
      cp ∉ s.nn_ids cm →
      s.nn_ids cp = pd ++ a :: b :: qd → (s.nn_ids cp).Nodup →
      cm ∉ s.nn_ids cp →
      MeshState.previous_and_next_neighbour_global_ids s a b = ⟨cm, cp⟩ →
      BOND_DONATION_CUTOFF < (s.nn_ids a).length →
      BOND_DONATION_CUTOFF < (s.nn_ids b).length →
      (s.pos cm - s.pos cp).norm_square < mx →
      mn < (s.pos cm - s.pos cp).norm_square →
      (MeshState.common_neighbours s a b).length = 2 →
      (MeshState.common_neighbours
        (MeshState.flip_bond_unchecked s a b cm cp).1 cm cp).length = 2 →
      MeshState.node_geometry_coherent sq s a →
      MeshState.node_geometry_coherent sq s b →
      MeshState.node_geometry_coherent sq s cm →
      MeshState.node_geometry_coherent sq s cp →
      MeshState.global_consistent s →
      MeshState.global_consistent (MeshState.unflip_bond sq
        (MeshState.flip_bulk_bond sq s a b mn mx).1 a b
        (MeshState.flip_bulk_bond sq s a b mn mx).2)) := by
  refine ⟨?_, ?_, ?_, ?_⟩
  · intro s hperm
    exact MeshState.make_global_consistent sq s hperm
  · intro s i d hnd hmem h
    exact MeshState.move_node_preserves_total sq s i d hnd hmem h
  · intro s a b cm cp mn mx hpn hab hacm hacp hbcm hbcp hcmcp hmem h
    exact MeshState.flip_preserves_total sq s mn mx hpn hab hacm hacp
      hbcm hbcp hcmcp hmem h
  · intro s a b cm cp mn mx pa qa pb qb pc qc pd qd hab hacm hacp hbcm
      hbcp hcmcp ha hna hb hnb hc hncm hcpcm hd hncp hcmincp hpn h1 h2
      hbx hbn hcpre hpost hcoha hcohb hcohcm hcohcp h
    exact flip_unflip_preserves_total sq s a b cm cp mn mx hab hacm hacp
      hbcm hbcp hcmcp ha hna hb hnb hc hncm hcpcm hd hncp hcmincp hpn h1
      h2 hbx hbn hcpre hpost hcoha hcohb hcohcm hcohcp h

/-- C6 witness: the construction pass on the concrete 15-node state, whose
bulk list is exactly `range 15` with no boundary, establishes the
aggregate-consistency invariant. -/
theorem C6_witness :
    MeshState.global_consistent (MeshState.make_global_geometry
      (fun x => (x : ℚ)) rollbackState) :=
  (C6_global_aggregate_consistency (fun x => (x : ℚ))).1 rollbackState
    (by decide)

end fp
